import Mathlib

/-!
Verification of the Iterative Prompt Refinement & Configuration Selection
Engine (`src/prompt` of the repository): a shallow embedding of
`prompt_refiner.py`, `analyzers.py`, `parameters.py`,
`template_generator.py`, `utils.py` and the template tables, together with
theorems about the embedded definitions.

Modelling conventions:
* Python numbers (ints and floats) are modelled exactly as decimal
  rationals `m / 10^e` (`PyNum`).  Every numeric literal in the sources is
  a decimal, and the only numeric operations the code performs are
  comparison, `min`/`max` clamping and `int()` truncation, all of which
  are exact on decimals.
* Python values are modelled by the inductive `PyVal` (None, bool, number,
  string, list, dict); Python dicts are association lists with unique
  keys, updated in place.
* Fallible Python code (statements that can raise an uncaught exception)
  is modelled in `Except String`; code whose exceptions are caught by a
  surrounding `try`/`except` is modelled as a total function.
* The external model endpoint (`model_req`) is modelled by an oracle
  `ℕ → String` giving the raw text of each gateway response (a transport
  failure surfaces as the `!!ERROR!!` text, which contains no parseable
  JSON).  The wall clock (`time.strftime`) is a `String` parameter `now`.
-/

/-- Exact decimal number `m / 10^e`, the model of Python ints (`e = 0`)
and of the float literals and parsed decimals occurring in the program. -/
structure PyNum where
  m : ℤ
  e : ℕ
deriving DecidableEq, Repr

/-- Rational value of a `PyNum`. -/
def PyNum.toRat (d : PyNum) : ℚ := (d.m : ℚ) / (10 : ℚ) ^ d.e

/-- Strict order on values (`a < b` in Python). -/
def pnLt (a b : PyNum) : Bool := a.m * (10 : ℤ) ^ b.e < b.m * (10 : ℤ) ^ a.e

/-- Non-strict order on values (`a <= b` in Python). -/
def pnLe (a b : PyNum) : Bool := a.m * (10 : ℤ) ^ b.e ≤ b.m * (10 : ℤ) ^ a.e

/-- Value equality (`a == b` in Python; `0.70 == 0.7`). -/
def pnBeq (a b : PyNum) : Bool := a.m * (10 : ℤ) ^ b.e = b.m * (10 : ℤ) ^ a.e

/-- Python `min(a, b)`: returns `b` if `b < a`, else `a` (first argument
wins ties). -/
def pymin (a b : PyNum) : PyNum := if pnLt b a then b else a

/-- Python `max(a, b)`: returns `b` if `a < b`, else `a` (first argument
wins ties). -/
def pymax (a b : PyNum) : PyNum := if pnLt a b then b else a

/-- Python `int(x)` on a number: truncation toward zero. -/
def pnTrunc (d : PyNum) : ℤ := Int.tdiv d.m ((10 : ℤ) ^ d.e)

/-- Python `min` on ints. -/
def pyminI (a b : ℤ) : ℤ := if b < a then b else a

/-- Python `max` on ints. -/
def pymaxI (a b : ℤ) : ℤ := if a < b then b else a

theorem pnLt_iff (a b : PyNum) : pnLt a b = true ↔ a.toRat < b.toRat := by
  have ha : (0 : ℚ) < (10 : ℚ) ^ a.e := by positivity
  have hb : (0 : ℚ) < (10 : ℚ) ^ b.e := by positivity
  simp only [pnLt, PyNum.toRat, decide_eq_true_eq, div_lt_div_iff₀ ha hb]
  constructor
  · intro h
    exact_mod_cast h
  · intro h
    exact_mod_cast h

theorem pnLe_iff (a b : PyNum) : pnLe a b = true ↔ a.toRat ≤ b.toRat := by
  have ha : (0 : ℚ) < (10 : ℚ) ^ a.e := by positivity
  have hb : (0 : ℚ) < (10 : ℚ) ^ b.e := by positivity
  simp only [pnLe, PyNum.toRat, decide_eq_true_eq, div_le_div_iff₀ ha hb]
  constructor
  · intro h
    exact_mod_cast h
  · intro h
    exact_mod_cast h

theorem pnLt_false_iff (a b : PyNum) : pnLt a b = false ↔ b.toRat ≤ a.toRat := by
  rw [← Bool.not_eq_true, pnLt_iff, not_lt]

theorem toRat_pymin (a b : PyNum) : (pymin a b).toRat = min a.toRat b.toRat := by
  unfold pymin
  rcases h : pnLt b a with hf | ht
  · rw [pnLt_false_iff] at h
    simp [min_eq_left h]
  · rw [pnLt_iff] at h
    simp [min_eq_right h.le]

theorem toRat_pymax (a b : PyNum) : (pymax a b).toRat = max a.toRat b.toRat := by
  unfold pymax
  rcases h : pnLt a b with hf | ht
  · rw [pnLt_false_iff] at h
    simp [max_eq_left h]
  · rw [pnLt_iff] at h
    simp [max_eq_right h.le]

/-- Structural idempotence of the two-sided clamp
`max lo (min hi ·)` (Python `max(lo, min(hi, x))`). -/
theorem clamp_idem (lo hi x : PyNum) (h : pnLt lo hi = true) :
    pymax lo (pymin hi (pymax lo (pymin hi x))) = pymax lo (pymin hi x) := by
  unfold pymax pymin
  rcases h1 : pnLt x hi with hf1 | ht1 <;> rcases h2 : pnLt lo x with hf2 | ht2 <;>
    simp [h1, h2, h]

/-- Structural idempotence of the integer clamp `max lo (min hi ·)`. -/
theorem clampI_idem (lo hi x : ℤ) (h : lo < hi) :
    pymaxI lo (pyminI hi (pymaxI lo (pyminI hi x))) = pymaxI lo (pyminI hi x) := by
  unfold pymaxI pyminI
  split <;> split <;> omega

/-! ### Python string primitives

All string algorithms are implemented on `List Char` with an explicit fuel
argument (always instantiated with the list length, which bounds the
number of scanning steps), so that every function is structurally
recursive and evaluates inside the kernel. -/

/-- The whitespace characters of Python's `str.strip` / `str.split`. -/
def isPySpace (c : Char) : Bool :=
  c = ' ' || c = '\t' || c = '\n' || c = '\r' || c = '\x0b' || c = '\x0c'

/-- Python `str.lower` (the program only feeds ASCII text to it). -/
def lowerStr (s : String) : String := ⟨s.data.map Char.toLower⟩

/-- Python `str.strip()`. -/
def pyStrip (s : String) : String :=
  ⟨((s.data.dropWhile isPySpace).reverse.dropWhile isPySpace).reverse⟩

/-- First alternative (in order) of `alts` that is a literal prefix of
`cs`, returning its length; this is how a regex alternation of literals
matches at one position. -/
def firstAlt (alts : List (List Char)) (cs : List Char) : Option ℕ :=
  alts.findSome? (fun a => if a.isPrefixOf cs then some a.length else none)

/-- Number of non-overlapping, leftmost-first matches of the literal
alternation `alts` in `cs`: the semantics of `len(re.findall(p, s))` for
the alternation-of-literals patterns used by the classifier. -/
def scanCount (alts : List (List Char)) : ℕ → List Char → ℕ
  | 0, _ => 0
  | _ + 1, [] => 0
  | fuel + 1, c :: rest =>
    match firstAlt alts (c :: rest) with
    | some len => 1 + scanCount alts fuel ((c :: rest).drop len)
    | none => scanCount alts fuel rest

/-- Python `needle in hay` (substring containment), on char lists;
the empty needle is contained everywhere. -/
def containsCL (needle : List Char) : ℕ → List Char → Bool
  | _, [] => needle.isEmpty
  | 0, _ :: _ => false
  | fuel + 1, c :: rest => needle.isPrefixOf (c :: rest) || containsCL needle fuel rest

/-- Python `needle in hay` on strings. -/
def strContains (hay needle : String) : Bool :=
  containsCL needle.data hay.data.length hay.data

/-- Python `hay.replace(pat, rep)` (leftmost, non-overlapping; the program
only replaces non-empty patterns). -/
def replaceCL (pat rep : List Char) : ℕ → List Char → List Char
  | _, [] => []
  | 0, cs => cs
  | fuel + 1, c :: rest =>
    if pat ≠ [] && pat.isPrefixOf (c :: rest) then
      rep ++ replaceCL pat rep fuel ((c :: rest).drop pat.length)
    else
      c :: replaceCL pat rep fuel rest

/-- Python `s.replace(pat, rep)` on strings. -/
def strReplace (s pat rep : String) : String :=
  ⟨replaceCL pat.data rep.data s.data.length s.data⟩

/-- Python `s.split()` (split on runs of whitespace, dropping empties). -/
def splitWsCL : ℕ → List Char → List (List Char)
  | _, [] => []
  | 0, _ :: _ => []
  | fuel + 1, c :: rest =>
    if isPySpace c then splitWsCL fuel rest
    else (c :: rest.takeWhile (fun d => !isPySpace d)) ::
      splitWsCL fuel (rest.dropWhile (fun d => !isPySpace d))

/-- Python `" ".join(s.split())`: collapse every whitespace run to a
single space and strip the ends. -/
def collapseWs (s : String) : String :=
  ⟨List.intercalate [' '] (splitWsCL s.data.length s.data)⟩

/-- Lookup in the keyword dictionary of a `str.format` call. -/
def lookupFmt (vals : List (String × String)) (key : List Char) : Option String :=
  (vals.find? (fun kv => kv.1.data == key)).map Prod.snd

/-- Single pass of Python `template.format(**vals)`: substitutes each
`\x7bname\x7d` field simultaneously, understands the `\x7b\x7b` and
`\x7d\x7d` escapes, and returns `none` when formatting would raise
(unknown field name, stray or unclosed brace).  Format specifications
(`:`-suffixes) are not modelled; the program's templates use plain fields
only, and every caller catches formatting errors. -/
def pyFormatAux (vals : List (String × String)) : ℕ → List Char → Option (List Char)
  | _, [] => some []
  | 0, _ :: _ => none
  | fuel + 1, '{' :: '{' :: rest => (pyFormatAux vals fuel rest).map ('{' :: ·)
  | fuel + 1, '}' :: '}' :: rest => (pyFormatAux vals fuel rest).map ('}' :: ·)
  | fuel + 1, '{' :: rest =>
    let key := rest.takeWhile (fun c => c ≠ '}' && c ≠ '{')
    match rest.drop key.length with
    | '}' :: rest2 =>
      match lookupFmt vals key with
      | some v => (pyFormatAux vals fuel rest2).map (v.data ++ ·)
      | none => none
    | _ => none
  | _ + 1, '}' :: _ => none
  | fuel + 1, c :: rest => (pyFormatAux vals fuel rest).map (c :: ·)

/-- Python `template.format(**vals)` on strings (`none` = raises). -/
def pyFormat (template : String) (vals : List (String × String)) : Option String :=
  (pyFormatAux vals template.data.length template.data).map (⟨·⟩)

/-! ### Parsing numbers from strings (Python `float(s)` / `int(s)`) -/

/-- Numeric value of a digit string. -/
def digitsToNat (ds : List Char) : ℕ :=
  ds.foldl (fun a c => a * 10 + (c.toNat - 48)) 0

/-- Shift a decimal by an integer power of ten (for float exponents). -/
def pnApplyExp (base : PyNum) (x : ℤ) : PyNum :=
  if (base.e : ℤ) - x ≤ 0 then ⟨base.m * (10 : ℤ) ^ ((x - base.e).toNat), 0⟩
  else ⟨base.m, ((base.e : ℤ) - x).toNat⟩

/-- Exponent suffix of a float literal (`e`/`E`, optional sign, digits). -/
def parseExpPart (base : PyNum) : List Char → Option PyNum
  | [] => some base
  | 'e' :: r => parseExpDigits base r
  | 'E' :: r => parseExpDigits base r
  | _ => none
where
  parseExpDigits (base : PyNum) : List Char → Option PyNum
    | '+' :: d => if d ≠ [] && d.all Char.isDigit then some (pnApplyExp base (digitsToNat d)) else none
    | '-' :: d => if d ≠ [] && d.all Char.isDigit then some (pnApplyExp base (-(digitsToNat d : ℤ))) else none
    | d => if d ≠ [] && d.all Char.isDigit then some (pnApplyExp base (digitsToNat d)) else none

/-- Unsigned part of a Python float literal: digits, optional fraction,
optional exponent (`inf`/`nan`/underscores are not modelled; no claim
involves them). -/
def parseUnsignedFloat (cs : List Char) : Option PyNum :=
  let ip := cs.takeWhile Char.isDigit
  let r1 := cs.dropWhile Char.isDigit
  match r1 with
  | '.' :: r2 =>
    let fp := r2.takeWhile Char.isDigit
    let r3 := r2.dropWhile Char.isDigit
    if ip = [] && fp = [] then none
    else parseExpPart ⟨(digitsToNat ip : ℤ) * (10 : ℤ) ^ fp.length + digitsToNat fp, fp.length⟩ r3
  | _ =>
    if ip = [] then none
    else parseExpPart ⟨(digitsToNat ip : ℤ), 0⟩ r1

/-- Python `float(s)` on a string: optional surrounding whitespace,
optional sign, decimal literal; `none` models `ValueError`. -/
def parseFloatStr (s : String) : Option PyNum :=
  match (pyStrip s).data with
  | '-' :: rest => (parseUnsignedFloat rest).map (fun d => ⟨-d.m, d.e⟩)
  | '+' :: rest => parseUnsignedFloat rest
  | cs => parseUnsignedFloat cs

/-- Python `int(s)` on a string: optional surrounding whitespace, optional
sign, digits only; `none` models `ValueError`. -/
def parseIntStr (s : String) : Option ℤ :=
  match (pyStrip s).data with
  | '-' :: rest => if rest ≠ [] && rest.all Char.isDigit then some (-(digitsToNat rest : ℤ)) else none
  | '+' :: rest => if rest ≠ [] && rest.all Char.isDigit then some (digitsToNat rest : ℤ) else none
  | cs => if cs ≠ [] && cs.all Char.isDigit then some (digitsToNat cs : ℤ) else none

/-! ### Python values and dicts -/

/-- Model of the Python values flowing through the program: `None`,
booleans, numbers, strings, lists and string-keyed dicts (the shapes
produced by `json.loads` and by the program's own literals). -/
inductive PyVal where
  | vnone
  | vbool (b : Bool)
  | vnum (d : PyNum)
  | vstr (s : String)
  | vlist (xs : List PyVal)
  | vdict (kvs : List (String × PyVal))

/-- A Python dict: an association list with the textually first binding of
a key authoritative (the program's dicts keep keys unique). -/
abbrev PyDict := List (String × PyVal)

mutual
/-- Python `==` on values: numbers compare by value (`True == 1`,
`0.70 == 0.7`), containers element-wise. -/
def pyEq : PyVal → PyVal → Bool
  | .vnone, .vnone => true
  | .vbool a, .vbool b => a == b
  | .vbool a, .vnum b => pnBeq ⟨if a then 1 else 0, 0⟩ b
  | .vnum a, .vbool b => pnBeq a ⟨if b then 1 else 0, 0⟩
  | .vnum a, .vnum b => pnBeq a b
  | .vstr a, .vstr b => a == b
  | .vlist as, .vlist bs => pyEqList as bs
  | .vdict as, .vdict bs => pyEqFields as bs
  | _, _ => false

def pyEqList : List PyVal → List PyVal → Bool
  | [], [] => true
  | a :: as, b :: bs => pyEq a b && pyEqList as bs
  | _, _ => false

def pyEqFields : List (String × PyVal) → List (String × PyVal) → Bool
  | [], [] => true
  | (k, a) :: as, (k', b) :: bs => k == k' && pyEq a b && pyEqFields as bs
  | _, _ => false
end

/-- Python truthiness. -/
def pyTruthy : PyVal → Bool
  | .vnone => false
  | .vbool b => b
  | .vnum d => d.m ≠ 0
  | .vstr s => s ≠ ""
  | .vlist xs => !xs.isEmpty
  | .vdict kvs => !kvs.isEmpty

/-- Python `str(x)` as used to interpolate a value into prompt text
(f-strings and `format`).  Container reprs are abbreviated: they are only
reachable when a model response embeds a container where the program
expects text, and no claim depends on their exact rendering. -/
def pyStr : PyVal → String
  | .vnone => "None"
  | .vbool b => if b then "True" else "False"
  | .vnum d => if d.e = 0 then toString d.m else toString d.m ++ "e-" ++ toString d.e
  | .vstr s => s
  | .vlist _ => "[...]"
  | .vdict _ => "\x7b...\x7d"

/-- Python `float(x)`: the error case models the uncaught
`ValueError`/`TypeError`. -/
def pyFloatE : PyVal → Except String PyNum
  | .vnum d => .ok d
  | .vbool b => .ok ⟨if b then 1 else 0, 0⟩
  | .vstr s =>
    match parseFloatStr s with
    | some d => .ok d
    | none => .error "ValueError: could not convert string to float"
  | _ => .error "TypeError: float() argument must be a string or a real number"

/-- Python `int(x)` (truncation for numbers, digit strings only for
strings). -/
def pyIntE : PyVal → Except String ℤ
  | .vnum d => .ok (pnTrunc d)
  | .vbool b => .ok (if b then 1 else 0)
  | .vstr s =>
    match parseIntStr s with
    | some n => .ok n
    | none => .error "ValueError: invalid literal for int() with base 10"
  | _ => .error "TypeError: int() argument must be a string or a real number"

/-- `float(x)` inside a `try`/`except (ValueError, TypeError)` block. -/
def pyFloatO (v : PyVal) : Option PyNum := (pyFloatE v).toOption

/-- `int(x)` inside a `try`/`except (ValueError, TypeError)` block. -/
def pyIntO (v : PyVal) : Option ℤ := (pyIntE v).toOption

/-- `k in d` for a Python dict. -/
def hasKey : PyDict → String → Bool
  | [], _ => false
  | kv :: tl, k => kv.1 == k || hasKey tl k

/-- `d.get(k)` (first binding of `k`, if any). -/
def dictGetOpt : PyDict → String → Option PyVal
  | [], _ => none
  | kv :: tl, k => if kv.1 == k then some kv.2 else dictGetOpt tl k

/-- `d.get(k, dflt)`. -/
def dictGet (d : PyDict) (k : String) (dflt : PyVal) : PyVal :=
  (dictGetOpt d k).getD dflt

/-- Replace the value of every binding of `k` in place (the program's
dicts bind each key once). -/
def setExisting : PyDict → String → PyVal → PyDict
  | [], _, _ => []
  | kv :: tl, k, v => (if kv.1 == k then (kv.1, v) else kv) :: setExisting tl k v

/-- `d[k] = v`: replace the value of an existing key in place, else
append the new binding (Python dict insertion-order semantics). -/
def dictSet (d : PyDict) (k : String) (v : PyVal) : PyDict :=
  if hasKey d k then setExisting d k v else d ++ [(k, v)]

/-- `d.update(u)`: apply the bindings of `u` left to right. -/
def dictUpdate (d : PyDict) (u : PyDict) : PyDict :=
  u.foldl (fun acc kv => dictSet acc kv.1 kv.2) d

theorem keys_setExisting (d : PyDict) (k : String) (v : PyVal) :
    (setExisting d k v).map Prod.fst = d.map Prod.fst := by
  induction d with
  | nil => rfl
  | cons kv tl ih =>
    simp only [setExisting, List.map_cons, ih]
    split <;> rfl

theorem hasKey_setExisting (d : PyDict) (k k' : String) (v : PyVal) :
    hasKey (setExisting d k v) k' = hasKey d k' := by
  induction d with
  | nil => rfl
  | cons kv tl ih =>
    by_cases hk : kv.1 = k <;> simp [setExisting, hasKey, hk, ih]

theorem hasKey_append_single (d : PyDict) (k k' : String) (v : PyVal) :
    hasKey (d ++ [(k, v)]) k' = (hasKey d k' || k == k') := by
  induction d with
  | nil => simp [hasKey]
  | cons kv tl ih => simp [hasKey, ih, Bool.or_assoc]

theorem hasKey_dictSet (d : PyDict) (k k' : String) (v : PyVal) :
    hasKey (dictSet d k v) k' = (hasKey d k' || k == k') := by
  unfold dictSet
  split
  · rename_i h
    rw [hasKey_setExisting]
    by_cases hk : k = k'
    · subst hk
      simp [h]
    · simp [hk]
  · exact hasKey_append_single d k k' v

theorem keys_dictSet_of_hasKey (d : PyDict) (k : String) (v : PyVal)
    (h : hasKey d k = true) : (dictSet d k v).map Prod.fst = d.map Prod.fst := by
  rw [dictSet, if_pos h]
  exact keys_setExisting d k v

theorem dictGetOpt_setExisting_self (d : PyDict) (k : String) (v : PyVal)
    (h : hasKey d k = true) : dictGetOpt (setExisting d k v) k = some v := by
  induction d with
  | nil => simp [hasKey] at h
  | cons kv tl ih =>
    by_cases hk : kv.1 = k
    · simp [setExisting, dictGetOpt, hk]
    · simp only [hasKey, Bool.or_eq_true, beq_iff_eq] at h
      rcases h with h | h
      · exact absurd h hk
      · simp [setExisting, dictGetOpt, hk, ih h]

theorem dictGetOpt_append_single_none (d : PyDict) (k : String) (v : PyVal)
    (h : hasKey d k = false) : dictGetOpt (d ++ [(k, v)]) k = some v := by
  induction d with
  | nil => simp [dictGetOpt]
  | cons kv tl ih =>
    simp only [hasKey, Bool.or_eq_false_iff, beq_eq_false_iff_ne] at h
    simp [dictGetOpt, h.1, ih h.2]

theorem dictGetOpt_dictSet_self (d : PyDict) (k : String) (v : PyVal) :
    dictGetOpt (dictSet d k v) k = some v := by
  unfold dictSet
  split
  · exact dictGetOpt_setExisting_self d k v (by assumption)
  · exact dictGetOpt_append_single_none d k v (by rename_i h; simpa using h)

theorem dictGetOpt_setExisting_ne (d : PyDict) (k k' : String) (v : PyVal)
    (h : k' ≠ k) : dictGetOpt (setExisting d k v) k' = dictGetOpt d k' := by
  induction d with
  | nil => rfl
  | cons kv tl ih =>
    by_cases hk : kv.1 = k
    · simp [setExisting, dictGetOpt, hk, Ne.symm h, ih]
    · simp [setExisting, dictGetOpt, hk, ih]

theorem dictGetOpt_append_single_ne (d : PyDict) (k k' : String) (v : PyVal)
    (h : k' ≠ k) : dictGetOpt (d ++ [(k, v)]) k' = dictGetOpt d k' := by
  induction d with
  | nil => simp [dictGetOpt, Ne.symm h]
  | cons kv tl ih =>
    by_cases hk' : kv.1 = k' <;> simp [dictGetOpt, hk', ih]

theorem dictGetOpt_dictSet_ne (d : PyDict) (k k' : String) (v : PyVal)
    (h : k' ≠ k) : dictGetOpt (dictSet d k v) k' = dictGetOpt d k' := by
  unfold dictSet
  split
  · exact dictGetOpt_setExisting_ne d k k' v h
  · exact dictGetOpt_append_single_ne d k k' v h

theorem setExisting_setExisting_self (d : PyDict) (k : String) (v w : PyVal) :
    setExisting (setExisting d k v) k w = setExisting d k w := by
  induction d with
  | nil => rfl
  | cons kv tl ih =>
    by_cases hk : kv.1 = k <;> simp [setExisting, hk, ih]

theorem setExisting_of_not_hasKey (d : PyDict) (k : String) (w : PyVal)
    (h : hasKey d k = false) : setExisting d k w = d := by
  induction d with
  | nil => rfl
  | cons kv tl ih =>
    simp only [hasKey, Bool.or_eq_false_iff, beq_eq_false_iff_ne] at h
    simp [setExisting, h.1, ih h.2]

theorem setExisting_append (d e : PyDict) (k : String) (w : PyVal) :
    setExisting (d ++ e) k w = setExisting d k w ++ setExisting e k w := by
  induction d with
  | nil => rfl
  | cons kv tl ih => simp [setExisting, ih]

theorem dictSet_dictSet_self (d : PyDict) (k : String) (v w : PyVal) :
    dictSet (dictSet d k v) k w = dictSet d k w := by
  unfold dictSet
  by_cases h : hasKey d k = true
  · rw [if_pos h, if_pos (by rw [hasKey_setExisting]; exact h), if_pos h]
    exact setExisting_setExisting_self d k v w
  · rw [if_neg h, if_neg h, if_pos (by rw [hasKey_append_single]; simp),
      setExisting_append, setExisting_of_not_hasKey d k w (by simpa using h)]
    simp [setExisting]

/-! ### Template and parameter tables

`templates.py` and `default_templates.py` carry identical copies of the
role-template and technique-template tables (the latter without
`guided_conversation`), and `parameters.py` and `default_templates.py`
carry identical copies of `TASK_PARAMETERS`; each table is transcribed
once. -/

/-- `ROLE_TEMPLATES`. -/
def ROLE_TEMPLATES : List (String × String) := [
  ("Mathematician", "Solve this mathematical problem step-by-step: {query}\n\nShow your reasoning clearly."),
  ("Statistician", "Analyze this statistical problem: {query}\n\nProvide a detailed explanation of the statistical concepts involved and show your calculations."),
  ("Computer Scientist", "Explain this computer science concept: {query}\n\nBreak down the theory, applications, and provide examples."),
  ("Physicist", "Explain this physics problem: {query}\n\nApply the relevant physical laws and show your calculations step-by-step."),
  ("Historian", "Analyze this historical event or period: {query}\n\nProvide context, key figures, causes, effects, and significance."),
  ("Literature Professor", "Analyze this text or literary concept: {query}\n\nDiscuss themes, literary devices, historical context, and significance."),
  ("Biologist", "Explain this biological process or concept: {query}\n\nDescribe the mechanisms, components, and significance in detail."),
  ("Software Engineer", "Write code to solve the following problem:\n{query}\n\nProvide a clear explanation of your implementation."),
  ("Data Scientist", "Analyze this dataset/problem: {query}\n\nOutline your approach, methods, and provide insights from the data."),
  ("Systems Architect", "Design a system architecture for: {query}\n\nExplain components, interactions, trade-offs, and rationale."),
  ("Database Administrator", "Address this database challenge: {query}\n\nProvide SQL queries, schema designs, or optimization strategies as needed."),
  ("DevOps Engineer", "Solve this deployment/infrastructure issue: {query}\n\nProvide configuration examples, scripts, and best practices."),
  ("QA Engineer", "Develop a testing strategy for: {query}\n\nOutline test cases, methodologies, and quality assurance approaches."),
  ("Copywriter", "Create compelling copy for: {query}\n\nTailor the tone, style, and messaging to the target audience."),
  ("Technical Writer", "Create documentation for: {query}\n\nProvide clear, concise instructions with appropriate technical detail."),
  ("Creative Writer", "Write a creative piece based on: {query}\n\nFocus on narrative, character development, and engaging storytelling."),
  ("Journalist", "Write a news article about: {query}\n\nInclude the who, what, when, where, why, and how. Maintain objectivity and cite sources."),
  ("Essay Writer", "Write an essay on: {query}\n\nDevelop a clear thesis, supporting arguments, and thoughtful conclusion."),
  ("Business Analyst", "Analyze this business scenario: {query}\n\nProvide insights, identify opportunities, and suggest improvements."),
  ("Product Manager", "Develop a product strategy for: {query}\n\nAddress market fit, user needs, competitive landscape, and implementation approach."),
  ("Marketing Strategist", "Create a marketing strategy for: {query}\n\nIdentify target audience, positioning, channels, and metrics for success."),
  ("Financial Analyst", "Perform financial analysis on: {query}\n\nProvide calculations, interpretations, and strategic recommendations."),
  ("Management Consultant", "Provide consulting advice for: {query}\n\nAnalyze the situation, identify key issues, and recommend solutions."),
  ("Teacher", "Create a lesson plan for: {query}\n\nInclude learning objectives, activities, assessments, and differentiation strategies."),
  ("Tutor", "Explain this concept for a student: {query}\n\nUse simple language, analogies, and examples to aid understanding."),
  ("Professor", "Explain the following concept in clear, simple terms:\n{query}"),
  ("Career Counselor", "Provide career advice regarding: {query}\n\nConsider skills, interests, market trends, and practical next steps."),
  ("Research Scientist", "Design a research methodology for: {query}\n\nOutline hypotheses, methods, controls, analysis techniques, and limitations."),
  ("Literature Reviewer", "Synthesize research on: {query}\n\nIdentify key findings, contradictions, gaps, and future directions."),
  ("Grant Writer", "Outline a grant proposal for: {query}\n\nAddress significance, innovation, approach, and expected outcomes."),
  ("Legal Analyst", "Analyze this legal question: {query}\n\nDiscuss relevant laws, precedents, arguments, and potential outcomes."),
  ("Policy Analyst", "Analyze this policy issue: {query}\n\nConsider stakeholders, trade-offs, evidence, and recommendations."),
  ("Ethics Advisor", "Provide ethical analysis of: {query}\n\nConsider multiple perspectives, principles, consequences, and recommendations."),
  ("Explainer", "Explain this concept in simple terms: {query}\n\nUse analogies, examples, and clear language."),
  ("Planner", "Create a detailed plan for: {query}\n\nInclude steps, resources, timeline, and potential challenges."),
  ("Analyzer", "Analyze the following: {query}\n\nBreak down components, identify patterns, and provide insights."),
  ("Summarizer", "Summarize the following: {query}\n\nCapture the key points, main arguments, and significant details."),
  ("Assistant", "{query}")]

/-- `PROMPT_TECHNIQUES` of `default_templates.py`. -/
def PROMPT_TECHNIQUES : List (String × String) := [
  ("zero_shot", "{query}"),
  ("few_shot", "Here are some examples:\n\nExample 1: [First example]\nAnswer: [First answer]\n\nExample 2: [Second example]\nAnswer: [Second answer]\n\nNow answer this: {query}"),
  ("chain_of_thought", "Think through this step-by-step: {query}\n\nLet\x27s break this down into parts and solve methodically."),
  ("self_consistency", "Consider multiple approaches to solve this problem: {query}\n\nApproach 1:\nApproach 2:\nApproach 3:\n\nBased on these approaches, the most consistent answer is:"),
  ("tree_of_thought", "Let\x27s explore different reasoning paths for: {query}\n\nPath A:\n  Step A1\n  Step A2\n  Outcome A\n\nPath B:\n  Step B1\n  Step B2\n  Outcome B\n\nEvaluating these paths, the best solution is:"),
  ("role_playing", "You are an expert {role}. {query}"),
  ("structured_output", "Provide your answer in the following format:\n\n1. Initial thoughts\n2. Analysis\n3. Solution steps\n4. Final answer\n5. Verification\n\n{query}"),
  ("socratic", "To answer: {query}\n\nLet me ask myself some clarifying questions:\n1. What are the key components of this problem?\n2. What information do I need to solve it?\n3. What assumptions am I making?\n4. How can I verify my answer?")]

/-- `TECHNIQUE_TEMPLATES` of `templates.py`: the same eight entries plus
`guided_conversation`. -/
def TECHNIQUE_TEMPLATES : List (String × String) :=
  PROMPT_TECHNIQUES ++
  [("guided_conversation", "Let\x27s discuss this step by step. I\x27ll guide you through analyzing: {query}\n\nFirst, let\x27s clarify the scope and objectives. Then we\x27ll explore key considerations, and finally develop a detailed response.")]

/-- One `TASK_PARAMETERS` entry: temperature in tenths, context size,
prediction length. -/
def taskP (t c p : ℤ) : PyDict :=
  [("temperature", .vnum ⟨t, 1⟩), ("num_ctx", .vnum ⟨c, 0⟩), ("num_predict", .vnum ⟨p, 0⟩)]

/-- `TASK_PARAMETERS` (identical in `parameters.py` and
`default_templates.py`). -/
def TASK_PARAMETERS : List (String × PyDict) := [
  ("math", taskP 2 2048 1024),
  ("statistics", taskP 3 2048 1024),
  ("physics", taskP 3 2048 1024),
  ("chemistry", taskP 3 2048 1024),
  ("biology", taskP 4 2048 1280),
  ("history", taskP 5 3072 1536),
  ("literature", taskP 6 3072 1536),
  ("coding", taskP 3 4096 2048),
  ("data_analysis", taskP 3 3072 1536),
  ("system_design", taskP 4 3072 1536),
  ("database", taskP 3 2048 1024),
  ("devops", taskP 3 3072 1536),
  ("testing", taskP 4 2048 1280),
  ("copywriting", taskP 7 2048 1536),
  ("technical_writing", taskP 4 3072 1536),
  ("creative_writing", taskP 8 4096 3096),
  ("journalism", taskP 5 3072 1536),
  ("essay", taskP 6 3072 2048),
  ("business_analysis", taskP 5 2560 1536),
  ("product_strategy", taskP 6 2560 1536),
  ("marketing", taskP 7 2560 1536),
  ("financial_analysis", taskP 3 2560 1280),
  ("consulting", taskP 5 3072 1536),
  ("teaching", taskP 5 2560 1536),
  ("tutoring", taskP 4 2048 1280),
  ("career_advice", taskP 6 2048 1280),
  ("research_design", taskP 4 3584 1792),
  ("literature_review", taskP 5 4096 2048),
  ("grant_writing", taskP 5 3072 1792),
  ("legal_analysis", taskP 4 3584 1792),
  ("policy_analysis", taskP 5 3072 1536),
  ("ethical_analysis", taskP 6 3072 1536),
  ("explanation", taskP 5 2048 1280),
  ("planning", taskP 5 2560 1536),
  ("analysis", taskP 5 2560 1536),
  ("summarization", taskP 4 2560 1024),
  ("translation", taskP 3 2048 1280),
  ("creative", taskP 8 4096 3096),
  ("default", taskP 7 2048 1024)]

/-- Lookup in a string-valued table. -/
def lookupStr (tbl : List (String × String)) (k : String) : Option String :=
  (tbl.find? (fun kv => kv.1 == k)).map Prod.snd

/-- `get_role_template(role)` for a string role: table lookup with the
`Assistant` template (the identity `"{query}"`) as default. -/
def get_role_template (role : String) : String :=
  (lookupStr ROLE_TEMPLATES role).getD "{query}"

/-- `get_role_template` applied to an arbitrary value (the `role` slot of
a parsed model response): an unhashable key raises `TypeError` out of the
dict lookup; any other non-string key just misses the table. -/
def get_role_template_v : PyVal → Except String String
  | .vdict _ => .error "TypeError: unhashable type: dict"
  | .vlist _ => .error "TypeError: unhashable type: list"
  | .vstr s => .ok (get_role_template s)
  | _ => .ok "{query}"

/-- `get_prompt_technique(technique)` of `default_templates.py`: table
lookup with the `zero_shot` template (`"{query}"`) as default. -/
def get_prompt_technique (technique : String) : String :=
  (lookupStr PROMPT_TECHNIQUES technique).getD "{query}"

/-- `get_technique_template(technique_name)` of `templates.py`, applied
to an arbitrary value: falsy input and unknown names give `"{query}"`;
`none` models the `TypeError` of an unhashable key (always caught by the
caller). -/
def get_technique_template_v : PyVal → Option String
  | .vdict _ => none
  | .vlist _ => none
  | .vstr s => some (if s = "" then "{query}" else (lookupStr TECHNIQUE_TEMPLATES s).getD "{query}")
  | _ => some "{query}"

/-- `get_task_parameters(task_type)` (= `TASK_PARAMETERS.get(task_type,
TASK_PARAMETERS["default"])`). -/
def get_task_parameters (task_type : String) : PyDict :=
  ((TASK_PARAMETERS.find? (fun kv => kv.1 == task_type)).map Prod.snd).getD (taskP 7 2048 1024)

/-- `get_parameters_for_task(task_type)` of `parameters.py`, as invoked by
the program (no base-parameter override). -/
def get_parameters_for_task (task_type : String) : PyDict :=
  get_task_parameters task_type

/-! ### The rule-based classifier (`template_generator.py`)

Every detection pattern in the source is a case-insensitive regex
alternation of literals (the branch `step[s]?` is the two literals
`steps`, `step`); each is transcribed as its ordered list of lowercase
alternatives, and `re.findall`/`re.search` become `scanCount`. -/

/-- Matches of one pattern in the lowercased message. -/
def countPattern (alts : List String) (msgLower : List Char) : ℕ :=
  scanCount (alts.map String.data) msgLower.length msgLower

/-- `role_patterns` of `detect_role`. -/
def role_patterns : List (String × List String) := [
  ("Mathematician", ["math", "calculate", "equation", "solve", "formula", "+", "-", "*", "/", "^", "log", "sin", "cos"]),
  ("Software Engineer", ["code", "program", "function", "algorithm", "class", "api"]),
  ("Data Scientist", ["data", "analysis", "statistics", "correlation", "dataset", "predict"]),
  ("Teacher", ["explain", "teach", "learn", "understand", "concept", "example"]),
  ("Creative Writer", ["story", "write", "creative", "narrative", "plot", "character"]),
  ("Business Analyst", ["business", "market", "strategy", "analyze", "roi", "profit"]),
  ("Physicist", ["physics", "force", "motion", "energy", "quantum", "momentum"]),
  ("Biologist", ["biology", "cell", "organism", "gene", "evolution", "species"]),
  ("Historian", ["history", "century", "period", "war", "civilization", "empire"]),
  ("Psychologist", ["psychology", "behavior", "mental", "cognitive", "emotion"]),
  ("Financial Analyst", ["finance", "stock", "investment", "market", "portfolio", "risk"]),
  ("Language Expert", ["grammar", "language", "sentence", "word", "phrase", "meaning"]),
  ("Systems Architect", ["system", "architecture", "design", "infrastructure", "scalability"]),
  ("Product Manager", ["product", "feature", "user", "requirement", "roadmap", "market"])]

/-- `detect_role(message)`: collect matching roles in table order; a
unique match wins directly, several matches are decided by occurrence
count (Python `max`: the first role with the highest count), no match
falls back to `"Assistant"`. -/
def detect_role (message : String) : String :=
  let ml := (lowerStr message).data
  let matched := role_patterns.filter (fun rp => countPattern rp.2 ml ≠ 0)
  match matched with
  | [] => "Assistant"
  | [r] => r.1
  | r :: rs =>
    (rs.foldl (fun b y =>
      if countPattern y.2 ml > countPattern b.2 ml then y else b) r).1

/-- `technique_patterns` of `detect_prompt_technique` (pattern, priority). -/
def technique_patterns : List (String × List String × ℕ) := [
  ("chain_of_thought", (["steps", "step", "how to", "process", "method", "solve", "calculate"], 3)),
  ("tree_of_thought", (["compare", "different ways", "alternatives", "options", "choose", "decide"], 4)),
  ("self_consistency", (["verify", "check", "confirm", "validate", "ensure", "consistent"], 2)),
  ("socratic", (["explain", "why", "reason", "understand", "concept"], 1)),
  ("structured_output", (["format", "structure", "organize", "list", "categorize"], 2)),
  ("role_playing", (["pretend", "act as", "simulate", "behave as", "respond as"], 3)),
  ("few_shot", (["similar to", "like", "example", "reference", "previous"], 1))]

/-- `detect_prompt_technique(message)`: among the matching techniques,
pick the lexicographic maximum of (match count, priority), first entry
winning ties; fall back to `"zero_shot"`. -/
def detect_prompt_technique (message : String) : String :=
  let ml := (lowerStr message).data
  let matched := technique_patterns.filterMap (fun tp =>
    let c := countPattern tp.2.1 ml
    if c ≠ 0 then some (tp.1, c, tp.2.2) else none)
  match matched with
  | [] => "zero_shot"
  | x :: xs =>
    (xs.foldl (fun b y =>
      if y.2.1 > b.2.1 || (y.2.1 = b.2.1 && y.2.2 > b.2.2) then y else b) x).1

/-- `task_patterns` of `detect_task_type` (pattern, example keywords). -/
def task_patterns : List (String × List String × List String) := [
  ("math", (["math", "calculate", "equation", "solve", "+", "-", "*", "/", "formula"],
    ["solve", "calculate", "equation", "formula", "computation"])),
  ("coding", (["code", "program", "function", "algorithm", "implementation"],
    ["implement", "code", "function", "class", "method"])),
  ("creative_writing", (["story", "write", "creative", "narrative", "plot"],
    ["write", "compose", "create", "story", "narrative"])),
  ("analysis", (["analyze", "examine", "study", "investigate", "evaluate"],
    ["analyze", "examine", "evaluate", "assess", "review"])),
  ("explanation", (["explain", "describe", "what is", "how does", "why"],
    ["explain", "describe", "clarify", "elaborate", "detail"])),
  ("planning", (["plan", "strategy", "approach", "method", "steps"],
    ["plan", "organize", "prepare", "arrange", "structure"])),
  ("research", (["research", "study", "investigate", "explore", "literature"],
    ["research", "investigate", "study", "explore", "examine"])),
  ("translation", (["translate", "convert", "language", "meaning", "phrase"],
    ["translate", "convert", "transform", "change", "adapt"])),
  ("summarization", (["summarize", "brief", "overview", "recap", "digest"],
    ["summarize", "condense", "shorten", "brief", "synopsis"]))]

/-- `detect_task_type(message)`: score each task as twice its regex match
count plus the number of example keywords contained in the lowercased
message; pick the first highest-scoring matching task, else
`"default"`. -/
def detect_task_type (message : String) : String :=
  let ml := (lowerStr message).data
  let matched := task_patterns.filterMap (fun tp =>
    let p := countPattern tp.2.1 ml
    let ex := (tp.2.2.filter (fun kw => containsCL kw.data ml.length ml)).length
    if p > 0 || ex > 0 then some (tp.1, p * 2 + ex) else none)
  match matched with
  | [] => "default"
  | x :: xs =>
    (xs.foldl (fun b y => if y.2 > b.2 then y else b) x).1

/-! ### The Model-Analysis Gateway parser (`analyzers.py`)

`json.loads` is modelled by a strict JSON parser over `PyVal` (objects,
arrays, strings with the standard escapes, numbers, literals).  Surrogate
pairs in `\u` escapes are not combined and `Infinity`/`NaN` are rejected;
no claim involves either. -/

/-- JSON insignificant whitespace. -/
def jsonIsWs (c : Char) : Bool := c = ' ' || c = '\t' || c = '\n' || c = '\r'

/-- Skip insignificant whitespace. -/
def jsonSkipWs (cs : List Char) : List Char := cs.dropWhile jsonIsWs

/-- Value of a hex digit, if any. -/
def hexVal (c : Char) : Option ℕ :=
  if c.isDigit then some (c.toNat - 48)
  else if 'a' ≤ c && c ≤ 'f' then some (c.toNat - 87)
  else if 'A' ≤ c && c ≤ 'F' then some (c.toNat - 55)
  else none

/-- JSON number: `-? int frac? exp?` with no leading zeros; returns the
value and the unconsumed input. -/
def jsonParseNumber (cs : List Char) : Option (PyVal × List Char) :=
  let signed : Bool × List Char := match cs with
    | '-' :: r => (true, r)
    | _ => (false, cs)
  let ip := signed.2.takeWhile Char.isDigit
  let r1 := signed.2.dropWhile Char.isDigit
  if ip = [] then none
  else if ip.length > 1 && ip.headD '0' = '0' then none
  else
    let finish : PyNum → List Char → Option (PyVal × List Char) := fun base r =>
      match r with
      | 'e' :: r2 => jsonExp base r2
      | 'E' :: r2 => jsonExp base r2
      | _ => some (.vnum base, r)
    let applySign : PyNum → PyNum := fun d => if signed.1 then ⟨-d.m, d.e⟩ else d
    match r1 with
    | '.' :: r2 =>
      let fp := r2.takeWhile Char.isDigit
      let r3 := r2.dropWhile Char.isDigit
      if fp = [] then none
      else finish (applySign ⟨(digitsToNat ip : ℤ) * (10 : ℤ) ^ fp.length + digitsToNat fp, fp.length⟩) r3
    | _ => finish (applySign ⟨(digitsToNat ip : ℤ), 0⟩) r1
where
  jsonExp (base : PyNum) (r : List Char) : Option (PyVal × List Char) :=
    let signedE : Bool × List Char := match r with
      | '+' :: r2 => (false, r2)
      | '-' :: r2 => (true, r2)
      | _ => (false, r)
    let ds := signedE.2.takeWhile Char.isDigit
    let r3 := signedE.2.dropWhile Char.isDigit
    if ds = [] then none
    else some (.vnum (pnApplyExp base (if signedE.1 then -(digitsToNat ds : ℤ) else (digitsToNat ds : ℤ))), r3)

mutual
/-- One JSON value, by recursive descent (fuel bounds the call depth). -/
def jsonParseValue : ℕ → List Char → Option (PyVal × List Char)
  | 0, _ => none
  | fuel + 1, cs =>
    match jsonSkipWs cs with
    | 'n' :: 'u' :: 'l' :: 'l' :: rest => some (.vnone, rest)
    | 't' :: 'r' :: 'u' :: 'e' :: rest => some (.vbool true, rest)
    | 'f' :: 'a' :: 'l' :: 's' :: 'e' :: rest => some (.vbool false, rest)
    | '"' :: rest => (jsonParseStringBody fuel rest []).map (fun p => (.vstr ⟨p.1⟩, p.2))
    | '{' :: rest =>
      match jsonSkipWs rest with
      | '}' :: rest2 => some (.vdict [], rest2)
      | _ => (jsonParseMembers fuel rest []).map (fun p => (.vdict p.1, p.2))
    | '[' :: rest =>
      match jsonSkipWs rest with
      | ']' :: rest2 => some (.vlist [], rest2)
      | _ => (jsonParseItems fuel rest []).map (fun p => (.vlist p.1, p.2))
    | cs2 => jsonParseNumber cs2

/-- Members of a JSON object; duplicate keys overwrite in place, as in a
Python dict built key by key. -/
def jsonParseMembers : ℕ → List Char → PyDict → Option (PyDict × List Char)
  | 0, _, _ => none
  | fuel + 1, cs, acc =>
    match jsonSkipWs cs with
    | '"' :: rest =>
      match jsonParseStringBody fuel rest [] with
      | none => none
      | some (key, rest2) =>
        match jsonSkipWs rest2 with
        | ':' :: rest3 =>
          match jsonParseValue fuel rest3 with
          | none => none
          | some (v, rest4) =>
            match jsonSkipWs rest4 with
            | ',' :: rest5 => jsonParseMembers fuel rest5 (dictSet acc ⟨key⟩ v)
            | '}' :: rest5 => some (dictSet acc ⟨key⟩ v, rest5)
            | _ => none
        | _ => none
    | _ => none

/-- Items of a JSON array. -/
def jsonParseItems : ℕ → List Char → List PyVal → Option (List PyVal × List Char)
  | 0, _, _ => none
  | fuel + 1, cs, acc =>
    match jsonParseValue fuel cs with
    | none => none
    | some (v, rest) =>
      match jsonSkipWs rest with
      | ',' :: rest2 => jsonParseItems fuel rest2 (acc ++ [v])
      | ']' :: rest2 => some (acc ++ [v], rest2)
      | _ => none

/-- Body of a JSON string after the opening quote. -/
def jsonParseStringBody : ℕ → List Char → List Char → Option (List Char × List Char)
  | 0, _, _ => none
  | fuel + 1, cs, acc =>
    match cs with
    | [] => none
    | '"' :: rest => some (acc, rest)
    | '\\' :: '"' :: rest => jsonParseStringBody fuel rest (acc ++ ['"'])
    | '\\' :: '\\' :: rest => jsonParseStringBody fuel rest (acc ++ ['\\'])
    | '\\' :: '/' :: rest => jsonParseStringBody fuel rest (acc ++ ['/'])
    | '\\' :: 'b' :: rest => jsonParseStringBody fuel rest (acc ++ ['\x08'])
    | '\\' :: 'f' :: rest => jsonParseStringBody fuel rest (acc ++ ['\x0c'])
    | '\\' :: 'n' :: rest => jsonParseStringBody fuel rest (acc ++ ['\n'])
    | '\\' :: 'r' :: rest => jsonParseStringBody fuel rest (acc ++ ['\r'])
    | '\\' :: 't' :: rest => jsonParseStringBody fuel rest (acc ++ ['\t'])
    | '\\' :: 'u' :: h1 :: h2 :: h3 :: h4 :: rest =>
      match hexVal h1, hexVal h2, hexVal h3, hexVal h4 with
      | some a, some b, some c, some d =>
        let n := ((a * 16 + b) * 16 + c) * 16 + d
        if n.isValidChar then jsonParseStringBody fuel rest (acc ++ [Char.ofNat n])
        else none
      | _, _, _, _ => none
    | '\\' :: _ => none
    | c :: rest => if c.toNat < 32 then none else jsonParseStringBody fuel rest (acc ++ [c])
end

/-- `json.loads(s)`: parse one value and insist the whole input is
consumed (up to whitespace). -/
def jsonLoads (s : String) : Option PyVal :=
  match jsonParseValue (4 * s.data.length + 8) s.data with
  | some (v, rest) => if jsonSkipWs rest = [] then some v else none
  | none => none

/-- The hard-coded fallback of `parse_json_response`. -/
def default_config : PyDict := [
  ("quality_score", .vnum ⟨7, 1⟩),
  ("improved_prompt", .vnone),
  ("role", .vstr "Mathematician"),
  ("template", .vstr "Calculate the following mathematical expression step-by-step: {query}"),
  ("parameters", .vdict [("temperature", .vnum ⟨2, 1⟩), ("num_ctx", .vnum ⟨2048, 0⟩), ("num_predict", .vnum ⟨1024, 0⟩)]),
  ("reasoning", .vstr "Default configuration for mathematical calculation")]

/-- `re.search(r'(\x7b.+\x7d)', cs, re.DOTALL)`: the leftmost-longest
match runs from the first `{` to the last `}` provided at least one
character lies between them. -/
def braceSearch (cs : List Char) : Option (List Char) :=
  match cs.findIdx? (fun c => c = '{') with
  | none => none
  | some i =>
    match cs.reverse.findIdx? (fun c => c = '}') with
    | none => none
    | some jr =>
      let j := cs.length - 1 - jr
      if i + 2 ≤ j then some ((cs.drop i).take (j + 1 - i)) else none

/-- `parse_json_response(response)` of `analyzers.py`: empty input, a
missing brace-delimited object, or an undecodable object all fall back to
`default_config`; a decoded object is returned as is.  (The regex is
applied to the response with newlines replaced by spaces, as in the
source.) -/
def parse_json_response (response : String) : PyDict :=
  if response = "" then default_config
  else
    match braceSearch (response.data.map (fun c => if c = '\n' then ' ' else c)) with
    | none => default_config
    | some js =>
      match jsonLoads ⟨js⟩ with
      | some (.vdict d) => d
      | _ => default_config

/-! ### Parameter validation (`parameters.py`) -/

/-- The `temperature` block of `validate_parameters`: parse as float and
clamp to `[0.0, 1.0]`, resetting unparsable input to `0.7`. -/
def validateTemperature (m : PyDict) : PyDict :=
  if hasKey m "temperature" then
    match pyFloatO (dictGet m "temperature" .vnone) with
    | some temp => dictSet m "temperature" (.vnum (pymax ⟨0, 0⟩ (pymin ⟨1, 0⟩ temp)))
    | none => dictSet m "temperature" (.vnum ⟨7, 1⟩)
  else m

/-- The `num_ctx` block: parse as int and clamp to `[512, 8192]`,
resetting unparsable input to `2048`. -/
def validateNumCtx (m : PyDict) : PyDict :=
  if hasKey m "num_ctx" then
    match pyIntO (dictGet m "num_ctx" .vnone) with
    | some ctx => dictSet m "num_ctx" (.vnum ⟨pymaxI 512 (pyminI 8192 ctx), 0⟩)
    | none => dictSet m "num_ctx" (.vnum ⟨2048, 0⟩)
  else m

/-- The `num_predict` block: parse as int and clamp to `[64, 4096]`,
resetting unparsable input to `1024`. -/
def validateNumPredict (m : PyDict) : PyDict :=
  if hasKey m "num_predict" then
    match pyIntO (dictGet m "num_predict" .vnone) with
    | some pred => dictSet m "num_predict" (.vnum ⟨pymaxI 64 (pyminI 4096 pred), 0⟩)
    | none => dictSet m "num_predict" (.vnum ⟨1024, 0⟩)
  else m

/-- `validate_parameters(params)` of `parameters.py`: the three guarded
blocks applied in source order to a copy of the input.  It never raises:
each block catches `ValueError`/`TypeError`. -/
def validate_parameters (params : PyDict) : PyDict :=
  validateNumPredict (validateNumCtx (validateTemperature params))

/-- Python `s in xs` for a list: membership by `==` against the string. -/
def listHasStr (xs : List PyVal) (s : String) : Bool :=
  xs.any (fun e => pyEq (.vstr s) e)

/-- `validate_parameters` applied to an arbitrary value.  A dict is
validated field-wise.  A list has `.copy()`, and `"temperature" in
params` is element membership: when no element equals one of the three
field names the list is returned unchanged; when one does, the indexing
inside the `try` raises a `TypeError` that is caught, and the recovery
assignment `validated[field] = default` then raises the uncaught
`TypeError`.  Any other value raises `AttributeError` at
`params.copy()`, which no caller catches. -/
def validate_parameters_v : PyVal → Except String PyVal
  | .vdict p => .ok (.vdict (validate_parameters p))
  | .vlist xs =>
    if listHasStr xs "temperature" then
      .error "TypeError: list indices must be integers or slices, not str"
    else if listHasStr xs "num_ctx" then
      .error "TypeError: list indices must be integers or slices, not str"
    else if listHasStr xs "num_predict" then
      .error "TypeError: list indices must be integers or slices, not str"
    else .ok (.vlist xs)
  | _ => .error "AttributeError: object has no attribute copy"

/-! ### Prompt composition (`utils.py`) -/

/-- `format_prompt_with_template(template, query, role, technique)` of
`utils.py`.  Every exception inside is caught (technique and role
application fall back to the unmodified running query, and a template
without the `query` placeholder returns the running query), so the model
is a total function. -/
def format_prompt_with_template (template query role technique : PyVal) : String :=
  let t : String :=
    match template with
    | .vstr s => s
    | _ => "{query}"
  let q : String :=
    match query with
    | .vstr s => s
    | .vdict d => if hasKey d "query" then pyStr (dictGet d "query" .vnone) else pyStr (.vdict d)
    | v => pyStr v
  let cq1 : String :=
    if pyTruthy technique then
      match get_technique_template_v technique with
      | none => q
      | some tt =>
        match pyFormat tt [("query", q),
          ("role", if pyTruthy role then pyStr role else "Assistant"),
          ("approach1", "Consider the fundamental principles"),
          ("approach2", "Think about edge cases"),
          ("approach3", "Look for patterns or similarities")] with
        | some s => s
        | none => q
    else q
  let cq2 : String :=
    if pyTruthy role then
      match get_role_template_v role with
      | .error _ => cq1
      | .ok rt =>
        match pyFormat rt [("query", cq1)] with
        | some s => s
        | none => cq1
    else cq1
  if strContains t "{query}" then
    match pyFormat t [("query", cq2)] with
    | some s => s
    | none => cq2
  else cq2

/-! ### The Configuration Finalizer (`prompt_refiner.py`) -/

/-- `format_final_prompt(config, original_message)`: strip the nudge
marker from the final prompt and re-format it as a template over the
original query; a missing `final_prompt` falls through to the original
message.  A non-string `final_prompt` raises `AttributeError` at
`.replace`, which the surrounding `except (KeyError, ValueError,
TypeError)` does not catch. -/
def format_final_prompt (config : PyDict) (original_message : String) : Except String String :=
  if hasKey config "final_prompt" then
    match dictGet config "final_prompt" .vnone with
    | .vstr fp =>
      let fp2 := pyStrip (strReplace fp "(Please refine this further)" "")
      .ok (format_prompt_with_template (.vstr fp2) (.vstr original_message)
        (dictGet config "role" .vnone) (dictGet config "technique" .vnone))
    | _ => .error "AttributeError: replace"
  else .ok original_message

/-- One required-field fill: set the named default only when the field is
absent. -/
def fillStep (k : String) (v : PyVal) (c : PyDict) : PyDict :=
  if hasKey c k then c else dictSet c k v

/-- Required-field fill-in of `_validate_and_clean_config`: absent fields
get their named defaults (in source order: role, template, parameters,
task_type, technique), present fields are untouched. -/
def requiredFill (config : PyDict) : PyDict :=
  fillStep "technique" .vnone
    (fillStep "task_type" (.vstr "default")
      (fillStep "parameters" (.vdict (get_parameters_for_task "default"))
        (fillStep "template" (.vstr "{query}")
          (fillStep "role" (.vstr "Assistant") config))))

/-- Final-delivery clamp of `temperature` to `[0.1, 1.0]`
(`min(max(0.1, float(t)), 1.0)`, uncaught on unparsable input). -/
def clampFinalTemp (params : PyDict) : Except String PyDict :=
  if hasKey params "temperature" then
    match pyFloatE (dictGet params "temperature" .vnone) with
    | .error e => .error e
    | .ok t => .ok (dictSet params "temperature" (.vnum (pymin (pymax ⟨1, 1⟩ t) ⟨1, 0⟩)))
  else .ok params

/-- Final-delivery clamp of `num_ctx` to `[1024, 8192]`. -/
def clampFinalCtx (params : PyDict) : Except String PyDict :=
  if hasKey params "num_ctx" then
    match pyIntE (dictGet params "num_ctx" .vnone) with
    | .error e => .error e
    | .ok c => .ok (dictSet params "num_ctx" (.vnum ⟨pyminI (pymaxI 1024 c) 8192, 0⟩))
  else .ok params

/-- Final-delivery clamp of `num_predict` to `[512, 4096]`. -/
def clampFinalPredict (params : PyDict) : Except String PyDict :=
  if hasKey params "num_predict" then
    match pyIntE (dictGet params "num_predict" .vnone) with
    | .error e => .error e
    | .ok p => .ok (dictSet params "num_predict" (.vnum ⟨pyminI (pymaxI 512 p) 4096, 0⟩))
  else .ok params

/-- The "Validate parameter values" block of `_validate_and_clean_config`:
re-clamp the three critical parameters to the final-delivery bounds.
`"temperature" in params` is a key test on a dict, element membership on
a list and a substring test on a string: a list or string that misses
all three names is skipped silently, a hit dies at the unguarded
indexing, and a non-iterable value dies at the membership test. -/
def boundsClamp (config : PyDict) : Except String PyDict :=
  if hasKey config "parameters" then
    match dictGet config "parameters" .vnone with
    | .vdict params =>
      match clampFinalTemp params with
      | .error e => .error e
      | .ok p1 =>
        match clampFinalCtx p1 with
        | .error e => .error e
        | .ok p2 =>
          match clampFinalPredict p2 with
          | .error e => .error e
          | .ok p3 => .ok (dictSet config "parameters" (.vdict p3))
    | .vlist xs =>
      if listHasStr xs "temperature" then
        .error "TypeError: list indices must be integers or slices, not str"
      else if listHasStr xs "num_ctx" then
        .error "TypeError: list indices must be integers or slices, not str"
      else if listHasStr xs "num_predict" then
        .error "TypeError: list indices must be integers or slices, not str"
      else .ok config
    | .vstr t =>
      if strContains t "temperature" then
        .error "TypeError: string indices must be integers"
      else if strContains t "num_ctx" then
        .error "TypeError: string indices must be integers"
      else if strContains t "num_predict" then
        .error "TypeError: string indices must be integers"
      else .ok config
    | _ => .error "TypeError: argument is not iterable"
  else .ok config

/-- The arithmetic-action verbs of the math recursion guard. -/
def CALC_TERMS : List String := ["calculate", "solve", "compute", "evaluate"]

/-- Math recursion guard: for a math task with a truthy final prompt that
still contains an arithmetic-action verb, substitute the stripped
original query. -/
def mathGuard (config : PyDict) (original_message : String) : Except String PyDict :=
  if pyEq (dictGet config "task_type" .vnone) (.vstr "math")
      && pyTruthy (dictGet config "final_prompt" .vnone) then
    match dictGet config "final_prompt" .vnone with
    | .vstr fp =>
      if CALC_TERMS.any (fun t => strContains (lowerStr fp) t) then
        .ok (dictSet config "final_prompt" (.vstr (pyStrip original_message)))
      else .ok config
    | _ => .error "AttributeError: lower"
  else .ok config

/-- Template-format check: a non-string template or one without the
`query` placeholder is reset to the identity template. -/
def templateCheck (config : PyDict) : PyDict :=
  if hasKey config "template" then
    match dictGet config "template" .vnone with
    | .vstr t => if strContains t "{query}" then config else dictSet config "template" (.vstr "{query}")
    | _ => dictSet config "template" (.vstr "{query}")
  else config

/-- The final-prompt cleanup: remove nudge markers, strip, and collapse
duplicate whitespace. -/
def cleanup_final (s : String) : String :=
  collapseWs (pyStrip (strReplace s "(Please refine this further)" ""))

/-- Cleanup step of `_validate_and_clean_config` applied to the
`final_prompt` field when present. -/
def cleanupFinalPrompt (config : PyDict) : Except String PyDict :=
  if hasKey config "final_prompt" then
    match dictGet config "final_prompt" .vnone with
    | .vstr fp => .ok (dictSet config "final_prompt" (.vstr (cleanup_final fp)))
    | _ => .error "AttributeError: replace"
  else .ok config

/-- Metadata attachment (original query, validation flag, timestamp),
performed once. -/
def addMetadata (config : PyDict) (original_message now : String) : PyDict :=
  if hasKey config "metadata" then config
  else dictSet config "metadata" (.vdict
    [("original_query", .vstr original_message),
     ("validation_performed", .vbool true),
     ("validation_timestamp", .vstr now)])

/-- First finalizer step: when a `final_prompt` is present, re-format it
through `format_final_prompt`. -/
def formatStep (config : PyDict) (original_message : String) : Except String PyDict :=
  if hasKey config "final_prompt" then
    match format_final_prompt config original_message with
    | .error e => .error e
    | .ok fp => .ok (dictSet config "final_prompt" (.vstr fp))
  else .ok config

/-- Second finalizer step: when `parameters` is present, run it through
`validate_parameters`. -/
def paramStep (c1 : PyDict) : Except String PyDict :=
  if hasKey c1 "parameters" then
    match validate_parameters_v (dictGet c1 "parameters" .vnone) with
    | .error e => .error e
    | .ok p => .ok (dictSet c1 "parameters" p)
  else .ok c1

/-- `_validate_and_clean_config(config, original_message)`: the eight
steps of the finalizer in source order — final-prompt re-formatting,
parameter validation, required-field fill-in, final-delivery bounds,
math recursion guard, template check, final-prompt cleanup, metadata. -/
def _validate_and_clean_config (config : PyDict) (original_message now : String) :
    Except String PyDict :=
  (formatStep config original_message).bind (fun c1 =>
    (paramStep c1).bind (fun c2 =>
      (boundsClamp (requiredFill c2)).bind (fun c4 =>
        (mathGuard c4 original_message).bind (fun c5 =>
          (cleanupFinalPrompt (templateCheck c5)).map (fun c7 =>
            addMetadata c7 original_message now)))))

/-! ### Initial template selection (`template_generator.py`) -/

/-- A regex function applied to a non-string message raises
`TypeError`. -/
def strOfMsg : PyVal → Except String String
  | .vstr s => .ok s
  | _ => .error "TypeError: expected string or bytes-like object"

/-- `determine_template(message, analysis_result)`: take the role from a
truthy analysis result carrying one, else detect it from the message;
compose the role template into the detected technique template (a
`KeyError` there is caught and keeps the role template); attach detected
task type and its parameter preset. -/
def determine_template (message : PyVal) (analysis_result : Option PyDict) :
    Except String PyDict :=
  let roleE : Except String PyVal :=
    match analysis_result with
    | some ar =>
      if pyTruthy (.vdict ar) && hasKey ar "role" then .ok (dictGet ar "role" .vnone)
      else (strOfMsg message).map (fun s => .vstr (detect_role s))
    | none => (strOfMsg message).map (fun s => .vstr (detect_role s))
  match roleE with
  | .error e => .error e
  | .ok role =>
    match get_role_template_v role with
    | .error e => .error e
    | .ok template0 =>
      match strOfMsg message with
      | .error e => .error e
      | .ok msg =>
        let technique := detect_prompt_technique msg
        let template1 :=
          if technique ≠ "" then
            match pyFormat (get_prompt_technique technique)
                [("role", pyStr role), ("query", template0)] with
            | some t => t
            | none => template0
          else template0
        let task_type := detect_task_type msg
        .ok [("role", role), ("template", .vstr template1),
          ("parameters", .vdict (get_task_parameters task_type)),
          ("technique", .vstr technique), ("task_type", .vstr task_type)]

/-! ### The Refinement Loop (`iterative_prompt_refinement`)

The external gateway (`call_llm_for_analysis` → `model_req`) is an oracle
from the iteration index to the raw response text; since the loop is
deterministic given the responses, quantifying over such oracles covers
every strategy of the external model, including transport failures
(whose `!!ERROR!!` text contains no parseable JSON).  The meta-prompt
text itself is sent to the external collaborator only and does not
influence the loop, so it is not materialised. -/

/-- The mutable state of one refinement run. -/
structure LoopState where
  current_message : PyVal
  current_quality : PyNum
  best_quality : PyNum
  iteration : ℕ
  best_config : Option PyDict
  template_config : PyDict
  current_role : PyVal
  current_task_type : PyVal
  current_technique : PyVal

/-- The best-configuration update of one iteration: a strictly better
quality score adopts the parsed result, and a changed role or technique
re-derives the working configuration through `determine_template`. -/
def bestUpdate (st : LoopState) (result : PyDict) (cq : PyNum) : Except String LoopState :=
  if pnLt st.best_quality cq then
    let st1 := { st with best_config := some result, best_quality := cq }
    if !pyEq (dictGet result "role" .vnone) st1.current_role
        || !pyEq (dictGet result "technique" .vnone) st1.current_technique then
      match determine_template st1.current_message (some result) with
      | .error e => .error e
      | .ok ntc =>
        .ok { st1 with
          current_role := dictGet ntc "role" st1.current_role,
          current_technique := dictGet ntc "technique" st1.current_technique,
          current_task_type := dictGet ntc "task_type" st1.current_task_type,
          template_config := dictUpdate st1.template_config ntc }
    else .ok st1
  else .ok st

/-- The candidate-update and stopping logic of one iteration: adopt a
truthy, different improved prompt, otherwise break early (when allowed)
or append the nudge suffix; then increment the counter and re-check the
stopping condition.  `.inl` is a `break`, `.inr` continues. -/
def messageStep (force_continue : Bool) (threshold : PyNum) (st : LoopState)
    (result : PyDict) : LoopState ⊕ LoopState :=
  let improved := dictGet result "improved_prompt" .vnone
  if pyTruthy improved && !pyEq improved st.current_message then
    let st2 := { st with current_message := improved, iteration := st.iteration + 1 }
    if !force_continue && pnLe threshold st2.current_quality then .inl st2 else .inr st2
  else
    if !force_continue && pnLe threshold st.current_quality then .inl st
    else
      let st2 := { st with
        current_message := .vstr (pyStr st.current_message ++ " (Please refine this further)"),
        iteration := st.iteration + 1 }
      if !force_continue && pnLe threshold st2.current_quality then .inl st2 else .inr st2

/-- The `while iteration < max_iterations` loop; the fuel is the number of
remaining iterations (`max_iterations - iteration`). -/
def loopGo (minIt : ℕ) (threshold : PyNum) (oracle : ℕ → String) :
    ℕ → LoopState → Except String LoopState
  | 0, st => .ok st
  | fuel + 1, st =>
    let force_continue := decide (st.iteration < minIt)
    let result := parse_json_response (oracle st.iteration)
    match pyFloatE (dictGet result "quality_score" (.vnum ⟨0, 0⟩)) with
    | .error e => .error e
    | .ok cq =>
      match bestUpdate { st with current_quality := cq } result cq with
      | .error e => .error e
      | .ok st1 =>
        match messageStep force_continue threshold st1 result with
        | .inl stBreak => .ok stBreak
        | .inr stCont => loopGo minIt threshold oracle fuel stCont

/-- The post-loop logic of `iterative_prompt_refinement`: the fallback
configuration when no best one was recorded, otherwise finalisation,
formatting and parameter validation of the best configuration; both paths
end in `_validate_and_clean_config`. -/
def finishRun (initial_message now : String) (st : LoopState) : Except String PyDict :=
  match st.best_config with
  | none =>
    let bc := dictUpdate st.template_config
      [("final_prompt", st.current_message),
       ("iterations_used", .vnum ⟨(st.iteration : ℤ), 0⟩),
       ("final_quality", .vnum st.current_quality)]
    _validate_and_clean_config bc initial_message now
  | some bc0 =>
    match _validate_and_clean_config bc0 initial_message now with
    | .error e => .error e
    | .ok bc1 =>
      let formatted := format_prompt_with_template (dictGet bc1 "template" (.vstr "{query}"))
        st.current_message (dictGet bc1 "role" .vnone) (dictGet bc1 "technique" .vnone)
      match validate_parameters_v (dictGet bc1 "parameters" (.vdict [])) with
      | .error e => .error e
      | .ok params =>
        let bc2 := dictUpdate bc1
          [("final_prompt", .vstr formatted),
           ("iterations_used", .vnum ⟨(st.iteration : ℤ), 0⟩),
           ("final_quality", .vnum st.current_quality),
           ("parameters", params)]
        _validate_and_clean_config bc2 initial_message now

/-- `iterative_prompt_refinement(initial_message, min_iterations,
max_iterations, threshold)` of `prompt_refiner.py` (source defaults:
3, 5, 0.9), against the gateway `oracle` and wall clock `now`. -/
def iterative_prompt_refinement (initial_message : String)
    (min_iterations max_iterations : ℕ) (threshold : PyNum)
    (oracle : ℕ → String) (now : String) : Except String PyDict :=
  match determine_template (.vstr initial_message) none with
  | .error e => .error e
  | .ok template_config =>
    let st0 : LoopState := {
      current_message := .vstr initial_message,
      current_quality := ⟨0, 0⟩,
      best_quality := ⟨0, 0⟩,
      iteration := 0,
      best_config := none,
      template_config := template_config,
      current_role := dictGet template_config "role" (.vstr "Assistant"),
      current_task_type := dictGet template_config "task_type" (.vstr "default"),
      current_technique := dictGet template_config "technique" (.vstr "zero_shot") }
    match loopGo min_iterations threshold oracle max_iterations st0 with
    | .error e => .error e
    | .ok st => finishRun initial_message now st

/-! ### Lemmas about the parameter validator -/

theorem hasKey_of_getOpt (d : PyDict) (k : String) (v : PyVal)
    (h : dictGetOpt d k = some v) : hasKey d k = true := by
  induction d with
  | nil => simp [dictGetOpt] at h
  | cons kv tl ih =>
    by_cases hk : kv.1 = k
    · simp [hasKey, hk]
    · simp only [dictGetOpt, beq_iff_eq, hk, if_false] at h
      simp [hasKey, hk, ih h]

theorem getOpt_of_hasKey (d : PyDict) (k : String) (h : hasKey d k = true) :
    ∃ v, dictGetOpt d k = some v := by
  induction d with
  | nil => simp [hasKey] at h
  | cons kv tl ih =>
    by_cases hk : kv.1 = k
    · exact ⟨kv.2, by simp [dictGetOpt, hk]⟩
    · simp only [hasKey, Bool.or_eq_true, beq_iff_eq, hk, false_or] at h
      obtain ⟨v, hv⟩ := ih h
      exact ⟨v, by simpa [dictGetOpt, hk] using hv⟩

/-- One guarded block of `validate_parameters`, abstracted over the field
and the parse-and-clamp function. -/
def fieldStep (k : String) (f : PyVal → PyVal) (m : PyDict) : PyDict :=
  if hasKey m k then dictSet m k (f (dictGet m k .vnone)) else m

/-- Parse-and-clamp of the `temperature` block. -/
def tempFn (v : PyVal) : PyVal :=
  match pyFloatO v with
  | some t => .vnum (pymax ⟨0, 0⟩ (pymin ⟨1, 0⟩ t))
  | none => .vnum ⟨7, 1⟩

/-- Parse-and-clamp of the `num_ctx` block. -/
def ctxFn (v : PyVal) : PyVal :=
  match pyIntO v with
  | some n => .vnum ⟨pymaxI 512 (pyminI 8192 n), 0⟩
  | none => .vnum ⟨2048, 0⟩

/-- Parse-and-clamp of the `num_predict` block. -/
def predictFn (v : PyVal) : PyVal :=
  match pyIntO v with
  | some n => .vnum ⟨pymaxI 64 (pyminI 4096 n), 0⟩
  | none => .vnum ⟨1024, 0⟩

theorem validateTemperature_eq (m : PyDict) :
    validateTemperature m = fieldStep "temperature" tempFn m := by
  unfold validateTemperature fieldStep tempFn
  split
  · cases h : pyFloatO (dictGet m "temperature" .vnone) <;> simp [h]
  · rfl

theorem validateNumCtx_eq (m : PyDict) :
    validateNumCtx m = fieldStep "num_ctx" ctxFn m := by
  unfold validateNumCtx fieldStep ctxFn
  split
  · cases h : pyIntO (dictGet m "num_ctx" .vnone) <;> simp [h]
  · rfl

theorem validateNumPredict_eq (m : PyDict) :
    validateNumPredict m = fieldStep "num_predict" predictFn m := by
  unfold validateNumPredict fieldStep predictFn
  split
  · cases h : pyIntO (dictGet m "num_predict" .vnone) <;> simp [h]
  · rfl

theorem fieldStep_of_hasKey (k : String) (f : PyVal → PyVal) (m : PyDict)
    (h : hasKey m k = true) :
    fieldStep k f m = dictSet m k (f (dictGet m k .vnone)) := by
  unfold fieldStep
  rw [if_pos h]

theorem fieldStep_of_not_hasKey (k : String) (f : PyVal → PyVal) (m : PyDict)
    (h : hasKey m k = false) : fieldStep k f m = m := by
  unfold fieldStep
  rw [if_neg (by simp [h])]

theorem hasKey_fieldStep (k : String) (f : PyVal → PyVal) (m : PyDict) (k' : String) :
    hasKey (fieldStep k f m) k' = hasKey m k' := by
  by_cases h : hasKey m k = true
  · rw [fieldStep_of_hasKey k f m h, hasKey_dictSet]
    by_cases hk : k = k'
    · subst hk
      simp [h]
    · simp [hk]
  · rw [fieldStep_of_not_hasKey k f m (by simpa using h)]

theorem getOpt_fieldStep_ne (k : String) (f : PyVal → PyVal) (m : PyDict)
    (k' : String) (h : k' ≠ k) :
    dictGetOpt (fieldStep k f m) k' = dictGetOpt m k' := by
  by_cases hk : hasKey m k = true
  · rw [fieldStep_of_hasKey k f m hk]
    exact dictGetOpt_dictSet_ne m k k' _ h
  · rw [fieldStep_of_not_hasKey k f m (by simpa using hk)]

theorem getOpt_fieldStep_self (k : String) (f : PyVal → PyVal) (m : PyDict)
    (h : hasKey m k = true) :
    dictGetOpt (fieldStep k f m) k = some (f (dictGet m k .vnone)) := by
  rw [fieldStep_of_hasKey k f m h]
  exact dictGetOpt_dictSet_self m k _

theorem keys_fieldStep (k : String) (f : PyVal → PyVal) (m : PyDict) :
    (fieldStep k f m).map Prod.fst = m.map Prod.fst := by
  by_cases h : hasKey m k = true
  · rw [fieldStep_of_hasKey k f m h]
    exact keys_dictSet_of_hasKey m k _ h
  · rw [fieldStep_of_not_hasKey k f m (by simpa using h)]

theorem setExisting_comm (d : PyDict) (k k' : String) (v w : PyVal) (h : k ≠ k') :
    setExisting (setExisting d k v) k' w = setExisting (setExisting d k' w) k v := by
  induction d with
  | nil => rfl
  | cons kv tl ih =>
    by_cases hk : kv.1 = k
    · simp [setExisting, hk, h, Ne.symm h, ih]
    · by_cases hk' : kv.1 = k' <;> simp [setExisting, hk, hk', h, Ne.symm h, ih]

theorem dictSet_comm_of_hasKey (d : PyDict) (k k' : String) (v w : PyVal)
    (h : k ≠ k') (hk : hasKey d k = true) (hk' : hasKey d k' = true) :
    dictSet (dictSet d k v) k' w = dictSet (dictSet d k' w) k v := by
  unfold dictSet
  rw [if_pos hk, if_pos hk', if_pos (by rw [hasKey_setExisting]; exact hk'),
    if_pos (by rw [hasKey_setExisting]; exact hk)]
  exact setExisting_comm d k k' v w h

theorem fieldStep_comm (k k' : String) (f g : PyVal → PyVal) (m : PyDict)
    (h : k ≠ k') :
    fieldStep k f (fieldStep k' g m) = fieldStep k' g (fieldStep k f m) := by
  by_cases hk : hasKey m k = true
  · by_cases hk' : hasKey m k' = true
    · have E1 := fieldStep_of_hasKey k' g m hk'
      have E2 := fieldStep_of_hasKey k f m hk
      have H1 : hasKey (dictSet m k' (g (dictGet m k' .vnone))) k = true := by
        rw [hasKey_dictSet]
        simp [hk]
      have H2 : hasKey (dictSet m k (f (dictGet m k .vnone))) k' = true := by
        rw [hasKey_dictSet]
        simp [hk']
      have G1 : dictGet (dictSet m k' (g (dictGet m k' .vnone))) k .vnone
          = dictGet m k .vnone := by
        unfold dictGet
        rw [dictGetOpt_dictSet_ne m k' k _ h]
      have G2 : dictGet (dictSet m k (f (dictGet m k .vnone))) k' .vnone
          = dictGet m k' .vnone := by
        unfold dictGet
        rw [dictGetOpt_dictSet_ne m k k' _ (Ne.symm h)]
      rw [E1, E2, fieldStep_of_hasKey k f _ H1, fieldStep_of_hasKey k' g _ H2, G1, G2]
      exact dictSet_comm_of_hasKey m k' k _ _ (Ne.symm h) hk' hk
    · have E1 := fieldStep_of_not_hasKey k' g m (by simpa using hk')
      have E3 := fieldStep_of_not_hasKey k' g (fieldStep k f m)
        (by rw [hasKey_fieldStep]; simpa using hk')
      rw [E1, E3]
  · have E1 := fieldStep_of_not_hasKey k f m (by simpa using hk)
    have E3 := fieldStep_of_not_hasKey k f (fieldStep k' g m)
      (by rw [hasKey_fieldStep]; simpa using hk)
    rw [E1, E3]

theorem fieldStep_idem (k : String) (f : PyVal → PyVal) (m : PyDict)
    (hf : ∀ v, f (f v) = f v) : fieldStep k f (fieldStep k f m) = fieldStep k f m := by
  by_cases hk : hasKey m k = true
  · have E2 := fieldStep_of_hasKey k f m hk
    have H : hasKey (dictSet m k (f (dictGet m k .vnone))) k = true := by
      rw [hasKey_dictSet]
      simp
    have G : dictGet (dictSet m k (f (dictGet m k .vnone))) k .vnone
        = f (dictGet m k .vnone) := by
      unfold dictGet
      rw [dictGetOpt_dictSet_self]
      rfl
    calc fieldStep k f (fieldStep k f m)
        = fieldStep k f (dictSet m k (f (dictGet m k .vnone))) := by rw [E2]
      _ = dictSet (dictSet m k (f (dictGet m k .vnone))) k
            (f (dictGet (dictSet m k (f (dictGet m k .vnone))) k .vnone)) :=
          fieldStep_of_hasKey k f _ H
      _ = dictSet (dictSet m k (f (dictGet m k .vnone))) k (f (f (dictGet m k .vnone))) := by
          rw [G]
      _ = dictSet (dictSet m k (f (dictGet m k .vnone))) k (f (dictGet m k .vnone)) := by
          rw [hf]
      _ = dictSet m k (f (dictGet m k .vnone)) := dictSet_dictSet_self m k _ _
      _ = fieldStep k f m := E2.symm
  · have E1 := fieldStep_of_not_hasKey k f m (by simpa using hk)
    rw [E1, E1]

theorem tempFn_num (y : PyNum) :
    tempFn (.vnum y) = .vnum (pymax ⟨0, 0⟩ (pymin ⟨1, 0⟩ y)) := rfl

theorem ctxFn_num (y : PyNum) :
    ctxFn (.vnum y) = .vnum ⟨pymaxI 512 (pyminI 8192 (pnTrunc y)), 0⟩ := rfl

theorem predictFn_num (y : PyNum) :
    predictFn (.vnum y) = .vnum ⟨pymaxI 64 (pyminI 4096 (pnTrunc y)), 0⟩ := rfl

theorem pnTrunc_int (n : ℤ) : pnTrunc ⟨n, 0⟩ = n := by
  unfold pnTrunc
  simp

theorem tempFn_idem (v : PyVal) : tempFn (tempFn v) = tempFn v := by
  rcases h : pyFloatO v with _ | t
  · have e : tempFn v = .vnum ⟨7, 1⟩ := by
      unfold tempFn
      rw [h]
    rw [e, tempFn_num, show pymax ⟨0, 0⟩ (pymin ⟨1, 0⟩ (⟨7, 1⟩ : PyNum)) = ⟨7, 1⟩ from by decide]
  · have e : tempFn v = .vnum (pymax ⟨0, 0⟩ (pymin ⟨1, 0⟩ t)) := by
      unfold tempFn
      rw [h]
    rw [e, tempFn_num, clamp_idem _ _ _ (by decide)]

theorem ctxFn_idem (v : PyVal) : ctxFn (ctxFn v) = ctxFn v := by
  rcases h : pyIntO v with _ | n
  · have e : ctxFn v = .vnum ⟨2048, 0⟩ := by
      unfold ctxFn
      rw [h]
    rw [e, ctxFn_num, pnTrunc_int, show pymaxI 512 (pyminI 8192 2048) = 2048 from by decide]
  · have e : ctxFn v = .vnum ⟨pymaxI 512 (pyminI 8192 n), 0⟩ := by
      unfold ctxFn
      rw [h]
    rw [e, ctxFn_num, pnTrunc_int, clampI_idem _ _ _ (by decide)]

theorem predictFn_idem (v : PyVal) : predictFn (predictFn v) = predictFn v := by
  rcases h : pyIntO v with _ | n
  · have e : predictFn v = .vnum ⟨1024, 0⟩ := by
      unfold predictFn
      rw [h]
    rw [e, predictFn_num, pnTrunc_int, show pymaxI 64 (pyminI 4096 1024) = 1024 from by decide]
  · have e : predictFn v = .vnum ⟨pymaxI 64 (pyminI 4096 n), 0⟩ := by
      unfold predictFn
      rw [h]
    rw [e, predictFn_num, pnTrunc_int, clampI_idem _ _ _ (by decide)]

/-- C7: parameter validation is idempotent — for every parameter map `p`,
`validate_parameters (validate_parameters p) = validate_parameters p`. -/
theorem c7_validate_parameters_idempotent (p : PyDict) :
    validate_parameters (validate_parameters p) = validate_parameters p := by
  simp only [validate_parameters, validateTemperature_eq, validateNumCtx_eq,
    validateNumPredict_eq]
  rw [fieldStep_comm "temperature" "num_predict" tempFn predictFn _ (by decide),
    fieldStep_comm "temperature" "num_ctx" tempFn ctxFn _ (by decide),
    fieldStep_idem "temperature" tempFn _ tempFn_idem,
    fieldStep_comm "num_ctx" "num_predict" ctxFn predictFn _ (by decide),
    fieldStep_idem "num_ctx" ctxFn _ ctxFn_idem,
    fieldStep_idem "num_predict" predictFn _ predictFn_idem]

theorem getOpt_validate_temperature (m : PyDict) (v : PyVal)
    (hv : dictGetOpt m "temperature" = some v) :
    dictGetOpt (validate_parameters m) "temperature" = some (tempFn v) := by
  have hk : hasKey m "temperature" = true := hasKey_of_getOpt m _ v hv
  have hget : dictGet m "temperature" .vnone = v := by
    unfold dictGet
    rw [hv]
    rfl
  simp only [validate_parameters, validateTemperature_eq, validateNumCtx_eq,
    validateNumPredict_eq]
  rw [getOpt_fieldStep_ne _ _ _ _ (by decide), getOpt_fieldStep_ne _ _ _ _ (by decide),
    getOpt_fieldStep_self _ _ _ hk, hget]

theorem getOpt_validate_num_ctx (m : PyDict) (v : PyVal)
    (hv : dictGetOpt m "num_ctx" = some v) :
    dictGetOpt (validate_parameters m) "num_ctx" = some (ctxFn v) := by
  have hk : hasKey m "num_ctx" = true := hasKey_of_getOpt m _ v hv
  simp only [validate_parameters, validateTemperature_eq, validateNumCtx_eq,
    validateNumPredict_eq]
  rw [getOpt_fieldStep_ne _ _ _ _ (by decide),
    getOpt_fieldStep_self _ _ _ (by rw [hasKey_fieldStep]; exact hk)]
  have hget : dictGet (fieldStep "temperature" tempFn m) "num_ctx" .vnone = v := by
    unfold dictGet
    rw [getOpt_fieldStep_ne _ _ _ _ (by decide), hv]
    rfl
  rw [hget]

theorem getOpt_validate_num_predict (m : PyDict) (v : PyVal)
    (hv : dictGetOpt m "num_predict" = some v) :
    dictGetOpt (validate_parameters m) "num_predict" = some (predictFn v) := by
  have hk : hasKey m "num_predict" = true := hasKey_of_getOpt m _ v hv
  simp only [validate_parameters, validateTemperature_eq, validateNumCtx_eq,
    validateNumPredict_eq]
  rw [getOpt_fieldStep_self _ _ _
    (by rw [hasKey_fieldStep, hasKey_fieldStep]; exact hk)]
  have hget : dictGet (fieldStep "num_ctx" ctxFn (fieldStep "temperature" tempFn m))
      "num_predict" .vnone = v := by
    unfold dictGet
    rw [getOpt_fieldStep_ne _ _ _ _ (by decide), getOpt_fieldStep_ne _ _ _ _ (by decide), hv]
    rfl
  rw [hget]

/-- C8: `validate_parameters` parses and clamps each of the three fields
it finds — `temperature` as a float clamped to `[0.0, 1.0]` (unparsable
input resets to `0.7`), `num_ctx` as an int clamped to `[512, 8192]`
(reset `2048`), `num_predict` as an int clamped to `[64, 4096]` (reset
`1024`); it is a total function (it never raises); and on the scenario
input `{"temperature": "5", "num_ctx": "99999", "num_predict": "-1"}` it
returns `{"temperature": 1.0, "num_ctx": 8192, "num_predict": 64}`. -/
theorem c8_validate_parameters_clamps :
    (∀ (m : PyDict) (v : PyVal), dictGetOpt m "temperature" = some v →
      (∀ t, pyFloatO v = some t →
        dictGetOpt (validate_parameters m) "temperature"
          = some (.vnum (pymax ⟨0, 0⟩ (pymin ⟨1, 0⟩ t)))) ∧
      (pyFloatO v = none →
        dictGetOpt (validate_parameters m) "temperature" = some (.vnum ⟨7, 1⟩))) ∧
    (∀ (m : PyDict) (v : PyVal), dictGetOpt m "num_ctx" = some v →
      (∀ n, pyIntO v = some n →
        dictGetOpt (validate_parameters m) "num_ctx"
          = some (.vnum ⟨pymaxI 512 (pyminI 8192 n), 0⟩)) ∧
      (pyIntO v = none →
        dictGetOpt (validate_parameters m) "num_ctx" = some (.vnum ⟨2048, 0⟩))) ∧
    (∀ (m : PyDict) (v : PyVal), dictGetOpt m "num_predict" = some v →
      (∀ n, pyIntO v = some n →
        dictGetOpt (validate_parameters m) "num_predict"
          = some (.vnum ⟨pymaxI 64 (pyminI 4096 n), 0⟩)) ∧
      (pyIntO v = none →
        dictGetOpt (validate_parameters m) "num_predict" = some (.vnum ⟨1024, 0⟩))) ∧
    validate_parameters
        [("temperature", .vstr "5"), ("num_ctx", .vstr "99999"), ("num_predict", .vstr "-1")]
      = [("temperature", .vnum ⟨1, 0⟩), ("num_ctx", .vnum ⟨8192, 0⟩),
         ("num_predict", .vnum ⟨64, 0⟩)] := by
  refine ⟨?_, ?_, ?_, rfl⟩
  · intro m v hv
    constructor
    · intro t ht
      rw [getOpt_validate_temperature m v hv]
      unfold tempFn
      rw [ht]
    · intro ht
      rw [getOpt_validate_temperature m v hv]
      unfold tempFn
      rw [ht]
  · intro m v hv
    constructor
    · intro n hn
      rw [getOpt_validate_num_ctx m v hv]
      unfold ctxFn
      rw [hn]
    · intro hn
      rw [getOpt_validate_num_ctx m v hv]
      unfold ctxFn
      rw [hn]
  · intro m v hv
    constructor
    · intro n hn
      rw [getOpt_validate_num_predict m v hv]
      unfold predictFn
      rw [hn]
    · intro hn
      rw [getOpt_validate_num_predict m v hv]
      unfold predictFn
      rw [hn]

/-- Witness for C8 at a concrete input: the first clause applied to the
map `{"temperature": "0.3"}` evaluates the clamp. -/
theorem c8_validate_parameters_clamps_witness :
    dictGetOpt (validate_parameters [("temperature", .vstr "0.3")]) "temperature"
      = some (.vnum (pymax ⟨0, 0⟩ (pymin ⟨1, 0⟩ ⟨3, 1⟩))) :=
  (c8_validate_parameters_clamps.1 [("temperature", .vstr "0.3")] (.vstr "0.3") rfl).1 ⟨3, 1⟩ rfl

/-- C10: the frame property of `validate_parameters` — it returns exactly
the key set of its input (in particular it never inserts an absent
field), and every key other than `temperature`, `num_ctx`, `num_predict`
keeps its value unchanged. -/
theorem c10_validate_parameters_frame (p : PyDict) :
    ((validate_parameters p).map Prod.fst = p.map Prod.fst) ∧
    (∀ k, hasKey (validate_parameters p) k = hasKey p k) ∧
    (∀ k, k ≠ "temperature" → k ≠ "num_ctx" → k ≠ "num_predict" →
      dictGetOpt (validate_parameters p) k = dictGetOpt p k) := by
  refine ⟨?_, ?_, ?_⟩
  · simp only [validate_parameters, validateTemperature_eq, validateNumCtx_eq,
      validateNumPredict_eq]
    rw [keys_fieldStep, keys_fieldStep, keys_fieldStep]
  · intro k
    simp only [validate_parameters, validateTemperature_eq, validateNumCtx_eq,
      validateNumPredict_eq]
    rw [hasKey_fieldStep, hasKey_fieldStep, hasKey_fieldStep]
  · intro k h1 h2 h3
    simp only [validate_parameters, validateTemperature_eq, validateNumCtx_eq,
      validateNumPredict_eq]
    rw [getOpt_fieldStep_ne _ _ _ _ h3, getOpt_fieldStep_ne _ _ _ _ h2,
      getOpt_fieldStep_ne _ _ _ _ h1]

/-- Witness for C10 at a concrete input: a map with an unknown key and a
missing `num_ctx` keeps its key set and its other value. -/
theorem c10_validate_parameters_frame_witness :
    ((validate_parameters [("model", .vstr "llama"), ("temperature", .vnum ⟨5, 1⟩)]).map Prod.fst
      = ["model", "temperature"]) ∧
    hasKey (validate_parameters [("model", .vstr "llama"), ("temperature", .vnum ⟨5, 1⟩)]) "num_ctx"
      = false ∧
    dictGetOpt (validate_parameters [("model", .vstr "llama"), ("temperature", .vnum ⟨5, 1⟩)]) "model"
      = some (.vstr "llama") :=
  ⟨(c10_validate_parameters_frame _).1,
   (c10_validate_parameters_frame [("model", .vstr "llama"), ("temperature", .vnum ⟨5, 1⟩)]).2.1 "num_ctx",
   (c10_validate_parameters_frame [("model", .vstr "llama"), ("temperature", .vnum ⟨5, 1⟩)]).2.2 "model"
     (by decide) (by decide) (by decide)⟩

/-- C9: on the query `"Solve this equation: 3x^2 + 2x - 5 = 0"` the
rule-based classifier detects the `Mathematician` role, the `math` task
type and the `chain_of_thought` technique. -/
theorem c9_classifier_scenario :
    detect_role "Solve this equation: 3x^2 + 2x - 5 = 0" = "Mathematician" ∧
    detect_task_type "Solve this equation: 3x^2 + 2x - 5 = 0" = "math" ∧
    detect_prompt_technique "Solve this equation: 3x^2 + 2x - 5 = 0" = "chain_of_thought" :=
  ⟨by decide, by decide, by decide⟩

/-- C6: `parse_json_response` returns the built-in default result, without
raising, on the empty string, on `"not json at all"`, and on every input
with no brace-delimited decodable JSON object (no match of the brace
regex, or a match that `json.loads` rejects); and the default result
carries quality score `0.7`, the `Mathematician` role and template, the
math parameters `{temperature: 0.2, num_ctx: 2048, num_predict: 1024}`,
and a reasoning string. -/
theorem c6_parse_json_response_default :
    parse_json_response "" = default_config ∧
    parse_json_response "not json at all" = default_config ∧
    (∀ s : String,
      braceSearch (s.data.map (fun c => if c = '\n' then ' ' else c)) = none →
      parse_json_response s = default_config) ∧
    (∀ (s : String) (js : List Char),
      braceSearch (s.data.map (fun c => if c = '\n' then ' ' else c)) = some js →
      jsonLoads ⟨js⟩ = none →
      parse_json_response s = default_config) ∧
    dictGetOpt default_config "quality_score" = some (.vnum ⟨7, 1⟩) ∧
    dictGetOpt default_config "role" = some (.vstr "Mathematician") ∧
    dictGetOpt default_config "template"
      = some (.vstr "Calculate the following mathematical expression step-by-step: {query}") ∧
    dictGetOpt default_config "parameters"
      = some (.vdict [("temperature", .vnum ⟨2, 1⟩), ("num_ctx", .vnum ⟨2048, 0⟩),
          ("num_predict", .vnum ⟨1024, 0⟩)]) ∧
    (∃ r : String, dictGetOpt default_config "reasoning" = some (.vstr r)) := by
  refine ⟨rfl, rfl, ?_, ?_, rfl, rfl, rfl, rfl, ⟨_, rfl⟩⟩
  · intro s h
    unfold parse_json_response
    by_cases hs : s = ""
    · rw [if_pos hs]
    · rw [if_neg hs, h]
  · intro s js h1 h2
    unfold parse_json_response
    by_cases hs : s = ""
    · rw [if_pos hs]
    · rw [if_neg hs, h1]
      simp [h2]

/-- Witness for C6's general clauses at concrete inputs: a response with
no brace-delimited object, and one whose braced extract is not valid
JSON. -/
theorem c6_parse_json_response_default_witness :
    parse_json_response "quality 0.9, no json here" = default_config ∧
    parse_json_response "\x7bnot valid json\x7d" = default_config :=
  ⟨c6_parse_json_response_default.2.2.1 "quality 0.9, no json here" rfl,
   c6_parse_json_response_default.2.2.2.1 "\x7bnot valid json\x7d" "\x7bnot valid json\x7d".data rfl rfl⟩

/-! ### Lemmas about the Configuration Finalizer -/

theorem except_bind_ok {α β : Type} (x : Except String α) (f : α → Except String β)
    (b : β) (h : x.bind f = .ok b) : ∃ a, x = .ok a ∧ f a = .ok b := by
  cases x with
  | error e => simp [Except.bind] at h
  | ok a => exact ⟨a, rfl, by simpa [Except.bind] using h⟩

theorem except_map_ok {α β : Type} (x : Except String α) (g : α → β)
    (b : β) (h : x.map g = .ok b) : ∃ a, x = .ok a ∧ g a = b := by
  cases x with
  | error e => simp [Except.map] at h
  | ok a => exact ⟨a, rfl, by simpa [Except.map] using h⟩

theorem getOpt_none_of_not_hasKey (d : PyDict) (k : String)
    (h : hasKey d k = false) : dictGetOpt d k = none := by
  cases hv : dictGetOpt d k with
  | none => rfl
  | some v => rw [hasKey_of_getOpt d k v hv] at h; exact absurd h (by simp)

theorem hasKey_of_truthy_get (d : PyDict) (k : String)
    (h : pyTruthy (dictGet d k .vnone) = true) : hasKey d k = true := by
  by_cases hk : hasKey d k = true
  · exact hk
  · rw [show dictGet d k .vnone = .vnone from by
      unfold dictGet
      rw [getOpt_none_of_not_hasKey d k (by simpa using hk)]
      rfl] at h
    exact absurd h (by simp [pyTruthy])

theorem hasKey_fillStep_self (k : String) (v : PyVal) (c : PyDict) :
    hasKey (fillStep k v c) k = true := by
  by_cases h : hasKey c k = true
  · rw [fillStep, if_pos h]
    exact h
  · rw [fillStep, if_neg h, hasKey_dictSet]
    simp

theorem hasKey_fillStep_mono (k kj : String) (v : PyVal) (c : PyDict)
    (h : hasKey c k = true) : hasKey (fillStep kj v c) k = true := by
  by_cases hj : hasKey c kj = true
  · rw [fillStep, if_pos hj]
    exact h
  · rw [fillStep, if_neg hj, hasKey_dictSet, h]
    simp

theorem getOpt_fillStep_of_hasKey (k kj : String) (v : PyVal) (c : PyDict)
    (h : hasKey c k = true) : dictGetOpt (fillStep kj v c) k = dictGetOpt c k := by
  by_cases hj : hasKey c kj = true
  · rw [fillStep, if_pos hj]
  · rw [fillStep, if_neg hj]
    by_cases hkj : k = kj
    · subst hkj
      exact absurd h hj
    · exact dictGetOpt_dictSet_ne c kj k v hkj

theorem getOpt_fillStep_other (k kj : String) (v : PyVal) (c : PyDict)
    (h : k ≠ kj) : dictGetOpt (fillStep kj v c) k = dictGetOpt c k := by
  by_cases hj : hasKey c kj = true
  · rw [fillStep, if_pos hj]
  · rw [fillStep, if_neg hj]
    exact dictGetOpt_dictSet_ne c kj k v h

theorem getOpt_fillStep_absent (kj : String) (v : PyVal) (c : PyDict)
    (h : hasKey c kj = false) : dictGetOpt (fillStep kj v c) kj = some v := by
  rw [fillStep, if_neg (by simp [h]), dictGetOpt_dictSet_self]

theorem requiredFill_hasKey_mono (c : PyDict) (k : String) (h : hasKey c k = true) :
    hasKey (requiredFill c) k = true := by
  unfold requiredFill
  exact hasKey_fillStep_mono _ _ _ _ (hasKey_fillStep_mono _ _ _ _
    (hasKey_fillStep_mono _ _ _ _ (hasKey_fillStep_mono _ _ _ _
      (hasKey_fillStep_mono _ _ _ _ h))))

theorem requiredFill_hasKey_template (c : PyDict) :
    hasKey (requiredFill c) "template" = true := by
  unfold requiredFill
  exact hasKey_fillStep_mono _ _ _ _ (hasKey_fillStep_mono _ _ _ _
    (hasKey_fillStep_mono _ _ _ _ (hasKey_fillStep_self _ _ _)))

theorem requiredFill_hasKey_parameters (c : PyDict) :
    hasKey (requiredFill c) "parameters" = true := by
  unfold requiredFill
  exact hasKey_fillStep_mono _ _ _ _ (hasKey_fillStep_mono _ _ _ _
    (hasKey_fillStep_self _ _ _))

theorem requiredFill_getOpt_of_hasKey (c : PyDict) (k : String)
    (h : hasKey c k = true) : dictGetOpt (requiredFill c) k = dictGetOpt c k := by
  unfold requiredFill
  rw [getOpt_fillStep_of_hasKey _ _ _ _ (hasKey_fillStep_mono _ _ _ _
      (hasKey_fillStep_mono _ _ _ _ (hasKey_fillStep_mono _ _ _ _
        (hasKey_fillStep_mono _ _ _ _ h)))),
    getOpt_fillStep_of_hasKey _ _ _ _ (hasKey_fillStep_mono _ _ _ _
      (hasKey_fillStep_mono _ _ _ _ (hasKey_fillStep_mono _ _ _ _ h))),
    getOpt_fillStep_of_hasKey _ _ _ _ (hasKey_fillStep_mono _ _ _ _
      (hasKey_fillStep_mono _ _ _ _ h)),
    getOpt_fillStep_of_hasKey _ _ _ _ (hasKey_fillStep_mono _ _ _ _ h),
    getOpt_fillStep_of_hasKey _ _ _ _ h]

theorem requiredFill_getOpt_other (c : PyDict) (k : String)
    (h1 : k ≠ "role") (h2 : k ≠ "template") (h3 : k ≠ "parameters")
    (h4 : k ≠ "task_type") (h5 : k ≠ "technique") :
    dictGetOpt (requiredFill c) k = dictGetOpt c k := by
  unfold requiredFill
  rw [getOpt_fillStep_other _ _ _ _ h5, getOpt_fillStep_other _ _ _ _ h4,
    getOpt_fillStep_other _ _ _ _ h3, getOpt_fillStep_other _ _ _ _ h2,
    getOpt_fillStep_other _ _ _ _ h1]

theorem hasKey_dictSet_present (d : PyDict) (k : String) (v : PyVal)
    (h : hasKey d k = true) (k' : String) :
    hasKey (dictSet d k v) k' = hasKey d k' := by
  rw [hasKey_dictSet]
  by_cases hk : k = k'
  · subst hk
    simp [h]
  · simp [hk]

theorem formatStep_ok_cases (x : PyDict) (orig : String) (y : PyDict)
    (h : formatStep x orig = .ok y) :
    (hasKey x "final_prompt" = false ∧ y = x) ∨
    (hasKey x "final_prompt" = true ∧
      ∃ fp, format_final_prompt x orig = .ok fp ∧
        y = dictSet x "final_prompt" (.vstr fp)) := by
  unfold formatStep at h
  by_cases hk : hasKey x "final_prompt" = true
  · rw [if_pos hk] at h
    cases hf : format_final_prompt x orig with
    | error e => rw [hf] at h; exact absurd h (by simp)
    | ok fp =>
      rw [hf] at h
      right
      exact ⟨hk, fp, rfl, (Except.ok.injEq _ _ ▸ h).symm⟩
  · rw [if_neg hk] at h
    exact Or.inl ⟨by simpa using hk, ((Except.ok.injEq _ _ ▸ h)).symm⟩

theorem formatStep_ok_frame (x : PyDict) (orig : String) (y : PyDict)
    (h : formatStep x orig = .ok y) (k : String) (hk : k ≠ "final_prompt") :
    dictGetOpt y k = dictGetOpt x k := by
  rcases formatStep_ok_cases x orig y h with ⟨_, rfl⟩ | ⟨_, fp, _, rfl⟩
  · rfl
  · exact dictGetOpt_dictSet_ne x _ k _ hk

theorem formatStep_ok_hasKey (x : PyDict) (orig : String) (y : PyDict)
    (h : formatStep x orig = .ok y) (k : String) : hasKey y k = hasKey x k := by
  rcases formatStep_ok_cases x orig y h with ⟨_, rfl⟩ | ⟨hp, fp, _, rfl⟩
  · rfl
  · exact hasKey_dictSet_present x _ _ hp k

theorem validate_parameters_v_list_ok (xs : List PyVal) (y : PyVal)
    (h : validate_parameters_v (.vlist xs) = .ok y) : y = .vlist xs := by
  have h2 : (if listHasStr xs "temperature" = true then
      (Except.error "TypeError: list indices must be integers or slices, not str"
        : Except String PyVal)
    else if listHasStr xs "num_ctx" = true then
      .error "TypeError: list indices must be integers or slices, not str"
    else if listHasStr xs "num_predict" = true then
      .error "TypeError: list indices must be integers or slices, not str"
    else .ok (.vlist xs)) = .ok y := h
  split at h2
  · exact absurd h2 (by simp)
  · split at h2
    · exact absurd h2 (by simp)
    · split at h2
      · exact absurd h2 (by simp)
      · exact (Except.ok.inj h2).symm

theorem paramStep_ok_cases (x : PyDict) (y : PyDict) (h : paramStep x = .ok y) :
    (hasKey x "parameters" = false ∧ y = x) ∨
    (∃ pd, dictGetOpt x "parameters" = some (.vdict pd) ∧
      y = dictSet x "parameters" (.vdict (validate_parameters pd))) ∨
    (∃ xs, dictGetOpt x "parameters" = some (.vlist xs) ∧
      y = dictSet x "parameters" (.vlist xs)) := by
  unfold paramStep at h
  by_cases hk : hasKey x "parameters" = true
  · rw [if_pos hk] at h
    obtain ⟨v, hv⟩ := getOpt_of_hasKey x "parameters" hk
    have hg : dictGet x "parameters" .vnone = v := by
      unfold dictGet
      rw [hv]
      rfl
    rw [hg] at h
    cases v with
    | vdict pd =>
      rw [show validate_parameters_v (.vdict pd)
        = Except.ok (.vdict (validate_parameters pd)) from rfl] at h
      exact Or.inr (Or.inl ⟨pd, hv, (Except.ok.inj h).symm⟩)
    | vlist xs =>
      cases hv2 : validate_parameters_v (.vlist xs) with
      | error e =>
        rw [hv2] at h
        exact absurd h (by simp)
      | ok p =>
        rw [hv2] at h
        rw [validate_parameters_v_list_ok xs p hv2] at h
        exact Or.inr (Or.inr ⟨xs, hv, (Except.ok.inj h).symm⟩)
    | vnone => exact absurd h (by simp [validate_parameters_v])
    | vbool b => exact absurd h (by simp [validate_parameters_v])
    | vnum d => exact absurd h (by simp [validate_parameters_v])
    | vstr s => exact absurd h (by simp [validate_parameters_v])
  · rw [if_neg hk] at h
    exact Or.inl ⟨by simpa using hk, ((Except.ok.injEq _ _ ▸ h)).symm⟩

theorem paramStep_ok_frame (x y : PyDict) (h : paramStep x = .ok y)
    (k : String) (hk : k ≠ "parameters") : dictGetOpt y k = dictGetOpt x k := by
  rcases paramStep_ok_cases x y h with ⟨_, rfl⟩ | ⟨pd, hpd, rfl⟩ | ⟨xs, hxs, rfl⟩
  · rfl
  · exact dictGetOpt_dictSet_ne x _ k _ hk
  · exact dictGetOpt_dictSet_ne x _ k _ hk

theorem paramStep_ok_hasKey (x y : PyDict) (h : paramStep x = .ok y)
    (k : String) : hasKey y k = hasKey x k := by
  rcases paramStep_ok_cases x y h with ⟨_, rfl⟩ | ⟨pd, hpd, rfl⟩ | ⟨xs, hxs, rfl⟩
  · rfl
  · exact hasKey_dictSet_present x _ _ (hasKey_of_getOpt _ _ _ hpd) k
  · exact hasKey_dictSet_present x _ _ (hasKey_of_getOpt _ _ _ hxs) k

/-- Final-delivery bound shape of the `temperature` field. -/
def finalTempProp (ps : PyDict) : Prop :=
  ∀ v, dictGetOpt ps "temperature" = some v →
    ∃ x : PyNum, v = .vnum x ∧ (1 : ℚ)/10 ≤ x.toRat ∧ x.toRat ≤ 1

/-- Final-delivery bound shape of the `num_ctx` field. -/
def finalCtxProp (ps : PyDict) : Prop :=
  ∀ v, dictGetOpt ps "num_ctx" = some v →
    ∃ n : ℤ, v = .vnum ⟨n, 0⟩ ∧ 1024 ≤ n ∧ n ≤ 8192

/-- Final-delivery bound shape of the `num_predict` field. -/
def finalPredictProp (ps : PyDict) : Prop :=
  ∀ v, dictGetOpt ps "num_predict" = some v →
    ∃ n : ℤ, v = .vnum ⟨n, 0⟩ ∧ 512 ≤ n ∧ n ≤ 4096

theorem final_temp_bounds (t : PyNum) :
    (1 : ℚ)/10 ≤ (pymin (pymax ⟨1, 1⟩ t) ⟨1, 0⟩).toRat ∧
    (pymin (pymax ⟨1, 1⟩ t) ⟨1, 0⟩).toRat ≤ 1 := by
  rw [toRat_pymin, toRat_pymax,
    show (⟨1, 1⟩ : PyNum).toRat = 1/10 from by norm_num [PyNum.toRat],
    show (⟨1, 0⟩ : PyNum).toRat = 1 from by norm_num [PyNum.toRat]]
  exact ⟨le_min (le_max_left _ _) (by norm_num), min_le_right _ _⟩

theorem clampFinalTemp_ok_cases (params p1 : PyDict) (h : clampFinalTemp params = .ok p1) :
    (hasKey params "temperature" = false ∧ p1 = params) ∨
    (∃ t, p1 = dictSet params "temperature" (.vnum (pymin (pymax ⟨1, 1⟩ t) ⟨1, 0⟩))) := by
  unfold clampFinalTemp at h
  by_cases hk : hasKey params "temperature" = true
  · rw [if_pos hk] at h
    cases hf : pyFloatE (dictGet params "temperature" .vnone) with
    | error e => rw [hf] at h; exact absurd h (by simp)
    | ok t =>
      rw [hf] at h
      exact Or.inr ⟨t, ((Except.ok.injEq _ _ ▸ h)).symm⟩
  · rw [if_neg hk] at h
    exact Or.inl ⟨by simpa using hk, ((Except.ok.injEq _ _ ▸ h)).symm⟩

theorem clampFinalCtx_ok_cases (params p1 : PyDict) (h : clampFinalCtx params = .ok p1) :
    (hasKey params "num_ctx" = false ∧ p1 = params) ∨
    (∃ n, p1 = dictSet params "num_ctx" (.vnum ⟨pyminI (pymaxI 1024 n) 8192, 0⟩)) := by
  unfold clampFinalCtx at h
  by_cases hk : hasKey params "num_ctx" = true
  · rw [if_pos hk] at h
    cases hf : pyIntE (dictGet params "num_ctx" .vnone) with
    | error e => rw [hf] at h; exact absurd h (by simp)
    | ok n =>
      rw [hf] at h
      exact Or.inr ⟨n, ((Except.ok.injEq _ _ ▸ h)).symm⟩
  · rw [if_neg hk] at h
    exact Or.inl ⟨by simpa using hk, ((Except.ok.injEq _ _ ▸ h)).symm⟩

theorem clampFinalPredict_ok_cases (params p1 : PyDict)
    (h : clampFinalPredict params = .ok p1) :
    (hasKey params "num_predict" = false ∧ p1 = params) ∨
    (∃ n, p1 = dictSet params "num_predict" (.vnum ⟨pyminI (pymaxI 512 n) 4096, 0⟩)) := by
  unfold clampFinalPredict at h
  by_cases hk : hasKey params "num_predict" = true
  · rw [if_pos hk] at h
    cases hf : pyIntE (dictGet params "num_predict" .vnone) with
    | error e => rw [hf] at h; exact absurd h (by simp)
    | ok n =>
      rw [hf] at h
      exact Or.inr ⟨n, ((Except.ok.injEq _ _ ▸ h)).symm⟩
  · rw [if_neg hk] at h
    exact Or.inl ⟨by simpa using hk, ((Except.ok.injEq _ _ ▸ h)).symm⟩

theorem clampFinalTemp_ok_prop (params p1 : PyDict)
    (h : clampFinalTemp params = .ok p1) : finalTempProp p1 := by
  rcases clampFinalTemp_ok_cases params p1 h with ⟨hk, rfl⟩ | ⟨t, rfl⟩
  · intro v hv
    rw [getOpt_none_of_not_hasKey _ _ hk] at hv
    exact absurd hv (by simp)
  · intro v hv
    rw [dictGetOpt_dictSet_self] at hv
    exact ⟨_, (Option.some.injEq _ _ ▸ hv).symm, final_temp_bounds t⟩

theorem clampFinalCtx_ok_prop (params p1 : PyDict)
    (h : clampFinalCtx params = .ok p1) : finalCtxProp p1 := by
  rcases clampFinalCtx_ok_cases params p1 h with ⟨hk, rfl⟩ | ⟨n, rfl⟩
  · intro v hv
    rw [getOpt_none_of_not_hasKey _ _ hk] at hv
    exact absurd hv (by simp)
  · intro v hv
    rw [dictGetOpt_dictSet_self] at hv
    refine ⟨pyminI (pymaxI 1024 n) 8192, (Option.some.injEq _ _ ▸ hv).symm, ?_⟩
    unfold pyminI pymaxI
    constructor <;> (split <;> try split) <;> omega

theorem clampFinalPredict_ok_prop (params p1 : PyDict)
    (h : clampFinalPredict params = .ok p1) : finalPredictProp p1 := by
  rcases clampFinalPredict_ok_cases params p1 h with ⟨hk, rfl⟩ | ⟨n, rfl⟩
  · intro v hv
    rw [getOpt_none_of_not_hasKey _ _ hk] at hv
    exact absurd hv (by simp)
  · intro v hv
    rw [dictGetOpt_dictSet_self] at hv
    refine ⟨pyminI (pymaxI 512 n) 4096, (Option.some.injEq _ _ ▸ hv).symm, ?_⟩
    unfold pyminI pymaxI
    constructor <;> (split <;> try split) <;> omega

theorem clampFinalCtx_ok_tempProp (params p1 : PyDict)
    (h : clampFinalCtx params = .ok p1) (hp : finalTempProp params) : finalTempProp p1 := by
  rcases clampFinalCtx_ok_cases params p1 h with ⟨_, rfl⟩ | ⟨n, rfl⟩
  · exact hp
  · intro v hv
    rw [dictGetOpt_dictSet_ne params _ _ _ (by decide)] at hv
    exact hp v hv

theorem clampFinalPredict_ok_tempProp (params p1 : PyDict)
    (h : clampFinalPredict params = .ok p1) (hp : finalTempProp params) : finalTempProp p1 := by
  rcases clampFinalPredict_ok_cases params p1 h with ⟨_, rfl⟩ | ⟨n, rfl⟩
  · exact hp
  · intro v hv
    rw [dictGetOpt_dictSet_ne params _ _ _ (by decide)] at hv
    exact hp v hv

theorem clampFinalPredict_ok_ctxProp (params p1 : PyDict)
    (h : clampFinalPredict params = .ok p1) (hp : finalCtxProp params) : finalCtxProp p1 := by
  rcases clampFinalPredict_ok_cases params p1 h with ⟨_, rfl⟩ | ⟨n, rfl⟩
  · exact hp
  · intro v hv
    rw [dictGetOpt_dictSet_ne params _ _ _ (by decide)] at hv
    exact hp v hv

theorem boundsClamp_ok_cases (x y : PyDict) (h : boundsClamp x = .ok y) :
    (hasKey x "parameters" = false ∧ y = x) ∨
    (∃ params p3, dictGetOpt x "parameters" = some (.vdict params) ∧
      y = dictSet x "parameters" (.vdict p3) ∧
      finalTempProp p3 ∧ finalCtxProp p3 ∧ finalPredictProp p3) ∨
    ((∃ xs, dictGetOpt x "parameters" = some (.vlist xs)) ∧ y = x) ∨
    ((∃ t, dictGetOpt x "parameters" = some (.vstr t)) ∧ y = x) := by
  unfold boundsClamp at h
  by_cases hk : hasKey x "parameters" = true
  · rw [if_pos hk] at h
    obtain ⟨v, hv⟩ := getOpt_of_hasKey x "parameters" hk
    split at h
    · rename_i params heq
      right
      left
      have hvp : v = .vdict params := by
        unfold dictGet at heq
        rw [hv] at heq
        simpa using heq
      subst hvp
      split at h
      · simp at h
      · rename_i p1 h1
        split at h
        · simp at h
        · rename_i p2 h2
          split at h
          · simp at h
          · rename_i p3 h3
            refine ⟨params, p3, hv, ((Except.ok.injEq _ _ ▸ h)).symm, ?_, ?_,
              clampFinalPredict_ok_prop p2 p3 h3⟩
            · exact clampFinalPredict_ok_tempProp p2 p3 h3
                (clampFinalCtx_ok_tempProp p1 p2 h2 (clampFinalTemp_ok_prop params p1 h1))
            · exact clampFinalPredict_ok_ctxProp p2 p3 h3 (clampFinalCtx_ok_prop p1 p2 h2)
    · rename_i xs heq
      have hvp : v = .vlist xs := by
        unfold dictGet at heq
        rw [hv] at heq
        simpa using heq
      subst hvp
      split at h
      · simp at h
      · split at h
        · simp at h
        · split at h
          · simp at h
          · exact Or.inr (Or.inr (Or.inl ⟨⟨xs, hv⟩, (Except.ok.inj h).symm⟩))
    · rename_i t heq
      have hvp : v = .vstr t := by
        unfold dictGet at heq
        rw [hv] at heq
        simpa using heq
      subst hvp
      split at h
      · simp at h
      · split at h
        · simp at h
        · split at h
          · simp at h
          · exact Or.inr (Or.inr (Or.inr ⟨⟨t, hv⟩, (Except.ok.inj h).symm⟩))
    · simp at h
  · rw [if_neg hk] at h
    exact Or.inl ⟨by simpa using hk, ((Except.ok.injEq _ _ ▸ h)).symm⟩

theorem boundsClamp_ok_frame (x y : PyDict) (h : boundsClamp x = .ok y)
    (k : String) (hk : k ≠ "parameters") : dictGetOpt y k = dictGetOpt x k := by
  rcases boundsClamp_ok_cases x y h with ⟨_, rfl⟩ | ⟨params, p3, _, rfl, _⟩ |
    ⟨_, rfl⟩ | ⟨_, rfl⟩
  · rfl
  · exact dictGetOpt_dictSet_ne x _ k _ hk
  · rfl
  · rfl

theorem boundsClamp_ok_hasKey (x y : PyDict) (h : boundsClamp x = .ok y)
    (k : String) : hasKey y k = hasKey x k := by
  rcases boundsClamp_ok_cases x y h with ⟨_, rfl⟩ | ⟨params, p3, hpv, rfl, _⟩ |
    ⟨_, rfl⟩ | ⟨_, rfl⟩
  · rfl
  · exact hasKey_dictSet_present x _ _ (hasKey_of_getOpt _ _ _ hpv) k
  · rfl
  · rfl

theorem boundsClamp_ok_params_dict (x y : PyDict) (h : boundsClamp x = .ok y)
    (ps : PyDict) (hps : dictGetOpt y "parameters" = some (.vdict ps)) :
    finalTempProp ps ∧ finalCtxProp ps ∧ finalPredictProp ps := by
  rcases boundsClamp_ok_cases x y h with ⟨hk, rfl⟩ | ⟨params, p3, hpv, rfl, h1, h2, h3⟩ |
    ⟨⟨xs, hxs⟩, rfl⟩ | ⟨⟨t, ht⟩, rfl⟩
  · rw [getOpt_none_of_not_hasKey _ _ hk] at hps
    cases hps
  · rw [dictGetOpt_dictSet_self] at hps
    obtain rfl : p3 = ps := PyVal.vdict.inj (Option.some.inj hps)
    exact ⟨h1, h2, h3⟩
  · rw [hxs] at hps
    exact PyVal.noConfusion (Option.some.inj hps)
  · rw [ht] at hps
    exact PyVal.noConfusion (Option.some.inj hps)

theorem mathGuard_ok_cases (x : PyDict) (orig : String) (y : PyDict)
    (h : mathGuard x orig = .ok y) :
    y = x ∨ (hasKey x "final_prompt" = true ∧
      y = dictSet x "final_prompt" (.vstr (pyStrip orig))) := by
  unfold mathGuard at h
  split at h
  · rename_i hcond
    split at h
    · rename_i fp heq
      split at h
      · right
        refine ⟨?_, ((Except.ok.injEq _ _ ▸ h)).symm⟩
        exact hasKey_of_truthy_get x "final_prompt" (by
          simp only [Bool.and_eq_true] at hcond
          exact hcond.2)
      · exact Or.inl ((Except.ok.injEq _ _ ▸ h)).symm
    · simp at h
  · exact Or.inl ((Except.ok.injEq _ _ ▸ h)).symm

theorem mathGuard_ok_frame (x : PyDict) (orig : String) (y : PyDict)
    (h : mathGuard x orig = .ok y) (k : String) (hk : k ≠ "final_prompt") :
    dictGetOpt y k = dictGetOpt x k := by
  rcases mathGuard_ok_cases x orig y h with rfl | ⟨_, rfl⟩
  · rfl
  · exact dictGetOpt_dictSet_ne x _ k _ hk

theorem mathGuard_ok_hasKey (x : PyDict) (orig : String) (y : PyDict)
    (h : mathGuard x orig = .ok y) (k : String) : hasKey y k = hasKey x k := by
  rcases mathGuard_ok_cases x orig y h with rfl | ⟨hp, rfl⟩
  · rfl
  · exact hasKey_dictSet_present x _ _ hp k

theorem templateCheck_cases (x : PyDict) :
    templateCheck x = x ∨ (hasKey x "template" = true ∧
      templateCheck x = dictSet x "template" (.vstr "{query}")) := by
  unfold templateCheck
  by_cases hk : hasKey x "template" = true
  · rw [if_pos hk]
    split
    · split
      · exact Or.inl rfl
      · exact Or.inr ⟨hk, rfl⟩
    · exact Or.inr ⟨hk, rfl⟩
  · rw [if_neg hk]
    exact Or.inl rfl

theorem templateCheck_frame (x : PyDict) (k : String) (hk : k ≠ "template") :
    dictGetOpt (templateCheck x) k = dictGetOpt x k := by
  rcases templateCheck_cases x with he | ⟨_, he⟩ <;> rw [he]
  exact dictGetOpt_dictSet_ne x _ k _ hk

theorem templateCheck_hasKey (x : PyDict) (k : String) :
    hasKey (templateCheck x) k = hasKey x k := by
  rcases templateCheck_cases x with he | ⟨hp, he⟩ <;> rw [he]
  exact hasKey_dictSet_present x _ _ hp k

theorem templateCheck_template (x : PyDict) (h : hasKey x "template" = true) :
    ∃ t, dictGetOpt (templateCheck x) "template" = some (.vstr t) ∧
      strContains t "{query}" = true := by
  unfold templateCheck
  rw [if_pos h]
  obtain ⟨v, hv⟩ := getOpt_of_hasKey x "template" h
  have hg : dictGet x "template" .vnone = v := by
    unfold dictGet
    rw [hv]
    rfl
  rw [hg]
  cases v with
  | vstr t =>
    by_cases hc : strContains t "{query}" = true
    · refine ⟨t, ?_, hc⟩
      show dictGetOpt
        (if strContains t "{query}" = true then x
         else dictSet x "template" (.vstr "{query}")) "template" = some (.vstr t)
      rw [if_pos hc]
      exact hv
    · refine ⟨"{query}", ?_, by decide⟩
      show dictGetOpt
        (if strContains t "{query}" = true then x
         else dictSet x "template" (.vstr "{query}")) "template" = some (.vstr "{query}")
      rw [if_neg hc]
      exact dictGetOpt_dictSet_self x _ _
  | vnone => exact ⟨"{query}", dictGetOpt_dictSet_self x _ _, by decide⟩
  | vbool b => exact ⟨"{query}", dictGetOpt_dictSet_self x _ _, by decide⟩
  | vnum d => exact ⟨"{query}", dictGetOpt_dictSet_self x _ _, by decide⟩
  | vlist xs => exact ⟨"{query}", dictGetOpt_dictSet_self x _ _, by decide⟩
  | vdict kvs => exact ⟨"{query}", dictGetOpt_dictSet_self x _ _, by decide⟩

theorem cleanupFinalPrompt_ok_cases (x y : PyDict) (h : cleanupFinalPrompt x = .ok y) :
    (hasKey x "final_prompt" = false ∧ y = x) ∨
    (∃ fp, dictGetOpt x "final_prompt" = some (.vstr fp) ∧
      y = dictSet x "final_prompt" (.vstr (cleanup_final fp))) := by
  unfold cleanupFinalPrompt at h
  by_cases hk : hasKey x "final_prompt" = true
  · rw [if_pos hk] at h
    obtain ⟨v, hv⟩ := getOpt_of_hasKey x "final_prompt" hk
    have hg : dictGet x "final_prompt" .vnone = v := by
      unfold dictGet
      rw [hv]
      rfl
    rw [hg] at h
    cases v with
    | vstr fp =>
      right
      exact ⟨fp, hv, ((Except.ok.injEq _ _ ▸ h)).symm⟩
    | vnone => exact absurd h (by simp)
    | vbool b => exact absurd h (by simp)
    | vnum d => exact absurd h (by simp)
    | vlist xs => exact absurd h (by simp)
    | vdict kvs => exact absurd h (by simp)
  · rw [if_neg hk] at h
    exact Or.inl ⟨by simpa using hk, ((Except.ok.injEq _ _ ▸ h)).symm⟩

theorem cleanupFinalPrompt_ok_frame (x y : PyDict) (h : cleanupFinalPrompt x = .ok y)
    (k : String) (hk : k ≠ "final_prompt") : dictGetOpt y k = dictGetOpt x k := by
  rcases cleanupFinalPrompt_ok_cases x y h with ⟨_, rfl⟩ | ⟨fp, _, rfl⟩
  · rfl
  · exact dictGetOpt_dictSet_ne x _ k _ hk

theorem cleanupFinalPrompt_ok_hasKey (x y : PyDict) (h : cleanupFinalPrompt x = .ok y)
    (k : String) : hasKey y k = hasKey x k := by
  rcases cleanupFinalPrompt_ok_cases x y h with ⟨_, rfl⟩ | ⟨fp, hfp, rfl⟩
  · rfl
  · exact hasKey_dictSet_present x _ _ (hasKey_of_getOpt _ _ _ hfp) k

theorem addMetadata_frame (x : PyDict) (orig now : String) (k : String)
    (hk : k ≠ "metadata") : dictGetOpt (addMetadata x orig now) k = dictGetOpt x k := by
  unfold addMetadata
  split
  · rfl
  · exact dictGetOpt_dictSet_ne x _ k _ hk

theorem validate_ok_props (cfg : PyDict) (orig now : String) (c : PyDict)
    (h : _validate_and_clean_config cfg orig now = .ok c) :
    (∃ t, dictGetOpt c "template" = some (.vstr t) ∧ strContains t "{query}" = true) ∧
    (∃ pv, dictGetOpt c "parameters" = some pv) ∧
    (∀ ps, dictGetOpt c "parameters" = some (.vdict ps) →
      finalTempProp ps ∧ finalCtxProp ps ∧ finalPredictProp ps) := by
  unfold _validate_and_clean_config at h
  obtain ⟨c1, hs1, h'⟩ := except_bind_ok _ _ _ h
  obtain ⟨c2, hs2, h''⟩ := except_bind_ok _ _ _ h'
  obtain ⟨c4, hs4, h'''⟩ := except_bind_ok _ _ _ h''
  obtain ⟨c5, hs5, h''''⟩ := except_bind_ok _ _ _ h'''
  obtain ⟨c7, hs7, hc⟩ := except_map_ok _ _ _ h''''
  subst hc
  have hchain : dictGetOpt (addMetadata c7 orig now) "parameters"
      = dictGetOpt c4 "parameters" := by
    rw [addMetadata_frame _ _ _ _ (by decide),
      cleanupFinalPrompt_ok_frame _ _ hs7 _ (by decide),
      templateCheck_frame _ _ (by decide), mathGuard_ok_frame _ _ _ hs5 _ (by decide)]
  have hk4 : hasKey c4 "parameters" = true := by
    rw [boundsClamp_ok_hasKey _ _ hs4]
    exact requiredFill_hasKey_parameters c2
  obtain ⟨pv, hpv⟩ := getOpt_of_hasKey c4 _ hk4
  have htk5 : hasKey c5 "template" = true := by
    rw [mathGuard_ok_hasKey _ _ _ hs5, boundsClamp_ok_hasKey _ _ hs4]
    exact requiredFill_hasKey_template c2
  obtain ⟨t, ht6, htc⟩ := templateCheck_template c5 htk5
  have htfinal : dictGetOpt (addMetadata c7 orig now) "template" = some (.vstr t) := by
    rw [addMetadata_frame _ _ _ _ (by decide),
      cleanupFinalPrompt_ok_frame _ _ hs7 _ (by decide)]
    exact ht6
  refine ⟨⟨t, htfinal, htc⟩, ⟨pv, by rw [hchain]; exact hpv⟩, ?_⟩
  intro ps hps
  rw [hchain] at hps
  exact boundsClamp_ok_params_dict _ _ hs4 ps hps

theorem validate_ok_params_dict (cfg : PyDict) (orig now : String) (c : PyDict)
    (ps0 : PyDict)
    (hin : dictGetOpt cfg "parameters" = some (.vdict ps0))
    (h : _validate_and_clean_config cfg orig now = .ok c) :
    ∃ ps, dictGetOpt c "parameters" = some (.vdict ps) := by
  unfold _validate_and_clean_config at h
  obtain ⟨c1, hs1, h'⟩ := except_bind_ok _ _ _ h
  obtain ⟨c2, hs2, h''⟩ := except_bind_ok _ _ _ h'
  obtain ⟨c4, hs4, h'''⟩ := except_bind_ok _ _ _ h''
  obtain ⟨c5, hs5, h''''⟩ := except_bind_ok _ _ _ h'''
  obtain ⟨c7, hs7, hc⟩ := except_map_ok _ _ _ h''''
  subst hc
  have hin1 : dictGetOpt c1 "parameters" = some (.vdict ps0) := by
    rw [formatStep_ok_frame _ _ _ hs1 _ (by decide)]
    exact hin
  have hin2 : dictGetOpt c2 "parameters" = some (.vdict (validate_parameters ps0)) := by
    rcases paramStep_ok_cases c1 c2 hs2 with ⟨hk, heq⟩ | ⟨pd, hpd, heq⟩ | ⟨xs, hxs, heq⟩
    · rw [hasKey_of_getOpt _ _ _ hin1] at hk
      exact absurd hk (by simp)
    · rw [hin1] at hpd
      obtain rfl : ps0 = pd := PyVal.vdict.inj (Option.some.inj hpd)
      rw [heq]
      exact dictGetOpt_dictSet_self _ _ _
    · rw [hin1] at hxs
      exact PyVal.noConfusion (Option.some.inj hxs)
  have hinR : dictGetOpt (requiredFill c2) "parameters"
      = some (.vdict (validate_parameters ps0)) := by
    rw [requiredFill_getOpt_of_hasKey _ _ (hasKey_of_getOpt _ _ _ hin2)]
    exact hin2
  have hin4 : ∃ p3, dictGetOpt c4 "parameters" = some (.vdict p3) := by
    rcases boundsClamp_ok_cases _ _ hs4 with ⟨hk, heq⟩ | ⟨params, p3, hpv, heq, -, -, -⟩ |
      ⟨⟨xs, hxs⟩, heq⟩ | ⟨⟨t, ht⟩, heq⟩
    · rw [hasKey_of_getOpt _ _ _ hinR] at hk
      exact absurd hk (by simp)
    · rw [heq]
      exact ⟨p3, dictGetOpt_dictSet_self _ _ _⟩
    · rw [hinR] at hxs
      exact PyVal.noConfusion (Option.some.inj hxs)
    · rw [hinR] at ht
      exact PyVal.noConfusion (Option.some.inj ht)
  obtain ⟨p3, hp3⟩ := hin4
  refine ⟨p3, ?_⟩
  rw [addMetadata_frame _ _ _ _ (by decide),
    cleanupFinalPrompt_ok_frame _ _ hs7 _ (by decide),
    templateCheck_frame _ _ (by decide), mathGuard_ok_frame _ _ _ hs5 _ (by decide)]
  exact hp3

theorem validate_ok_preserves_present (cfg : PyDict) (orig now : String) (c : PyDict)
    (h : _validate_and_clean_config cfg orig now = .ok c) (k : String)
    (k1 : k ≠ "final_prompt") (k2 : k ≠ "parameters") (k3 : k ≠ "template")
    (k4 : k ≠ "metadata") (hpres : hasKey cfg k = true) :
    dictGetOpt c k = dictGetOpt cfg k := by
  unfold _validate_and_clean_config at h
  obtain ⟨c1, hs1, h'⟩ := except_bind_ok _ _ _ h
  obtain ⟨c2, hs2, h''⟩ := except_bind_ok _ _ _ h'
  obtain ⟨c4, hs4, h'''⟩ := except_bind_ok _ _ _ h''
  obtain ⟨c5, hs5, h''''⟩ := except_bind_ok _ _ _ h'''
  obtain ⟨c7, hs7, hc⟩ := except_map_ok _ _ _ h''''
  subst hc
  have hk2 : hasKey c2 k = true := by
    rw [paramStep_ok_hasKey _ _ hs2, formatStep_ok_hasKey _ _ _ hs1]
    exact hpres
  calc dictGetOpt (addMetadata c7 orig now) k
      = dictGetOpt c7 k := addMetadata_frame _ _ _ _ k4
    _ = dictGetOpt (templateCheck c5) k := cleanupFinalPrompt_ok_frame _ _ hs7 _ k1
    _ = dictGetOpt c5 k := templateCheck_frame _ _ k3
    _ = dictGetOpt c4 k := mathGuard_ok_frame _ _ _ hs5 _ k1
    _ = dictGetOpt (requiredFill c2) k := boundsClamp_ok_frame _ _ hs4 _ k2
    _ = dictGetOpt c2 k := requiredFill_getOpt_of_hasKey c2 k hk2
    _ = dictGetOpt c1 k := paramStep_ok_frame _ _ hs2 k k2
    _ = dictGetOpt cfg k := formatStep_ok_frame _ _ _ hs1 k k1

theorem finishRun_ok_validate (initial now : String) (st : LoopState) (c : PyDict)
    (h : finishRun initial now st = .ok c) :
    ∃ cfg, _validate_and_clean_config cfg initial now = .ok c := by
  unfold finishRun at h
  split at h
  · exact ⟨_, h⟩
  · split at h
    · exact absurd h (by simp)
    · dsimp only [] at h
      split at h
      · exact absurd h (by simp)
      · exact ⟨_, h⟩

theorem refinement_ok_validate (q : String) (mn mx : ℕ) (th : PyNum)
    (oracle : ℕ → String) (now : String) (c : PyDict)
    (h : iterative_prompt_refinement q mn mx th oracle now = .ok c) :
    ∃ cfg, _validate_and_clean_config cfg q now = .ok c := by
  unfold iterative_prompt_refinement at h
  split at h
  · exact absurd h (by simp)
  · dsimp only [] at h
    split at h
    · exact absurd h (by simp)
    · exact finishRun_ok_validate _ _ _ _ h

theorem params_list_not_dict (o : Option PyVal) (h : o = some (PyVal.vlist [])) :
    ¬ ∃ ps : PyDict, o = some (PyVal.vdict ps) := by
  rw [h]
  rintro ⟨ps, hps⟩
  exact PyVal.noConfusion (Option.some.inj hps)

set_option maxHeartbeats 4000000 in
set_option maxRecDepth 100000 in
/-- C4 (counterexample): a gateway response carrying a JSON array as
`parameters` is adopted as best configuration and survives both
finalizer passes — `list.copy()` succeeds and the membership tests on a
list miss the three field names — so the run returns a configuration
whose `parameters` is a list, not a dict within the final-delivery
bounds. -/
theorem c4_list_parameters_counterexample :
    ∃ c, iterative_prompt_refinement "2+2" 1 1 ⟨9, 1⟩
        (fun _ => "\x7b\"quality_score\": 0.8, \"parameters\": []\x7d") "TS" = .ok c ∧
      dictGetOpt c "parameters" = some (PyVal.vlist []) ∧
      ¬ ∃ ps : PyDict, dictGetOpt c "parameters" = some (PyVal.vdict ps) :=
  ⟨_, rfl, rfl, params_list_not_dict _ rfl⟩

/-- C4 (amended): every configuration returned by
`iterative_prompt_refinement` has a string `template` containing the
substring `{query}` and carries a `parameters` entry; whenever that
entry is a dict, each of `temperature`, `num_ctx`, `num_predict`
present in it lies within the final-delivery bounds
(`temperature ∈ [0.1, 1.0]`, `num_ctx ∈ [1024, 8192]`,
`num_predict ∈ [512, 4096]`).  A list-valued `parameters` from the
model response passes through the finalizer untouched. -/
theorem c4_refinement_template_and_bounds (q : String) (mn mx : ℕ) (th : PyNum)
    (oracle : ℕ → String) (now : String) (c : PyDict)
    (h : iterative_prompt_refinement q mn mx th oracle now = .ok c) :
    (∃ t, dictGetOpt c "template" = some (.vstr t) ∧ strContains t "{query}" = true) ∧
    (∃ pv, dictGetOpt c "parameters" = some pv) ∧
    (∀ ps, dictGetOpt c "parameters" = some (.vdict ps) →
      (∀ v, dictGetOpt ps "temperature" = some v →
        ∃ x : PyNum, v = .vnum x ∧ (1 : ℚ)/10 ≤ x.toRat ∧ x.toRat ≤ 1) ∧
      (∀ v, dictGetOpt ps "num_ctx" = some v →
        ∃ n : ℤ, v = .vnum ⟨n, 0⟩ ∧ 1024 ≤ n ∧ n ≤ 8192) ∧
      (∀ v, dictGetOpt ps "num_predict" = some v →
        ∃ n : ℤ, v = .vnum ⟨n, 0⟩ ∧ 512 ≤ n ∧ n ≤ 4096)) := by
  obtain ⟨cfg, hv⟩ := refinement_ok_validate q mn mx th oracle now c h
  exact validate_ok_props cfg q now c hv

set_option maxHeartbeats 4000000 in
set_option maxRecDepth 100000 in
/-- Witness for C4 (amended): the refinement run on `"2+2"` with every
gateway call failing returns a configuration, and the theorem applies to
it. -/
theorem c4_refinement_template_and_bounds_witness :
    ∃ c, iterative_prompt_refinement "2+2" 1 1 ⟨9, 1⟩ (fun _ => "") "TS" = .ok c ∧
      ((∃ t, dictGetOpt c "template" = some (.vstr t) ∧ strContains t "{query}" = true) ∧
      (∃ pv, dictGetOpt c "parameters" = some pv) ∧
      (∀ ps, dictGetOpt c "parameters" = some (.vdict ps) →
        (∀ v, dictGetOpt ps "temperature" = some v →
          ∃ x : PyNum, v = .vnum x ∧ (1 : ℚ)/10 ≤ x.toRat ∧ x.toRat ≤ 1) ∧
        (∀ v, dictGetOpt ps "num_ctx" = some v →
          ∃ n : ℤ, v = .vnum ⟨n, 0⟩ ∧ 1024 ≤ n ∧ n ≤ 8192) ∧
        (∀ v, dictGetOpt ps "num_predict" = some v →
          ∃ n : ℤ, v = .vnum ⟨n, 0⟩ ∧ 512 ≤ n ∧ n ≤ 4096))) :=
  ⟨_, rfl, c4_refinement_template_and_bounds "2+2" 1 1 ⟨9, 1⟩ (fun _ => "") "TS" _ rfl⟩

theorem mathGuard_fires (x : PyDict) (orig : String) (fp : String)
    (htt : dictGetOpt x "task_type" = some (.vstr "math"))
    (hfp : dictGetOpt x "final_prompt" = some (.vstr fp))
    (hne : fp ≠ "")
    (hcalc : CALC_TERMS.any (fun t => strContains (lowerStr fp) t) = true) :
    mathGuard x orig = .ok (dictSet x "final_prompt" (.vstr (pyStrip orig))) := by
  unfold mathGuard
  have hg1 : dictGet x "task_type" .vnone = .vstr "math" := by
    unfold dictGet
    rw [htt]
    rfl
  have hg2 : dictGet x "final_prompt" .vnone = .vstr fp := by
    unfold dictGet
    rw [hfp]
    rfl
  rw [hg1, hg2]
  have htr : pyTruthy (.vstr fp) = true := by
    simp [pyTruthy]
    exact hne
  have hcond : (pyEq (.vstr "math") (.vstr "math") && pyTruthy (.vstr fp)) = true := by
    rw [htr]
    decide
  rw [if_pos hcond]
  show (if CALC_TERMS.any (fun t => strContains (lowerStr fp) t) = true then
      Except.ok (dictSet x "final_prompt" (.vstr (pyStrip orig)))
    else Except.ok x) = Except.ok (dictSet x "final_prompt" (.vstr (pyStrip orig)))
  rw [if_pos hcalc]

set_option maxHeartbeats 1000000 in
set_option maxRecDepth 100000 in
/-- C5 (counterexample): a configuration with `task_type = "math"` and a
non-empty `final_prompt` containing `"calculate"` for which the finalizer
returns a composed role-template prompt, not the whitespace-normalized
original query.  The guard inspects the final prompt only after it has
been re-formatted through the role template, so the `"calculate"` in the
stored prompt never reaches the guard. -/
theorem c5_math_guard_counterexample :
    dictGetOpt [("task_type", PyVal.vstr "math"), ("role", PyVal.vstr "Teacher"),
        ("final_prompt", PyVal.vstr "calculate stuff")] "task_type"
      = some (PyVal.vstr "math") ∧
    dictGetOpt [("task_type", PyVal.vstr "math"), ("role", PyVal.vstr "Teacher"),
        ("final_prompt", PyVal.vstr "calculate stuff")] "final_prompt"
      = some (PyVal.vstr "calculate stuff") ∧
    "calculate stuff" ≠ "" ∧
    strContains (lowerStr "calculate stuff") "calculate" = true ∧
    ∃ c s, _validate_and_clean_config
        [("task_type", PyVal.vstr "math"), ("role", PyVal.vstr "Teacher"),
          ("final_prompt", PyVal.vstr "calculate stuff")] "hello" "TS" = Except.ok c ∧
      dictGetOpt c "final_prompt" = some (PyVal.vstr s) ∧
      s ≠ cleanup_final (pyStrip "hello") :=
  ⟨rfl, rfl, by decide, by decide, _, _, rfl, rfl, by decide⟩

/-- C5 (amended): the math recursion guard applies to the re-formatted
prompt.  If a configuration has `task_type = "math"`, a present
`final_prompt`, and the prompt produced by `format_final_prompt` is
non-empty and contains an arithmetic-action verb case-insensitively, then
the finalizer discards the composed prompt and returns a configuration
whose `final_prompt` is the cleaned (stripped, whitespace-collapsed)
original query. -/
theorem c5_math_guard_amended (cfg : PyDict) (orig now : String) (c : PyDict) (fp1 : String)
    (hkey : hasKey cfg "final_prompt" = true)
    (htt : dictGetOpt cfg "task_type" = some (.vstr "math"))
    (hfmt : format_final_prompt cfg orig = .ok fp1)
    (hne : fp1 ≠ "")
    (hcalc : CALC_TERMS.any (fun t => strContains (lowerStr fp1) t) = true)
    (h : _validate_and_clean_config cfg orig now = .ok c) :
    dictGetOpt c "final_prompt" = some (.vstr (cleanup_final (pyStrip orig))) := by
  unfold _validate_and_clean_config at h
  obtain ⟨c1, hs1, h'⟩ := except_bind_ok _ _ _ h
  obtain ⟨c2, hs2, h''⟩ := except_bind_ok _ _ _ h'
  obtain ⟨c4, hs4, h'''⟩ := except_bind_ok _ _ _ h''
  obtain ⟨c5, hs5, h''''⟩ := except_bind_ok _ _ _ h'''
  obtain ⟨c7, hs7, hc⟩ := except_map_ok _ _ _ h''''
  subst hc
  have hc1 : c1 = dictSet cfg "final_prompt" (.vstr fp1) := by
    unfold formatStep at hs1
    rw [if_pos hkey, hfmt] at hs1
    exact (Except.ok.inj hs1).symm
  have hfp1 : dictGetOpt c1 "final_prompt" = some (.vstr fp1) := by
    rw [hc1]
    exact dictGetOpt_dictSet_self cfg _ _
  have htt1 : dictGetOpt c1 "task_type" = some (.vstr "math") := by
    rw [hc1, dictGetOpt_dictSet_ne cfg _ _ _ (by decide)]
    exact htt
  have hfp2 : dictGetOpt c2 "final_prompt" = some (.vstr fp1) := by
    rw [paramStep_ok_frame _ _ hs2 _ (by decide)]
    exact hfp1
  have htt2 : dictGetOpt c2 "task_type" = some (.vstr "math") := by
    rw [paramStep_ok_frame _ _ hs2 _ (by decide)]
    exact htt1
  have hfp4 : dictGetOpt c4 "final_prompt" = some (.vstr fp1) := by
    rw [boundsClamp_ok_frame _ _ hs4 _ (by decide),
      requiredFill_getOpt_of_hasKey c2 _ (hasKey_of_getOpt _ _ _ hfp2)]
    exact hfp2
  have htt4 : dictGetOpt c4 "task_type" = some (.vstr "math") := by
    rw [boundsClamp_ok_frame _ _ hs4 _ (by decide),
      requiredFill_getOpt_of_hasKey c2 _ (hasKey_of_getOpt _ _ _ htt2)]
    exact htt2
  have hfires := mathGuard_fires c4 orig fp1 htt4 hfp4 hne hcalc
  have hc5 : c5 = dictSet c4 "final_prompt" (.vstr (pyStrip orig)) :=
    Except.ok.inj (hs5.symm.trans hfires)
  have hfp6 : dictGetOpt (templateCheck c5) "final_prompt" = some (.vstr (pyStrip orig)) := by
    rw [templateCheck_frame _ _ (by decide), hc5]
    exact dictGetOpt_dictSet_self c4 _ _
  rcases cleanupFinalPrompt_ok_cases _ _ hs7 with ⟨hk0, rfl⟩ | ⟨fp2, hfp2b, rfl⟩
  · rw [hasKey_of_getOpt _ _ _ hfp6] at hk0
    exact absurd hk0 (by decide)
  · have hfpe : fp2 = pyStrip orig := by
      rw [hfp6] at hfp2b
      exact (PyVal.vstr.inj (Option.some.inj hfp2b)).symm
    subst hfpe
    rw [addMetadata_frame _ _ _ _ (by decide)]
    exact dictGetOpt_dictSet_self (templateCheck c5) _ _

set_option maxHeartbeats 1000000 in
set_option maxRecDepth 100000 in
/-- Witness for C5 (amended): a math-task configuration whose formatted
prompt reads `"Calculate 2+2"`; the returned `final_prompt` is the
cleaned original query `"2+2"`. -/
theorem c5_math_guard_amended_witness :
    ∃ c, _validate_and_clean_config
        [("task_type", PyVal.vstr "math"), ("final_prompt", PyVal.vstr "Calculate {query}")]
        "2+2" "TS" = Except.ok c ∧
      dictGetOpt c "final_prompt" = some (PyVal.vstr (cleanup_final (pyStrip "2+2"))) :=
  ⟨_, rfl, c5_math_guard_amended
    [("task_type", PyVal.vstr "math"), ("final_prompt", PyVal.vstr "Calculate {query}")]
    "2+2" "TS" _ "Calculate 2+2" rfl rfl rfl (by decide) (by decide) rfl⟩

theorem messageStep_inl (fc : Bool) (th : PyNum) (st : LoopState) (result : PyDict)
    (stB : LoopState) (h : messageStep fc th st result = .inl stB) :
    fc = false ∧ (stB.iteration = st.iteration ∨ stB.iteration = st.iteration + 1) := by
  unfold messageStep at h
  dsimp only [] at h
  split at h
  · split at h
    · rename_i hcond
      cases h
      constructor
      · simp only [Bool.and_eq_true, Bool.not_eq_true'] at hcond
        exact hcond.1
      · exact Or.inr rfl
    · exact absurd h (by simp)
  · split at h
    · rename_i hcond
      cases h
      constructor
      · simp only [Bool.and_eq_true, Bool.not_eq_true'] at hcond
        exact hcond.1
      · exact Or.inl rfl
    · exact absurd h (by simp)

theorem messageStep_inr (fc : Bool) (th : PyNum) (st : LoopState) (result : PyDict)
    (stC : LoopState) (h : messageStep fc th st result = .inr stC) :
    stC.iteration = st.iteration + 1 := by
  unfold messageStep at h
  dsimp only [] at h
  split at h
  · split at h
    · exact absurd h (by simp)
    · cases h
      rfl
  · split at h
    · exact absurd h (by simp)
    · cases h
      rfl

theorem bestUpdate_iteration (st : LoopState) (result : PyDict) (cq : PyNum)
    (st1 : LoopState) (h : bestUpdate st result cq = .ok st1) :
    st1.iteration = st.iteration := by
  unfold bestUpdate at h
  dsimp only [] at h
  split at h
  · split at h
    · split at h
      · exact absurd h (by simp)
      · cases h
        rfl
    · cases h
      rfl
  · cases h
    rfl

theorem loopGo_bounds (minIt : ℕ) (th : PyNum) (oracle : ℕ → String) :
    ∀ (fuel : ℕ) (st st' : LoopState),
      loopGo minIt th oracle fuel st = .ok st' →
      st'.iteration = st.iteration + fuel ∨
        (minIt ≤ st'.iteration ∧ st.iteration ≤ st'.iteration ∧
          st'.iteration ≤ st.iteration + fuel) := by
  intro fuel
  induction fuel with
  | zero =>
    intro st st' h
    left
    rw [← Except.ok.inj h]
    omega
  | succ n ih =>
    intro st st' h
    unfold loopGo at h
    dsimp only [] at h
    split at h
    · exact absurd h (by simp)
    · rename_i cq hcq
      split at h
      · exact absurd h (by simp)
      · rename_i st1 hst1
        have hit0 := bestUpdate_iteration _ _ _ _ hst1
        have hit1 : st1.iteration = st.iteration := hit0
        split at h
        · rename_i stB hmsB
          cases h
          obtain ⟨hfc, hit⟩ := messageStep_inl _ _ _ _ _ hmsB
          have hge : ¬ st.iteration < minIt := of_decide_eq_false hfc
          right
          omega
        · rename_i stC hmsC
          have hitC : stC.iteration = st1.iteration + 1 := messageStep_inr _ _ _ _ _ hmsC
          rcases ih stC st' h with heq | ⟨h1, h2, h3⟩
          · left
            omega
          · right
            omega

theorem finishRun_iterations (initial now : String) (st : LoopState) (c : PyDict)
    (h : finishRun initial now st = .ok c) :
    dictGetOpt c "iterations_used" = some (.vnum ⟨(st.iteration : ℤ), 0⟩) := by
  unfold finishRun at h
  split at h
  · dsimp only [] at h
    have hg : dictGetOpt (dictUpdate st.template_config
        [("final_prompt", st.current_message),
         ("iterations_used", .vnum ⟨(st.iteration : ℤ), 0⟩),
         ("final_quality", .vnum st.current_quality)]) "iterations_used"
        = some (.vnum ⟨(st.iteration : ℤ), 0⟩) := by
      show dictGetOpt (dictSet (dictSet (dictSet st.template_config
        "final_prompt" st.current_message)
        "iterations_used" (.vnum ⟨(st.iteration : ℤ), 0⟩))
        "final_quality" (.vnum st.current_quality)) "iterations_used" = _
      rw [dictGetOpt_dictSet_ne _ _ _ _ (by decide)]
      exact dictGetOpt_dictSet_self _ _ _
    rw [validate_ok_preserves_present _ _ _ _ h _ (by decide) (by decide) (by decide)
      (by decide) (hasKey_of_getOpt _ _ _ hg)]
    exact hg
  · split at h
    · exact absurd h (by simp)
    · rename_i bc1 hbc1
      dsimp only [] at h
      split at h
      · exact absurd h (by simp)
      · rename_i params hparams
        have hg : dictGetOpt (dictUpdate bc1
            [("final_prompt", .vstr (format_prompt_with_template
                (dictGet bc1 "template" (.vstr "{query}")) st.current_message
                (dictGet bc1 "role" .vnone) (dictGet bc1 "technique" .vnone))),
             ("iterations_used", .vnum ⟨(st.iteration : ℤ), 0⟩),
             ("final_quality", .vnum st.current_quality),
             ("parameters", params)]) "iterations_used"
            = some (.vnum ⟨(st.iteration : ℤ), 0⟩) := by
          show dictGetOpt (dictSet (dictSet (dictSet (dictSet bc1
            "final_prompt" (.vstr (format_prompt_with_template
                (dictGet bc1 "template" (.vstr "{query}")) st.current_message
                (dictGet bc1 "role" .vnone) (dictGet bc1 "technique" .vnone))))
            "iterations_used" (.vnum ⟨(st.iteration : ℤ), 0⟩))
            "final_quality" (.vnum st.current_quality))
            "parameters" params) "iterations_used" = _
          rw [dictGetOpt_dictSet_ne _ _ _ _ (by decide),
            dictGetOpt_dictSet_ne _ _ _ _ (by decide)]
          exact dictGetOpt_dictSet_self _ _ _
        rw [validate_ok_preserves_present _ _ _ _ h _ (by decide) (by decide) (by decide)
          (by decide) (hasKey_of_getOpt _ _ _ hg)]
        exact hg

/-- C3: with `min_iterations ≤ max_iterations`, the `iterations_used`
reported by a successful `iterative_prompt_refinement` run is an integer
`n` with `min_iterations ≤ n ≤ max_iterations`: the loop never breaks in
an iteration that started below `min_iterations`, and it stops once the
counter reaches `max_iterations`. -/
theorem c3_iterations_used_bounds (q : String) (mn mx : ℕ) (th : PyNum)
    (oracle : ℕ → String) (now : String) (c : PyDict)
    (hmn : mn ≤ mx)
    (h : iterative_prompt_refinement q mn mx th oracle now = .ok c) :
    ∃ n : ℕ, dictGetOpt c "iterations_used" = some (.vnum ⟨(n : ℤ), 0⟩) ∧
      mn ≤ n ∧ n ≤ mx := by
  unfold iterative_prompt_refinement at h
  split at h
  · exact absurd h (by simp)
  · dsimp only [] at h
    split at h
    · exact absurd h (by simp)
    · rename_i st hloop
      have hb := loopGo_bounds mn th oracle mx _ st hloop
      dsimp only [] at hb
      refine ⟨st.iteration, finishRun_iterations _ _ _ _ h, ?_, ?_⟩
      · omega
      · omega

set_option maxHeartbeats 4000000 in
set_option maxRecDepth 100000 in
/-- Witness for C3: a one-iteration run with a failing gateway call
reports `iterations_used = 1`, within the bounds. -/
theorem c3_iterations_used_bounds_witness :
    (1 : ℕ) ≤ 1 ∧
    ∃ c, iterative_prompt_refinement "sum 2 and 2" 1 1 ⟨9, 1⟩ (fun _ => "") "TS" = .ok c ∧
      ∃ n : ℕ, dictGetOpt c "iterations_used" = some (.vnum ⟨(n : ℤ), 0⟩) ∧
        1 ≤ n ∧ n ≤ 1 :=
  ⟨by decide, _, rfl,
    c3_iterations_used_bounds "sum 2 and 2" 1 1 ⟨9, 1⟩ (fun _ => "") "TS" _ (by decide) rfl⟩

theorem except_bind_ok_intro {α β : Type} (a : α) (f : α → Except String β) :
    (Except.ok a).bind f = f a := rfl

theorem except_map_ok_intro {α β : Type} (a : α) (g : α → β) :
    (Except.ok a : Except String α).map g = .ok (g a) := rfl

theorem hasKey_fillStep_other (k kj : String) (v : PyVal) (c : PyDict)
    (h : k ≠ kj) : hasKey (fillStep kj v c) k = hasKey c k := by
  by_cases hc : hasKey c k = true
  · rw [hc]
    exact hasKey_fillStep_mono _ _ _ _ hc
  · have hc' : hasKey c k = false := by simpa using hc
    rw [hc']
    by_cases h2 : hasKey (fillStep kj v c) k = true
    · obtain ⟨w, hw⟩ := getOpt_of_hasKey _ _ h2
      rw [getOpt_fillStep_other _ _ _ _ h, getOpt_none_of_not_hasKey _ _ hc'] at hw
      cases hw
    · simpa using h2

theorem requiredFill_parameters_absent (c : PyDict)
    (h : hasKey c "parameters" = false) :
    dictGetOpt (requiredFill c) "parameters"
      = some (.vdict (get_parameters_for_task "default")) := by
  unfold requiredFill
  rw [getOpt_fillStep_other _ _ _ _ (by decide), getOpt_fillStep_other _ _ _ _ (by decide)]
  exact getOpt_fillStep_absent _ _ _ (by
    rw [hasKey_fillStep_other _ _ _ _ (by decide), hasKey_fillStep_other _ _ _ _ (by decide)]
    exact h)

theorem tempFn_isnum (v : PyVal) : ∃ y, tempFn v = .vnum y := by
  unfold tempFn
  cases h : pyFloatO v with
  | some t => exact ⟨_, rfl⟩
  | none => exact ⟨_, rfl⟩

theorem ctxFn_isnum (v : PyVal) : ∃ y, ctxFn v = .vnum y := by
  unfold ctxFn
  cases h : pyIntO v with
  | some n => exact ⟨_, rfl⟩
  | none => exact ⟨_, rfl⟩

theorem predictFn_isnum (v : PyVal) : ∃ y, predictFn v = .vnum y := by
  unfold predictFn
  cases h : pyIntO v with
  | some n => exact ⟨_, rfl⟩
  | none => exact ⟨_, rfl⟩

theorem hasKey_validate_parameters (m : PyDict) (k : String) :
    hasKey (validate_parameters m) k = hasKey m k := by
  simp only [validate_parameters, validateTemperature_eq, validateNumCtx_eq,
    validateNumPredict_eq, hasKey_fieldStep]

theorem validate_temperature_shape (ps : PyDict) :
    ∀ v, dictGetOpt (validate_parameters ps) "temperature" = some v →
      ∃ y, v = .vnum y := by
  intro v hv
  by_cases hk : hasKey ps "temperature" = true
  · obtain ⟨w, hw⟩ := getOpt_of_hasKey ps _ hk
    rw [getOpt_validate_temperature ps w hw] at hv
    obtain ⟨y, hy⟩ := tempFn_isnum w
    exact ⟨y, by rw [← Option.some.inj hv, hy]⟩
  · have hk2 : hasKey (validate_parameters ps) "temperature" = false := by
      rw [hasKey_validate_parameters]
      simpa using hk
    rw [getOpt_none_of_not_hasKey _ _ hk2] at hv
    cases hv

theorem validate_num_ctx_shape (ps : PyDict) :
    ∀ v, dictGetOpt (validate_parameters ps) "num_ctx" = some v →
      ∃ y, v = .vnum y := by
  intro v hv
  by_cases hk : hasKey ps "num_ctx" = true
  · obtain ⟨w, hw⟩ := getOpt_of_hasKey ps _ hk
    rw [getOpt_validate_num_ctx ps w hw] at hv
    obtain ⟨y, hy⟩ := ctxFn_isnum w
    exact ⟨y, by rw [← Option.some.inj hv, hy]⟩
  · have hk2 : hasKey (validate_parameters ps) "num_ctx" = false := by
      rw [hasKey_validate_parameters]
      simpa using hk
    rw [getOpt_none_of_not_hasKey _ _ hk2] at hv
    cases hv

theorem validate_num_predict_shape (ps : PyDict) :
    ∀ v, dictGetOpt (validate_parameters ps) "num_predict" = some v →
      ∃ y, v = .vnum y := by
  intro v hv
  by_cases hk : hasKey ps "num_predict" = true
  · obtain ⟨w, hw⟩ := getOpt_of_hasKey ps _ hk
    rw [getOpt_validate_num_predict ps w hw] at hv
    obtain ⟨y, hy⟩ := predictFn_isnum w
    exact ⟨y, by rw [← Option.some.inj hv, hy]⟩
  · have hk2 : hasKey (validate_parameters ps) "num_predict" = false := by
      rw [hasKey_validate_parameters]
      simpa using hk
    rw [getOpt_none_of_not_hasKey _ _ hk2] at hv
    cases hv

theorem default_params_shape :
    (∀ v, dictGetOpt (get_parameters_for_task "default") "temperature" = some v →
      ∃ y, v = PyVal.vnum y) ∧
    (∀ v, dictGetOpt (get_parameters_for_task "default") "num_ctx" = some v →
      ∃ y, v = PyVal.vnum y) ∧
    (∀ v, dictGetOpt (get_parameters_for_task "default") "num_predict" = some v →
      ∃ y, v = PyVal.vnum y) := by
  refine ⟨?_, ?_, ?_⟩
  · intro v hv
    rw [show dictGetOpt (get_parameters_for_task "default") "temperature"
      = some (PyVal.vnum ⟨7, 1⟩) from rfl] at hv
    exact ⟨_, (Option.some.inj hv).symm⟩
  · intro v hv
    rw [show dictGetOpt (get_parameters_for_task "default") "num_ctx"
      = some (PyVal.vnum ⟨2048, 0⟩) from rfl] at hv
    exact ⟨_, (Option.some.inj hv).symm⟩
  · intro v hv
    rw [show dictGetOpt (get_parameters_for_task "default") "num_predict"
      = some (PyVal.vnum ⟨1024, 0⟩) from rfl] at hv
    exact ⟨_, (Option.some.inj hv).symm⟩

theorem dictUpdate3_getOpt (d : PyDict) (v1 v2 v3 : PyVal) :
    dictGetOpt (dictUpdate d [("final_prompt", v1), ("iterations_used", v2),
      ("final_quality", v3)]) "final_prompt" = some v1 ∧
    (∀ k, k ≠ "final_prompt" → k ≠ "iterations_used" → k ≠ "final_quality" →
      dictGetOpt (dictUpdate d [("final_prompt", v1), ("iterations_used", v2),
        ("final_quality", v3)]) k = dictGetOpt d k) := by
  constructor
  · show dictGetOpt (dictSet (dictSet (dictSet d "final_prompt" v1)
      "iterations_used" v2) "final_quality" v3) "final_prompt" = _
    rw [dictGetOpt_dictSet_ne _ _ _ _ (by decide),
      dictGetOpt_dictSet_ne _ _ _ _ (by decide)]
    exact dictGetOpt_dictSet_self _ _ _
  · intro k k1 k2 k3
    show dictGetOpt (dictSet (dictSet (dictSet d "final_prompt" v1)
      "iterations_used" v2) "final_quality" v3) k = _
    rw [dictGetOpt_dictSet_ne _ _ _ _ k3, dictGetOpt_dictSet_ne _ _ _ _ k2,
      dictGetOpt_dictSet_ne _ _ _ _ k1]

theorem dictUpdate4_getOpt (d : PyDict) (v1 v2 v3 v4 : PyVal) :
    dictGetOpt (dictUpdate d [("final_prompt", v1), ("iterations_used", v2),
      ("final_quality", v3), ("parameters", v4)]) "final_prompt" = some v1 ∧
    dictGetOpt (dictUpdate d [("final_prompt", v1), ("iterations_used", v2),
      ("final_quality", v3), ("parameters", v4)]) "final_quality" = some v3 ∧
    dictGetOpt (dictUpdate d [("final_prompt", v1), ("iterations_used", v2),
      ("final_quality", v3), ("parameters", v4)]) "parameters" = some v4 ∧
    (∀ k, k ≠ "final_prompt" → k ≠ "iterations_used" → k ≠ "final_quality" →
      k ≠ "parameters" →
      dictGetOpt (dictUpdate d [("final_prompt", v1), ("iterations_used", v2),
        ("final_quality", v3), ("parameters", v4)]) k = dictGetOpt d k) := by
  refine ⟨?_, ?_, ?_, ?_⟩
  · show dictGetOpt (dictSet (dictSet (dictSet (dictSet d "final_prompt" v1)
      "iterations_used" v2) "final_quality" v3) "parameters" v4) "final_prompt" = _
    rw [dictGetOpt_dictSet_ne _ _ _ _ (by decide),
      dictGetOpt_dictSet_ne _ _ _ _ (by decide),
      dictGetOpt_dictSet_ne _ _ _ _ (by decide)]
    exact dictGetOpt_dictSet_self _ _ _
  · show dictGetOpt (dictSet (dictSet (dictSet (dictSet d "final_prompt" v1)
      "iterations_used" v2) "final_quality" v3) "parameters" v4) "final_quality" = _
    rw [dictGetOpt_dictSet_ne _ _ _ _ (by decide)]
    exact dictGetOpt_dictSet_self _ _ _
  · exact dictGetOpt_dictSet_self _ _ _
  · intro k k1 k2 k3 k4
    show dictGetOpt (dictSet (dictSet (dictSet (dictSet d "final_prompt" v1)
      "iterations_used" v2) "final_quality" v3) "parameters" v4) k = _
    rw [dictGetOpt_dictSet_ne _ _ _ _ k4, dictGetOpt_dictSet_ne _ _ _ _ k3,
      dictGetOpt_dictSet_ne _ _ _ _ k2, dictGetOpt_dictSet_ne _ _ _ _ k1]

theorem clampFinalTemp_ok_of_num (ps : PyDict)
    (h : ∀ v, dictGetOpt ps "temperature" = some v → ∃ y, v = .vnum y) :
    ∃ p1, clampFinalTemp ps = .ok p1 ∧
      ∀ k, k ≠ "temperature" → dictGetOpt p1 k = dictGetOpt ps k := by
  unfold clampFinalTemp
  by_cases hk : hasKey ps "temperature" = true
  · rw [if_pos hk]
    obtain ⟨v, hv⟩ := getOpt_of_hasKey ps _ hk
    obtain ⟨y, rfl⟩ := h v hv
    have hdg : dictGet ps "temperature" .vnone = .vnum y := by
      unfold dictGet
      rw [hv]
      rfl
    rw [hdg, show pyFloatE (PyVal.vnum y) = Except.ok y from rfl]
    refine ⟨_, rfl, ?_⟩
    intro k hkne
    exact dictGetOpt_dictSet_ne ps _ k _ hkne
  · rw [if_neg hk]
    exact ⟨ps, rfl, fun k _ => rfl⟩

theorem clampFinalCtx_ok_of_num (ps : PyDict)
    (h : ∀ v, dictGetOpt ps "num_ctx" = some v → ∃ y, v = .vnum y) :
    ∃ p1, clampFinalCtx ps = .ok p1 ∧
      ∀ k, k ≠ "num_ctx" → dictGetOpt p1 k = dictGetOpt ps k := by
  unfold clampFinalCtx
  by_cases hk : hasKey ps "num_ctx" = true
  · rw [if_pos hk]
    obtain ⟨v, hv⟩ := getOpt_of_hasKey ps _ hk
    obtain ⟨y, rfl⟩ := h v hv
    have hdg : dictGet ps "num_ctx" .vnone = .vnum y := by
      unfold dictGet
      rw [hv]
      rfl
    rw [hdg, show pyIntE (PyVal.vnum y) = Except.ok (pnTrunc y) from rfl]
    refine ⟨_, rfl, ?_⟩
    intro k hkne
    exact dictGetOpt_dictSet_ne ps _ k _ hkne
  · rw [if_neg hk]
    exact ⟨ps, rfl, fun k _ => rfl⟩

theorem clampFinalPredict_ok_of_num (ps : PyDict)
    (h : ∀ v, dictGetOpt ps "num_predict" = some v → ∃ y, v = .vnum y) :
    ∃ p1, clampFinalPredict ps = .ok p1 ∧
      ∀ k, k ≠ "num_predict" → dictGetOpt p1 k = dictGetOpt ps k := by
  unfold clampFinalPredict
  by_cases hk : hasKey ps "num_predict" = true
  · rw [if_pos hk]
    obtain ⟨v, hv⟩ := getOpt_of_hasKey ps _ hk
    obtain ⟨y, rfl⟩ := h v hv
    have hdg : dictGet ps "num_predict" .vnone = .vnum y := by
      unfold dictGet
      rw [hv]
      rfl
    rw [hdg, show pyIntE (PyVal.vnum y) = Except.ok (pnTrunc y) from rfl]
    refine ⟨_, rfl, ?_⟩
    intro k hkne
    exact dictGetOpt_dictSet_ne ps _ k _ hkne
  · rw [if_neg hk]
    exact ⟨ps, rfl, fun k _ => rfl⟩

theorem boundsClamp_ok_of_num (cfg : PyDict) (ps : PyDict)
    (hps : dictGetOpt cfg "parameters" = some (.vdict ps))
    (ht : ∀ v, dictGetOpt ps "temperature" = some v → ∃ y, v = .vnum y)
    (hc : ∀ v, dictGetOpt ps "num_ctx" = some v → ∃ y, v = .vnum y)
    (hp : ∀ v, dictGetOpt ps "num_predict" = some v → ∃ y, v = .vnum y) :
    ∃ c4, boundsClamp cfg = .ok c4 := by
  unfold boundsClamp
  rw [if_pos (hasKey_of_getOpt _ _ _ hps)]
  have hdg : dictGet cfg "parameters" .vnone = .vdict ps := by
    unfold dictGet
    rw [hps]
    rfl
  rw [hdg]
  obtain ⟨p1, h1, hf1⟩ := clampFinalTemp_ok_of_num ps ht
  dsimp only []
  rw [h1]
  have hc1 : ∀ v, dictGetOpt p1 "num_ctx" = some v → ∃ y, v = .vnum y := by
    intro v hv
    rw [hf1 _ (by decide)] at hv
    exact hc v hv
  obtain ⟨p2, h2, hf2⟩ := clampFinalCtx_ok_of_num p1 hc1
  dsimp only []
  rw [h2]
  have hp2 : ∀ v, dictGetOpt p2 "num_predict" = some v → ∃ y, v = .vnum y := by
    intro v hv
    rw [hf2 _ (by decide), hf1 _ (by decide)] at hv
    exact hp v hv
  obtain ⟨p3, h3, _⟩ := clampFinalPredict_ok_of_num p2 hp2
  dsimp only []
  rw [h3]
  exact ⟨_, rfl⟩

theorem formatStep_ok_of_fp (cfg : PyDict) (orig : String)
    (hfp : ∀ v, dictGetOpt cfg "final_prompt" = some v → ∃ s, v = .vstr s) :
    ∃ c1, formatStep cfg orig = .ok c1 := by
  unfold formatStep
  by_cases hk : hasKey cfg "final_prompt" = true
  · rw [if_pos hk]
    obtain ⟨v, hv⟩ := getOpt_of_hasKey cfg _ hk
    obtain ⟨s, rfl⟩ := hfp v hv
    have hdg : dictGet cfg "final_prompt" .vnone = .vstr s := by
      unfold dictGet
      rw [hv]
      rfl
    cases hff : format_final_prompt cfg orig with
    | error e =>
      exfalso
      unfold format_final_prompt at hff
      rw [if_pos hk, hdg] at hff
      exact absurd hff (by simp)
    | ok fp =>
      exact ⟨_, rfl⟩
  · rw [if_neg hk]
    exact ⟨cfg, rfl⟩

theorem paramStep_ok_of_par (c1 : PyDict)
    (hpar : ∀ v, dictGetOpt c1 "parameters" = some v → ∃ ps, v = .vdict ps) :
    ∃ c2, paramStep c1 = .ok c2 := by
  unfold paramStep
  by_cases hk : hasKey c1 "parameters" = true
  · rw [if_pos hk]
    obtain ⟨v, hv⟩ := getOpt_of_hasKey c1 _ hk
    obtain ⟨ps, rfl⟩ := hpar v hv
    have hdg : dictGet c1 "parameters" .vnone = .vdict ps := by
      unfold dictGet
      rw [hv]
      rfl
    rw [hdg]
    exact ⟨_, rfl⟩
  · rw [if_neg hk]
    exact ⟨_, rfl⟩

theorem mathGuard_ok_of_fp (x : PyDict) (orig : String)
    (hfp : ∀ v, dictGetOpt x "final_prompt" = some v → ∃ s, v = .vstr s) :
    ∃ y, mathGuard x orig = .ok y := by
  unfold mathGuard
  by_cases hcond : (pyEq (dictGet x "task_type" .vnone) (.vstr "math")
      && pyTruthy (dictGet x "final_prompt" .vnone)) = true
  · rw [if_pos hcond]
    have hkey : hasKey x "final_prompt" = true := hasKey_of_truthy_get x _ (by
      simp only [Bool.and_eq_true] at hcond
      exact hcond.2)
    obtain ⟨v, hv⟩ := getOpt_of_hasKey x _ hkey
    obtain ⟨s, rfl⟩ := hfp v hv
    have hdg : dictGet x "final_prompt" .vnone = .vstr s := by
      unfold dictGet
      rw [hv]
      rfl
    rw [hdg]
    by_cases hcalc : (CALC_TERMS.any (fun t => strContains (lowerStr s) t)) = true
    · refine ⟨dictSet x "final_prompt" (.vstr (pyStrip orig)), ?_⟩
      show (if CALC_TERMS.any (fun t => strContains (lowerStr s) t) = true
        then Except.ok (dictSet x "final_prompt" (.vstr (pyStrip orig)))
        else Except.ok x) = _
      rw [if_pos hcalc]
    · refine ⟨x, ?_⟩
      show (if CALC_TERMS.any (fun t => strContains (lowerStr s) t) = true
        then Except.ok (dictSet x "final_prompt" (.vstr (pyStrip orig)))
        else Except.ok x) = _
      rw [if_neg hcalc]
  · rw [if_neg hcond]
    exact ⟨x, rfl⟩

theorem cleanupFinalPrompt_ok_of_fp (x : PyDict)
    (hfp : ∀ v, dictGetOpt x "final_prompt" = some v → ∃ s, v = .vstr s) :
    ∃ y, cleanupFinalPrompt x = .ok y := by
  unfold cleanupFinalPrompt
  by_cases hk : hasKey x "final_prompt" = true
  · rw [if_pos hk]
    obtain ⟨v, hv⟩ := getOpt_of_hasKey x _ hk
    obtain ⟨s, rfl⟩ := hfp v hv
    have hdg : dictGet x "final_prompt" .vnone = .vstr s := by
      unfold dictGet
      rw [hv]
      rfl
    rw [hdg]
    exact ⟨_, rfl⟩
  · rw [if_neg hk]
    exact ⟨_, rfl⟩

theorem validate_ok_of_shape (cfg : PyDict) (orig now : String)
    (hfp : ∀ v, dictGetOpt cfg "final_prompt" = some v → ∃ s, v = .vstr s)
    (hpar : ∀ v, dictGetOpt cfg "parameters" = some v → ∃ ps, v = .vdict ps) :
    ∃ c, _validate_and_clean_config cfg orig now = .ok c := by
  obtain ⟨c1, h1⟩ := formatStep_ok_of_fp cfg orig hfp
  have hfp1 : ∀ v, dictGetOpt c1 "final_prompt" = some v → ∃ s, v = .vstr s := by
    intro v hv
    rcases formatStep_ok_cases cfg orig c1 h1 with ⟨hk, rfl⟩ | ⟨hk, fp, hff, rfl⟩
    · exact hfp v hv
    · rw [dictGetOpt_dictSet_self] at hv
      exact ⟨fp, (Option.some.inj hv).symm⟩
  obtain ⟨c2, h2⟩ := paramStep_ok_of_par c1 (by
    intro v hv
    rw [formatStep_ok_frame _ _ _ h1 _ (by decide)] at hv
    exact hpar v hv)
  have hfp2 : ∀ v, dictGetOpt c2 "final_prompt" = some v → ∃ s, v = .vstr s := by
    intro v hv
    rw [paramStep_ok_frame _ _ h2 _ (by decide)] at hv
    exact hfp1 v hv
  have hbc : ∃ c4, boundsClamp (requiredFill c2) = .ok c4 := by
    rcases paramStep_ok_cases c1 c2 h2 with ⟨hk, heq⟩ | ⟨pd, hpd, heq⟩ | ⟨xs, hxs, heq⟩
    · rw [heq]
      exact boundsClamp_ok_of_num _ _ (requiredFill_parameters_absent c1 hk)
        default_params_shape.1 default_params_shape.2.1 default_params_shape.2.2
    · rw [heq]
      have hself : dictGetOpt (dictSet c1 "parameters" (.vdict (validate_parameters pd)))
          "parameters" = some (.vdict (validate_parameters pd)) :=
        dictGetOpt_dictSet_self _ _ _
      exact boundsClamp_ok_of_num _ _ (by
          rw [requiredFill_getOpt_of_hasKey _ _ (hasKey_of_getOpt _ _ _ hself)]
          exact hself)
        (validate_temperature_shape pd) (validate_num_ctx_shape pd)
        (validate_num_predict_shape pd)
    · rw [formatStep_ok_frame _ _ _ h1 _ (by decide)] at hxs
      obtain ⟨ps, habs⟩ := hpar _ hxs
      exact PyVal.noConfusion habs
  obtain ⟨c4, h4⟩ := hbc
  have hfp4 : ∀ v, dictGetOpt c4 "final_prompt" = some v → ∃ s, v = .vstr s := by
    intro v hv
    rw [boundsClamp_ok_frame _ _ h4 _ (by decide),
      requiredFill_getOpt_other _ _ (by decide) (by decide) (by decide)
        (by decide) (by decide)] at hv
    exact hfp2 v hv
  obtain ⟨c5, h5⟩ := mathGuard_ok_of_fp c4 orig hfp4
  have hfp5 : ∀ v, dictGetOpt c5 "final_prompt" = some v → ∃ s, v = .vstr s := by
    intro v hv
    rcases mathGuard_ok_cases c4 orig c5 h5 with rfl | ⟨hk, rfl⟩
    · exact hfp4 v hv
    · rw [dictGetOpt_dictSet_self] at hv
      exact ⟨_, (Option.some.inj hv).symm⟩
  obtain ⟨c7, h7⟩ := cleanupFinalPrompt_ok_of_fp (templateCheck c5) (by
    intro v hv
    rw [templateCheck_frame _ _ (by decide)] at hv
    exact hfp5 v hv)
  refine ⟨addMetadata c7 orig now, ?_⟩
  unfold _validate_and_clean_config
  simp only [h1, h2, h4, h5, h7, except_bind_ok_intro, except_map_ok_intro]

theorem determine_template_default (s : String) :
    ∃ tv, determine_template (.vstr s) (some default_config) =
      .ok [("role", .vstr "Mathematician"), ("template", .vstr tv),
        ("parameters", .vdict (get_task_parameters (detect_task_type s))),
        ("technique", .vstr (detect_prompt_technique s)),
        ("task_type", .vstr (detect_task_type s))] := ⟨_, rfl⟩

theorem determine_template_none (q : String) :
    ∃ tv, determine_template (.vstr q) none =
      .ok [("role", .vstr (detect_role q)), ("template", .vstr tv),
        ("parameters", .vdict (get_task_parameters (detect_task_type q))),
        ("technique", .vstr (detect_prompt_technique q)),
        ("task_type", .vstr (detect_task_type q))] := ⟨_, rfl⟩

theorem messageStep_default_cases (fc : Bool) (th : PyNum) (st : LoopState)
    (hmsg : ∃ s, st.current_message = .vstr s) :
    (∃ stB, messageStep fc th st default_config = Sum.inl stB ∧
      (∃ s, stB.current_message = .vstr s) ∧ stB.best_config = st.best_config ∧
      stB.template_config = st.template_config) ∨
    (∃ stC, messageStep fc th st default_config = Sum.inr stC ∧
      (∃ s, stC.current_message = .vstr s) ∧ stC.best_config = st.best_config ∧
      stC.template_config = st.template_config) := by
  unfold messageStep
  dsimp only []
  rw [show dictGet default_config "improved_prompt" PyVal.vnone = PyVal.vnone from rfl,
    show (pyTruthy PyVal.vnone && !pyEq PyVal.vnone st.current_message) = false from rfl,
    if_neg (by simp)]
  split
  · exact Or.inl ⟨st, rfl, hmsg, rfl, rfl⟩
  · exact Or.inr ⟨_, rfl, ⟨_, rfl⟩, rfl, rfl⟩

theorem messageStep_nudge (fc : Bool) (th : PyNum) (st : LoopState)
    (hq : pnLe th st.current_quality = false) :
    messageStep fc th st default_config = .inr { st with
      current_message := .vstr (pyStr st.current_message ++ " (Please refine this further)"),
      iteration := st.iteration + 1 } := by
  unfold messageStep
  dsimp only []
  rw [show dictGet default_config "improved_prompt" PyVal.vnone = PyVal.vnone from rfl,
    show (pyTruthy PyVal.vnone && !pyEq PyVal.vnone st.current_message) = false from rfl,
    if_neg (by simp)]
  have hb : (!fc && pnLe th st.current_quality) = false := by
    rw [hq, Bool.and_false]
  rw [hb, if_neg (by simp), if_neg (by simp)]

theorem bestUpdate_default (st : LoopState) (cq : PyNum)
    (hmsg : ∃ s, st.current_message = .vstr s)
    (hpar : ∀ v, dictGetOpt st.template_config "parameters" = some v → ∃ ps, v = .vdict ps) :
    ∃ st1, bestUpdate st default_config cq = .ok st1 ∧
      st1.current_message = st.current_message ∧
      st1.iteration = st.iteration ∧
      st1.current_quality = st.current_quality ∧
      (st1.best_config = st.best_config ∧ st1.best_quality = st.best_quality ∨
        st1.best_config = some default_config ∧ st1.best_quality = cq) ∧
      (pnLt st.best_quality cq = true →
        st1.best_config = some default_config ∧ st1.best_quality = cq) ∧
      (∀ v, dictGetOpt st1.template_config "parameters" = some v → ∃ ps, v = .vdict ps) := by
  unfold bestUpdate
  dsimp only []
  by_cases hlt : pnLt st.best_quality cq = true
  · rw [if_pos hlt]
    by_cases hdiff : (!pyEq (dictGet default_config "role" PyVal.vnone) st.current_role
        || !pyEq (dictGet default_config "technique" PyVal.vnone) st.current_technique) = true
    · rw [if_pos hdiff]
      obtain ⟨s, hs⟩ := hmsg
      rw [hs]
      obtain ⟨tv, hdt⟩ := determine_template_default s
      rw [hdt]
      refine ⟨_, rfl, rfl, rfl, rfl, Or.inr ⟨rfl, rfl⟩, fun _ => ⟨rfl, rfl⟩, ?_⟩
      dsimp only []
      intro v hv
      have hg : dictGetOpt (dictUpdate st.template_config
          [("role", PyVal.vstr "Mathematician"), ("template", PyVal.vstr tv),
           ("parameters", PyVal.vdict (get_task_parameters (detect_task_type s))),
           ("technique", PyVal.vstr (detect_prompt_technique s)),
           ("task_type", PyVal.vstr (detect_task_type s))]) "parameters"
          = some (PyVal.vdict (get_task_parameters (detect_task_type s))) := by
        show dictGetOpt (dictSet (dictSet (dictSet (dictSet (dictSet st.template_config
          "role" (PyVal.vstr "Mathematician")) "template" (PyVal.vstr tv))
          "parameters" (PyVal.vdict (get_task_parameters (detect_task_type s))))
          "technique" (PyVal.vstr (detect_prompt_technique s)))
          "task_type" (PyVal.vstr (detect_task_type s))) "parameters" = _
        rw [dictGetOpt_dictSet_ne _ _ _ _ (by decide),
          dictGetOpt_dictSet_ne _ _ _ _ (by decide)]
        exact dictGetOpt_dictSet_self _ _ _
      rw [hg] at hv
      exact ⟨_, (Option.some.inj hv).symm⟩
    · rw [if_neg hdiff]
      exact ⟨_, rfl, rfl, rfl, rfl, Or.inr ⟨rfl, rfl⟩, fun _ => ⟨rfl, rfl⟩, hpar⟩
  · rw [if_neg hlt]
    exact ⟨st, rfl, rfl, rfl, rfl, Or.inl ⟨rfl, rfl⟩, fun hc => absurd hc hlt, hpar⟩

theorem loopGo_default (mn : ℕ) (th : PyNum) (oracle : ℕ → String)
    (hdef : ∀ i, parse_json_response (oracle i) = default_config) :
    ∀ (fuel : ℕ) (st : LoopState),
      (∃ s, st.current_message = .vstr s) →
      (st.best_config = none ∨ st.best_config = some default_config) →
      (∀ v, dictGetOpt st.template_config "parameters" = some v → ∃ ps, v = .vdict ps) →
      ∃ st', loopGo mn th oracle fuel st = .ok st' ∧
        (∃ s, st'.current_message = .vstr s) ∧
        (st'.best_config = none ∨ st'.best_config = some default_config) ∧
        (∀ v, dictGetOpt st'.template_config "parameters" = some v → ∃ ps, v = .vdict ps) := by
  intro fuel
  induction fuel with
  | zero =>
    intro st h1 h2 h3
    exact ⟨st, rfl, h1, h2, h3⟩
  | succ n ih =>
    intro st h1 h2 h3
    obtain ⟨st1, hbu, hm1, hi1, hq1, hbb, hadopt, hp1⟩ := bestUpdate_default
      { st with current_quality := ⟨7, 1⟩ } ⟨7, 1⟩ h1 h3
    have hmsg1 : ∃ s, st1.current_message = .vstr s := by
      obtain ⟨s, hs⟩ := h1
      exact ⟨s, hm1.trans hs⟩
    have hb1 : st1.best_config = none ∨ st1.best_config = some default_config := by
      rcases hbb with ⟨hb, _⟩ | ⟨hb, _⟩
      · rw [hb]
        exact h2
      · exact Or.inr hb
    rcases messageStep_default_cases (decide (st.iteration < mn)) th st1 hmsg1 with
      ⟨stB, hms, hmB, hbB, htB⟩ | ⟨stC, hms, hmC, hbC, htC⟩
    · refine ⟨stB, ?_, hmB, ?_, ?_⟩
      · simp only [loopGo]
        rw [hdef st.iteration,
          show pyFloatE (dictGet default_config "quality_score" (.vnum ⟨0, 0⟩))
            = Except.ok (⟨7, 1⟩ : PyNum) from rfl]
        dsimp only []
        rw [hbu]
        dsimp only []
        rw [hms]
      · rw [hbB]
        exact hb1
      · intro v hv
        rw [htB] at hv
        exact hp1 v hv
    · obtain ⟨st', hrun, hI1, hI2, hI3⟩ := ih stC hmC (by rw [hbC]; exact hb1)
        (by intro v hv; rw [htC] at hv; exact hp1 v hv)
      refine ⟨st', ?_, hI1, hI2, hI3⟩
      simp only [loopGo]
      rw [hdef st.iteration,
        show pyFloatE (dictGet default_config "quality_score" (.vnum ⟨0, 0⟩))
          = Except.ok (⟨7, 1⟩ : PyNum) from rfl]
      dsimp only []
      rw [hbu]
      dsimp only []
      rw [hms]
      exact hrun

theorem loopGo_default_run (mn : ℕ) (th : PyNum) (oracle : ℕ → String)
    (hdef : ∀ i, parse_json_response (oracle i) = default_config)
    (hth : pnLe th ⟨7, 1⟩ = false) :
    ∀ (fuel : ℕ) (st : LoopState),
      (∃ s, st.current_message = .vstr s) →
      st.best_config = some default_config →
      st.best_quality = ⟨7, 1⟩ →
      st.current_quality = ⟨7, 1⟩ →
      (∀ v, dictGetOpt st.template_config "parameters" = some v → ∃ ps, v = .vdict ps) →
      ∃ st', loopGo mn th oracle fuel st = .ok st' ∧
        (∃ s, st'.current_message = .vstr s) ∧
        st'.best_config = some default_config ∧
        st'.current_quality = ⟨7, 1⟩ ∧
        st'.iteration = st.iteration + fuel := by
  intro fuel
  induction fuel with
  | zero =>
    intro st h1 h2 h3 h4 h5
    exact ⟨st, rfl, h1, h2, h4, by omega⟩
  | succ n ih =>
    intro st h1 h2 h3 h4 h5
    obtain ⟨st1, hbu, hm1, hi1, hq1, hbb, hadopt, hp1⟩ := bestUpdate_default
      { st with current_quality := ⟨7, 1⟩ } ⟨7, 1⟩ h1 h5
    have hmsg1 : ∃ s, st1.current_message = .vstr s := by
      obtain ⟨s, hs⟩ := h1
      exact ⟨s, hm1.trans hs⟩
    have hb1 : st1.best_config = some default_config := by
      rcases hbb with ⟨hb, _⟩ | ⟨hb, _⟩
      · rw [hb]
        exact h2
      · exact hb
    have hbq1 : st1.best_quality = ⟨7, 1⟩ := by
      rcases hbb with ⟨_, hb⟩ | ⟨_, hb⟩
      · rw [hb]
        exact h3
      · rw [hb]
    have hcq1 : st1.current_quality = ⟨7, 1⟩ := by
      rw [hq1]
    have hnb : pnLe th st1.current_quality = false := by
      rw [hcq1]
      exact hth
    have hms := messageStep_nudge (decide (st.iteration < mn)) th st1 hnb
    obtain ⟨st', hrun, hI1, hI2, hI3, hI4⟩ := ih { st1 with
        current_message := .vstr (pyStr st1.current_message ++ " (Please refine this further)"),
        iteration := st1.iteration + 1 } ⟨_, rfl⟩ hb1 hbq1 hcq1 hp1
    refine ⟨st', ?_, hI1, hI2, hI3, ?_⟩
    · simp only [loopGo]
      rw [hdef st.iteration,
        show pyFloatE (dictGet default_config "quality_score" (.vnum ⟨0, 0⟩))
          = Except.ok (⟨7, 1⟩ : PyNum) from rfl]
      dsimp only []
      rw [hbu]
      dsimp only []
      rw [hms]
      exact hrun
    · have hi1' : st1.iteration = st.iteration := hi1
      have hI4' : st'.iteration = st1.iteration + 1 + n := hI4
      omega

theorem validate_update4_ok (bc1 : PyDict) (orig now : String) (v1 : String)
    (v2 v3 : PyNum) (pd : PyDict) :
    ∃ c, _validate_and_clean_config (dictUpdate bc1 [("final_prompt", .vstr v1),
        ("iterations_used", .vnum v2), ("final_quality", .vnum v3),
        ("parameters", .vdict (validate_parameters pd))]) orig now = .ok c ∧
      dictGetOpt c "final_quality" = some (.vnum v3) ∧
      (∀ k, k ≠ "final_prompt" → k ≠ "iterations_used" → k ≠ "final_quality" →
        k ≠ "parameters" → k ≠ "template" → k ≠ "metadata" → hasKey bc1 k = true →
        dictGetOpt c k = dictGetOpt bc1 k) := by
  obtain ⟨hU1, hU2, hU3, hU4⟩ := dictUpdate4_getOpt bc1 (.vstr v1) (.vnum v2) (.vnum v3)
    (.vdict (validate_parameters pd))
  obtain ⟨c, hc⟩ := validate_ok_of_shape (dictUpdate bc1 [("final_prompt", .vstr v1),
      ("iterations_used", .vnum v2), ("final_quality", .vnum v3),
      ("parameters", .vdict (validate_parameters pd))]) orig now
    (by
      intro v hv
      rw [hU1] at hv
      exact ⟨_, (Option.some.inj hv).symm⟩)
    (by
      intro v hv
      rw [hU3] at hv
      exact ⟨_, (Option.some.inj hv).symm⟩)
  refine ⟨c, hc, ?_, ?_⟩
  · rw [validate_ok_preserves_present _ _ _ _ hc _ (by decide) (by decide) (by decide)
      (by decide) (hasKey_of_getOpt _ _ _ hU2), hU2]
  · intro k k1 k2 k3 k4 k5 k6 hkk
    obtain ⟨w, hw⟩ := getOpt_of_hasKey bc1 k hkk
    have hkB := hasKey_of_getOpt _ _ w ((hU4 k k1 k2 k3 k4).trans hw)
    rw [validate_ok_preserves_present _ _ _ _ hc _ k1 k4 k5 k6 hkB, hU4 k k1 k2 k3 k4]

theorem finishRun_some_default (initial now : String) (st : LoopState)
    (hb : st.best_config = some default_config) :
    ∃ c, finishRun initial now st = .ok c ∧
      dictGetOpt c "role" = some (.vstr "Mathematician") ∧
      dictGetOpt c "final_quality" = some (.vnum st.current_quality) := by
  unfold finishRun
  rw [hb]
  dsimp only []
  obtain ⟨bc1, h1⟩ : ∃ bc1, _validate_and_clean_config default_config initial now
      = Except.ok bc1 := ⟨_, rfl⟩
  rw [h1]
  dsimp only []
  obtain ⟨ps, hps⟩ := validate_ok_params_dict default_config initial now bc1 _ rfl h1
  have hdg : dictGet bc1 "parameters" (.vdict []) = .vdict ps := by
    unfold dictGet
    rw [hps]
    rfl
  rw [hdg, show validate_parameters_v (PyVal.vdict ps)
    = Except.ok (PyVal.vdict (validate_parameters ps)) from rfl]
  dsimp only []
  have hrole1 : dictGetOpt bc1 "role" = some (.vstr "Mathematician") := by
    rw [validate_ok_preserves_present _ _ _ _ h1 _ (by decide) (by decide) (by decide)
      (by decide) (by decide)]
    rfl
  have hkrole : hasKey bc1 "role" = true := hasKey_of_getOpt _ _ _ hrole1
  obtain ⟨c, hc, hfq, hpres⟩ := validate_update4_ok bc1 initial now
    (format_prompt_with_template (dictGet bc1 "template" (.vstr "{query}"))
      st.current_message (dictGet bc1 "role" .vnone) (dictGet bc1 "technique" .vnone))
    ⟨(st.iteration : ℤ), 0⟩ st.current_quality ps
  refine ⟨c, hc, ?_, hfq⟩
  rw [hpres "role" (by decide) (by decide) (by decide) (by decide) (by decide)
    (by decide) hkrole]
  exact hrole1

theorem finishRun_default (initial now : String) (st : LoopState)
    (hmsg : ∃ s, st.current_message = .vstr s)
    (hbest : st.best_config = none ∨ st.best_config = some default_config)
    (hpar : ∀ v, dictGetOpt st.template_config "parameters" = some v → ∃ ps, v = .vdict ps) :
    ∃ c, finishRun initial now st = .ok c := by
  rcases hbest with hb | hb
  · unfold finishRun
    rw [hb]
    dsimp only []
    obtain ⟨h3a, h3b⟩ := dictUpdate3_getOpt st.template_config st.current_message
      (.vnum ⟨(st.iteration : ℤ), 0⟩) (.vnum st.current_quality)
    apply validate_ok_of_shape
    · intro v hv
      rw [h3a] at hv
      obtain ⟨s, hs⟩ := hmsg
      exact ⟨s, by rw [← Option.some.inj hv, hs]⟩
    · intro v hv
      rw [h3b _ (by decide) (by decide) (by decide)] at hv
      exact hpar v hv
  · obtain ⟨c, hc, -, -⟩ := finishRun_some_default initial now st hb
    exact ⟨c, hc⟩

theorem fq_ne_of_eq (o : Option PyVal) (h : o = some (PyVal.vnum ⟨7, 1⟩)) :
    o ≠ some (PyVal.vnum ⟨0, 0⟩) := by
  rw [h]
  intro h2
  have h3 := PyVal.vnum.inj (Option.some.inj h2)
  exact absurd (congrArg PyNum.m h3) (by decide)

theorem refinement_default_ok_aux (q now : String) (mn mx : ℕ) (th : PyNum)
    (oracle : ℕ → String)
    (hdef : ∀ i, parse_json_response (oracle i) = default_config)
    (tc : PyDict) (r tt tq : PyVal)
    (hpar : ∀ v, dictGetOpt tc "parameters" = some v → ∃ ps, v = PyVal.vdict ps) :
    ∃ st' c, loopGo mn th oracle mx
      { current_message := PyVal.vstr q, current_quality := ⟨0, 0⟩, best_quality := ⟨0, 0⟩,
        iteration := 0, best_config := none, template_config := tc,
        current_role := r, current_task_type := tt, current_technique := tq } = .ok st' ∧
      finishRun q now st' = .ok c := by
  obtain ⟨st', hrun, hI1, hI2, hI3⟩ := loopGo_default mn th oracle hdef mx
    { current_message := PyVal.vstr q, current_quality := ⟨0, 0⟩, best_quality := ⟨0, 0⟩,
      iteration := 0, best_config := none, template_config := tc,
      current_role := r, current_task_type := tt, current_technique := tq }
    ⟨q, rfl⟩ (Or.inl rfl) hpar
  obtain ⟨c, hfin⟩ := finishRun_default q now st' hI1 hI2 hI3
  exact ⟨st', c, hrun, hfin⟩

theorem refinement_default_run_aux (q : String) (mn mx : ℕ) (th : PyNum)
    (oracle : ℕ → String)
    (hdef : ∀ i, parse_json_response (oracle i) = default_config)
    (hmx : 1 ≤ mx) (hth : pnLe th ⟨7, 1⟩ = false)
    (tc : PyDict) (r tt tq : PyVal)
    (hpar : ∀ v, dictGetOpt tc "parameters" = some v → ∃ ps, v = PyVal.vdict ps) :
    ∃ st', loopGo mn th oracle mx
      { current_message := PyVal.vstr q, current_quality := ⟨0, 0⟩, best_quality := ⟨0, 0⟩,
        iteration := 0, best_config := none, template_config := tc,
        current_role := r, current_task_type := tt, current_technique := tq } = .ok st' ∧
      st'.best_config = some default_config ∧
      st'.current_quality = ⟨7, 1⟩ ∧
      st'.iteration = mx := by
  obtain ⟨k, rfl⟩ : ∃ k, mx = k + 1 := ⟨mx - 1, by omega⟩
  obtain ⟨st1, hbu, hm1, hi1, hq1, hbb, hadopt, hp1⟩ := bestUpdate_default
    { current_message := PyVal.vstr q, current_quality := ⟨7, 1⟩, best_quality := ⟨0, 0⟩,
      iteration := 0, best_config := none, template_config := tc,
      current_role := r, current_task_type := tt, current_technique := tq }
    ⟨7, 1⟩ ⟨q, rfl⟩ hpar
  obtain ⟨hb1, hbq1⟩ := hadopt (show pnLt (⟨0, 0⟩ : PyNum) ⟨7, 1⟩ = true by decide)
  have hcq1 : st1.current_quality = ⟨7, 1⟩ := by rw [hq1]
  have hnb : pnLe th st1.current_quality = false := by
    rw [hcq1]
    exact hth
  have hms := messageStep_nudge (decide ((0 : ℕ) < mn)) th st1 hnb
  obtain ⟨st', hrun, hI1, hI2, hI3, hI4⟩ := loopGo_default_run mn th oracle hdef hth k
    { st1 with
      current_message := .vstr (pyStr st1.current_message ++ " (Please refine this further)"),
      iteration := st1.iteration + 1 } ⟨_, rfl⟩ hb1 hbq1 hcq1 hp1
  refine ⟨st', ?_, hI2, hI3, ?_⟩
  · simp only [loopGo, hdef]
    rw [show pyFloatE (dictGet default_config "quality_score" (.vnum ⟨0, 0⟩))
      = Except.ok (⟨7, 1⟩ : PyNum) from rfl]
    dsimp only []
    rw [hbu]
    dsimp only []
    rw [hms]
    exact hrun
  · have h1' : st1.iteration = 0 := hi1
    have h4' : st'.iteration = st1.iteration + 1 + k := hI4
    omega

set_option maxHeartbeats 2000000 in
set_option maxRecDepth 100000 in
/-- C1 (counterexample): a gateway outcome that decodes to a JSON object
whose `quality_score` is a non-numeric string makes
`iterative_prompt_refinement` raise the uncaught `float()` conversion
error instead of returning a configuration: the loop is not
exception-free over all gateway outcomes. -/
theorem c1_gateway_exception_counterexample :
    ∃ e, iterative_prompt_refinement "2+2" 1 1 ⟨9, 1⟩
      (fun _ => "\x7b\"quality_score\": \"abc\"\x7d") "TS" = .error e := ⟨_, rfl⟩

/-- C1 (amended): over gateway outcomes that yield no parseable JSON
object (in particular every transport failure, whose `!!ERROR!!` text
contains none), each response parses to the built-in default result and
the refinement loop terminates normally, returning a configuration for
every query, bound set and threshold. -/
theorem c1_gateway_failures_recoverable (q : String) (mn mx : ℕ) (th : PyNum)
    (oracle : ℕ → String) (now : String)
    (hdef : ∀ i, parse_json_response (oracle i) = default_config) :
    ∃ c, iterative_prompt_refinement q mn mx th oracle now = .ok c := by
  unfold iterative_prompt_refinement
  obtain ⟨tv, hdt⟩ := determine_template_none q
  rw [hdt]
  dsimp only []
  set L : PyDict := [("role", PyVal.vstr (detect_role q)), ("template", PyVal.vstr tv),
    ("parameters", PyVal.vdict (get_task_parameters (detect_task_type q))),
    ("technique", PyVal.vstr (detect_prompt_technique q)),
    ("task_type", PyVal.vstr (detect_task_type q))] with hL
  have hpL : dictGetOpt L "parameters"
      = some (PyVal.vdict (get_task_parameters (detect_task_type q))) := by
    rw [hL]
    rfl
  have hparL : ∀ v, dictGetOpt L "parameters" = some v → ∃ ps, v = PyVal.vdict ps := by
    intro v hv
    rw [hpL] at hv
    exact ⟨_, (Option.some.inj hv).symm⟩
  obtain ⟨st', c, hrun, hfin⟩ := refinement_default_ok_aux q now mn mx th oracle hdef
    L (dictGet L "role" (PyVal.vstr "Assistant")) (dictGet L "task_type" (PyVal.vstr "default"))
    (dictGet L "technique" (PyVal.vstr "zero_shot")) hparL
  rw [hrun]
  dsimp only []
  exact ⟨c, hfin⟩

/-- Witness for C1 (amended): the always-failing gateway (empty
responses) on a one-iteration run. -/
theorem c1_gateway_failures_recoverable_witness :
    (∀ i : ℕ, parse_json_response ((fun _ => "") i) = default_config) ∧
    ∃ c, iterative_prompt_refinement "2+2" 1 1 ⟨9, 1⟩ (fun _ => "") "TS" = .ok c :=
  ⟨fun _ => rfl,
    c1_gateway_failures_recoverable "2+2" 1 1 ⟨9, 1⟩ (fun _ => "") "TS" (fun _ => rfl)⟩

set_option maxHeartbeats 2000000 in
set_option maxRecDepth 100000 in
/-- C2 (counterexample): in the all-fail scenario the returned
`final_quality` is `0.7` (the default parse's quality score), not `0.0`
as the specification states. -/
theorem c2_all_fail_counterexample :
    (∀ i : ℕ, parse_json_response ((fun _ => "") i) = default_config) ∧
    ∃ c, iterative_prompt_refinement "2+2" 1 1 ⟨9, 1⟩ (fun _ => "") "TS" = .ok c ∧
      dictGetOpt c "final_quality" = some (PyVal.vnum ⟨7, 1⟩) ∧
      dictGetOpt c "final_quality" ≠ some (PyVal.vnum ⟨0, 0⟩) :=
  ⟨fun _ => rfl, _, rfl, rfl, fq_ne_of_eq _ rfl⟩

/-- C2 (amended): when every gateway call fails to produce parseable
JSON, each response parses to the built-in default (quality `0.7`), and
with a threshold above `0.7` and at least one iteration the run returns a
configuration with role `"Mathematician"`, `final_quality = 0.7` (the
last observed quality score), and `iterations_used = max_iterations`. -/
theorem c2_all_fail_returns_defaults (q : String) (mn mx : ℕ) (th : PyNum)
    (oracle : ℕ → String) (now : String)
    (hdef : ∀ i, parse_json_response (oracle i) = default_config)
    (hmx : 1 ≤ mx)
    (hth : (7 : ℚ)/10 < th.toRat) :
    ∃ c, iterative_prompt_refinement q mn mx th oracle now = .ok c ∧
      dictGetOpt c "role" = some (.vstr "Mathematician") ∧
      dictGetOpt c "final_quality" = some (.vnum ⟨7, 1⟩) ∧
      dictGetOpt c "iterations_used" = some (.vnum ⟨(mx : ℤ), 0⟩) := by
  have hth2 : pnLe th ⟨7, 1⟩ = false := by
    rw [← Bool.not_eq_true, pnLe_iff,
      show (⟨7, 1⟩ : PyNum).toRat = 7/10 from by norm_num [PyNum.toRat]]
    exact not_le.mpr hth
  unfold iterative_prompt_refinement
  obtain ⟨tv, hdt⟩ := determine_template_none q
  rw [hdt]
  dsimp only []
  set L : PyDict := [("role", PyVal.vstr (detect_role q)), ("template", PyVal.vstr tv),
    ("parameters", PyVal.vdict (get_task_parameters (detect_task_type q))),
    ("technique", PyVal.vstr (detect_prompt_technique q)),
    ("task_type", PyVal.vstr (detect_task_type q))] with hL
  have hpL : dictGetOpt L "parameters"
      = some (PyVal.vdict (get_task_parameters (detect_task_type q))) := by
    rw [hL]
    rfl
  have hparL : ∀ v, dictGetOpt L "parameters" = some v → ∃ ps, v = PyVal.vdict ps := by
    intro v hv
    rw [hpL] at hv
    exact ⟨_, (Option.some.inj hv).symm⟩
  obtain ⟨st', hrun, hb', hq', hit'⟩ := refinement_default_run_aux q mn mx th oracle hdef
    hmx hth2 L (dictGet L "role" (PyVal.vstr "Assistant"))
    (dictGet L "task_type" (PyVal.vstr "default"))
    (dictGet L "technique" (PyVal.vstr "zero_shot")) hparL
  rw [hrun]
  dsimp only []
  obtain ⟨c, hfin, hrole, hfq⟩ := finishRun_some_default q now st' hb'
  refine ⟨c, hfin, hrole, ?_, ?_⟩
  · rw [hq'] at hfq
    exact hfq
  · have hiters := finishRun_iterations q now st' c hfin
    rw [hit'] at hiters
    exact hiters

/-- Witness for C2 (amended): the always-failing gateway on a
two-iteration run with threshold `0.9`. -/
theorem c2_all_fail_returns_defaults_witness :
    (∀ i : ℕ, parse_json_response ((fun _ => "") i) = default_config) ∧
    (1 : ℕ) ≤ 2 ∧ (7 : ℚ)/10 < (⟨9, 1⟩ : PyNum).toRat ∧
    ∃ c, iterative_prompt_refinement "2+2" 1 2 ⟨9, 1⟩ (fun _ => "") "TS" = .ok c ∧
      dictGetOpt c "role" = some (.vstr "Mathematician") ∧
      dictGetOpt c "final_quality" = some (.vnum ⟨7, 1⟩) ∧
      dictGetOpt c "iterations_used" = some (.vnum ⟨(2 : ℤ), 0⟩) :=
  ⟨fun _ => rfl, by decide, by norm_num [PyNum.toRat],
    c2_all_fail_returns_defaults "2+2" 1 2 ⟨9, 1⟩ (fun _ => "") "TS" (fun _ => rfl)
      (by decide) (by norm_num [PyNum.toRat])⟩
